import Mathlib

/-!
# Smart stroller: door resource service and infrared obstacle sensor

A shallow embedding of `src/model/model_infrared_obstacle_avoidance_sensor.c`
and `src/connectivity.c`.  The two vendor libraries the code is written against
(the peripheral GPIO API and the iotcon resource framework) are not part of the
repository; their calls are embedded as transitions on an explicit world state,
and the status every fallible call reports is drawn from a platform parameter
that may depend on everything that happened before the call.
-/

namespace Sensor

/-- `#define GPIO_NUM 4`. -/
def GPIO_NUM : Nat := 4

/-- The direction constants of the peripheral API (only the input direction is used). -/
inductive peripheral_gpio_direction_e where
  | PERIPHERAL_GPIO_DIRECTION_IN
  | PERIPHERAL_GPIO_DIRECTION_OUT_INITIALLY_HIGH
  | PERIPHERAL_GPIO_DIRECTION_OUT_INITIALLY_LOW
  deriving DecidableEq, Repr

open peripheral_gpio_direction_e

/-- What the sensor module does that is visible from outside: the `_I` log lines
and the peripheral calls with their arguments and reported status.  `gpio_open`
records the value of the stored handle after the call (`0` is the null handle). -/
inductive Ev where
  | log (msg : String)
  | gpio_open (pin : Nat) (ret : Int) (gpio : Nat)
  | gpio_set_direction (gpio : Nat) (dir : peripheral_gpio_direction_e) (ret : Int)
  | gpio_close (gpio : Nat)
  | gpio_read (gpio : Nat) (ret : Int) (value : Int)
  deriving DecidableEq, Repr

/-- The peripheral library, as a parameter.  Each call reports a status that may
depend on the history; `gpio_open` may or may not store a handle through its out
parameter (`none`: the out parameter is left as it was). -/
structure Peripheral where
  gpio_open : List Ev → Nat → Int × Option Nat
  gpio_set_direction : List Ev → Nat → peripheral_gpio_direction_e → Int
  gpio_read : List Ev → Nat → Int × Option Int

/-- The module state: the static `model_infrared_obstacle_avoidance_sensor_s`
(its single field `gpio`, `0` when null) and the history of visible events. -/
structure State where
  gpio : Nat
  trace : List Ev
  deriving DecidableEq, Repr

/-- The state at program start: statics are zero-initialised. -/
def State.initial : State := { gpio := 0, trace := [] }

def State.emit (s : State) (e : Ev) : State := { s with trace := s.trace ++ [e] }

/-- `peripheral_gpio_open(pin, &gpio)`. -/
def peripheral_gpio_open (p : Peripheral) (pin : Nat) (s : State) : Int × State :=
  let r := p.gpio_open s.trace pin
  let g := r.2.getD s.gpio
  (r.1, { gpio := g, trace := s.trace ++ [Ev.gpio_open pin r.1 g] })

/-- `peripheral_gpio_set_direction(gpio, direction)`. -/
def peripheral_gpio_set_direction (p : Peripheral) (gpio : Nat)
    (dir : peripheral_gpio_direction_e) (s : State) : Int × State :=
  let r := p.gpio_set_direction s.trace gpio dir
  (r, s.emit (Ev.gpio_set_direction gpio dir r))

/-- `peripheral_gpio_close(gpio)`; the module ignores its status. -/
def peripheral_gpio_close (gpio : Nat) (s : State) : State :=
  s.emit (Ev.gpio_close gpio)

/-- `peripheral_gpio_read(gpio, out_value)`; `cur` is the caller's `*out_value`. -/
def peripheral_gpio_read (p : Peripheral) (gpio : Nat) (cur : Int) (s : State) :
    Int × Int × State :=
  let r := p.gpio_read s.trace gpio
  let v := r.2.getD cur
  (r.1, v, s.emit (Ev.gpio_read gpio r.1 v))

def FINI_MSG : String := "Infrared Motion Sensor is finishing..."

def INIT_MSG : String := "Infrared Motion Sensor is initializing..."

/-- `void model_fini_infrared_obstacle_avoidance_sensor(void)`. -/
def model_fini_infrared_obstacle_avoidance_sensor (s : State) : State :=
  let s := s.emit (Ev.log FINI_MSG)
  if s.gpio ≠ 0 then peripheral_gpio_close s.gpio s else s

/-- `int model_init_infrared_obstacle_avoidance_sensor(void)`. -/
def model_init_infrared_obstacle_avoidance_sensor (p : Peripheral) (s : State) : Int × State :=
  let s := s.emit (Ev.log INIT_MSG)
  let (ret, s) := peripheral_gpio_open p GPIO_NUM s
  if ret ≠ 0 then (-1, s) else
  if s.gpio = 0 then (-1, s) else
  let (ret, s) := peripheral_gpio_set_direction p s.gpio PERIPHERAL_GPIO_DIRECTION_IN s
  if ret ≠ 0 then (-1, model_fini_infrared_obstacle_avoidance_sensor s) else
  (0, s)

/-- `int model_read_infrared_obstacle_avoidance_sensor(int *out_value)`. -/
def model_read_infrared_obstacle_avoidance_sensor (p : Peripheral) (out_value : Int)
    (s : State) : Int × Int × State :=
  let (ret, v, s) := peripheral_gpio_read p s.gpio out_value s
  if ret < 0 then (-1, v, s) else
  (0, v, s.emit (Ev.log "Infrared Motion Sensor Value : %d"))

/-- The number of `peripheral_gpio_close` calls made on handle `h` in a history. -/
def closeCount (h : Nat) (t : List Ev) : Nat := t.count (Ev.gpio_close h)

/-- The number of times the teardown routine was entered during a history: the
routine logs `FINI_MSG` on entry and nothing else does. -/
def finiCalls (t : List Ev) : Nat := t.count (Ev.log FINI_MSG)

/-- The status of the `peripheral_gpio_open` call of the init routine started in
`s`, and the state right after that call. -/
def afterOpen (p : Peripheral) (s : State) : Int × State :=
  peripheral_gpio_open p GPIO_NUM (s.emit (Ev.log INIT_MSG))

/-- The status of the `peripheral_gpio_set_direction` call that follows a
successful open in the init routine started in `s`, and the state right after
that call. -/
def afterDirection (p : Peripheral) (s : State) : Int × State :=
  peripheral_gpio_set_direction p (afterOpen p s).2.gpio PERIPHERAL_GPIO_DIRECTION_IN
    (afterOpen p s).2

/-- A peripheral library on which every call succeeds; `open` hands out handle `7`. -/
def okPeripheral : Peripheral :=
  { gpio_open := fun _ _ => (0, some 7)
    gpio_set_direction := fun _ _ _ => 0
    gpio_read := fun _ _ => (0, some 1) }

/-- A peripheral library whose `open` fails without storing a handle. -/
def openFails : Peripheral :=
  { okPeripheral with gpio_open := fun _ _ => (-1, none) }

/-- A peripheral library whose `open` reports success but stores a null handle. -/
def openNull : Peripheral :=
  { okPeripheral with gpio_open := fun _ _ => (0, some 0) }

/-- A peripheral library whose `set_direction` fails. -/
def directionFails : Peripheral :=
  { okPeripheral with gpio_set_direction := fun _ _ _ => -1 }

end Sensor

namespace Connectivity

/-! ## Constants and platform data types -/

def ULTRASONIC_RESOURCE_1_URI : String := "/door/1"

def ULTRASONIC_RESOURCE_2_URI : String := "/door/2"

def ULTRASONIC_RESOURCE_TYPE : String := "org.tizen.door"

/-- The success status of the iotcon library.  The header is not part of the
repository; the code compares the result of its own `_handle_query` (`0` or `-1`)
against this constant, so it is taken to be `0`. -/
abbrev IOTCON_ERROR_NONE : Int := 0

/-- The status the platform model reports when it is handed a handle that is not live. -/
abbrev IOTCON_ERROR_INVALID_PARAMETER : Int := -22

inductive iotcon_response_result_e where
  | IOTCON_RESPONSE_OK
  | IOTCON_RESPONSE_ERROR
  | IOTCON_RESPONSE_RESOURCE_CREATED
  | IOTCON_RESPONSE_RESOURCE_DELETED
  | IOTCON_RESPONSE_RESOURCE_CHANGED
  | IOTCON_RESPONSE_SLOW
  | IOTCON_RESPONSE_FORBIDDEN
  deriving DecidableEq, Repr

inductive iotcon_request_type_e where
  | IOTCON_REQUEST_UNKNOWN
  | IOTCON_REQUEST_GET
  | IOTCON_REQUEST_PUT
  | IOTCON_REQUEST_POST
  | IOTCON_REQUEST_DELETE
  deriving DecidableEq, Repr

inductive iotcon_observe_type_e where
  | IOTCON_OBSERVE_NO_TYPE
  | IOTCON_OBSERVE_REGISTER
  | IOTCON_OBSERVE_DEREGISTER
  deriving DecidableEq, Repr

inductive iotcon_qos_e where
  | IOTCON_QOS_LOW
  | IOTCON_QOS_HIGH
  deriving DecidableEq, Repr

inductive iotcon_resource_policy_e where
  | IOTCON_RESOURCE_DISCOVERABLE
  | IOTCON_RESOURCE_OBSERVABLE
  | IOTCON_RESOURCE_ACTIVE
  | IOTCON_RESOURCE_SLOW
  | IOTCON_RESOURCE_SECURE
  | IOTCON_RESOURCE_EXPLICIT_DISCOVERABLE
  deriving DecidableEq, Repr

/-- The interface names the code registers (string constants of the iotcon header). -/
inductive iotcon_interface where
  | IOTCON_INTERFACE_DEFAULT
  | IOTCON_INTERFACE_BATCH
  deriving DecidableEq, Repr

open iotcon_response_result_e iotcon_request_type_e iotcon_observe_type_e iotcon_qos_e
open iotcon_resource_policy_e iotcon_interface

/-- An attribute value: the code stores booleans (`"opened"`) and strings (`"createduripath"`). -/
inductive Value where
  | bool (b : Bool)
  | str (s : String)
  deriving DecidableEq, Repr

abbrev Attributes := List (String × Value)

/-- The record `connectivity_resource_s` of `connectivity.h`: the platform resource
handle and the observers handle (`0` is the null handle). -/
structure connectivity_resource_s where
  res : Nat
  observers : Nat
  deriving DecidableEq, Repr

/-- A representation object: its uri path and the handle of its attributes (`0`: none). -/
structure RepresentationObj where
  uri_path : Option String
  attributes : Nat
  deriving DecidableEq, Repr

/-- An attributes object: its entries and its reference count. -/
structure AttributesObj where
  entries : Attributes
  refs : Nat
  deriving DecidableEq, Repr

/-- A response object under construction. -/
structure ResponseObj where
  result : Option iotcon_response_result_e
  representation : Nat
  deriving DecidableEq, Repr

/-- A registered platform resource. -/
structure ResourceObj where
  uri_path : String
  types : List String
  ifaces : List iotcon_interface
  policies : List iotcon_resource_policy_e
  user_data : Nat
  deriving DecidableEq, Repr

/-- The content of a representation as it goes out on the network. -/
structure Payload where
  uri_path : Option String
  attributes : Attributes
  deriving DecidableEq, Repr

/-- What the platform puts on the network. -/
inductive Message where
  | response (result : Option iotcon_response_result_e) (payload : Option Payload)
  | notification (res : Nat) (observers : Nat) (subscribers : List Int)
      (payload : Option Payload) (qos : iotcon_qos_e)
  deriving DecidableEq, Repr

/-- An incoming request, owned by the platform.  `representation` is the handle of
the request body in the platform heap. -/
structure Request where
  host_address : String
  query : Option (List (String × String))
  type : iotcon_request_type_e
  observe_type : iotcon_observe_type_e
  observe_id : Int
  representation : Nat
  deriving DecidableEq, Repr

/-- The library calls the code makes, with their arguments. -/
inductive Call where
  | calloc
  | free (p : Nat)
  | iotcon_response_create
  | iotcon_response_set_result (response : Nat) (result : iotcon_response_result_e)
  | iotcon_response_set_representation (response : Nat) (representation : Nat)
  | iotcon_response_send (response : Nat)
  | iotcon_response_destroy (response : Nat)
  | iotcon_representation_create
  | iotcon_representation_destroy (representation : Nat)
  | iotcon_representation_set_uri_path (representation : Nat) (uri_path : String)
  | iotcon_representation_set_attributes (representation : Nat) (attributes : Nat)
  | iotcon_representation_get_attributes (representation : Nat)
  | iotcon_attributes_create
  | iotcon_attributes_destroy (attributes : Nat)
  | iotcon_attributes_add_bool (attributes : Nat) (key : String) (value : Bool)
  | iotcon_attributes_add_str (attributes : Nat) (key : String) (value : String)
  | iotcon_attributes_get_bool (attributes : Nat) (key : String)
  | iotcon_resource_get_uri_path (res : Nat)
  | iotcon_resource_notify (res : Nat) (representation : Nat) (observers : Nat) (qos : iotcon_qos_e)
  | iotcon_resource_create (uri_path : String) (types : Nat) (ifaces : Nat)
      (policies : List iotcon_resource_policy_e) (user_data : Nat)
  | iotcon_resource_destroy (res : Nat)
  | iotcon_resource_types_create
  | iotcon_resource_types_add (types : Nat) (type : String)
  | iotcon_resource_types_destroy (types : Nat)
  | iotcon_resource_interfaces_create
  | iotcon_resource_interfaces_add (ifaces : Nat) (iface : iotcon_interface)
  | iotcon_resource_interfaces_destroy (ifaces : Nat)
  | iotcon_observers_create
  | iotcon_observers_add (observers : Nat) (id : Int)
  | iotcon_observers_remove (observers : Nat) (id : Int)
  | iotcon_observers_destroy (observers : Nat)
  | iotcon_request_get_host_address
  | iotcon_request_get_query
  | iotcon_query_foreach (entries : List (String × String))
  | iotcon_request_get_request_type
  | iotcon_request_get_observe_type
  | iotcon_request_get_observe_id
  | iotcon_request_get_representation
  deriving DecidableEq, Repr

/-- One entry of the call history: the call and the status it reported. -/
structure Event where
  call : Call
  status : Int
  deriving DecidableEq, Repr

/-- The platform, as a parameter: the status each fallible call reports, which may
depend on the whole history and on the call and its arguments. -/
abbrev Platform := List Event → Call → Int

/-- A platform on which every call succeeds. -/
def allOk : Platform := fun _ _ => IOTCON_ERROR_NONE

/-! ## Handle tables -/

/-- The object stored under handle `h` (first entry with that key). -/
def find? {β : Type} (h : Nat) : List (Nat × β) → Option β
  | [] => none
  | (k, v) :: l => if k = h then some v else find? h l

/-- Drop the first entry stored under handle `h`. -/
def remove {β : Type} (h : Nat) : List (Nat × β) → List (Nat × β)
  | [] => []
  | (k, v) :: l => if k = h then l else (k, v) :: remove h l

/-- Overwrite the first entry stored under handle `h`. -/
def store {β : Type} (h : Nat) (x : β) : List (Nat × β) → List (Nat × β)
  | [] => []
  | (k, v) :: l => if k = h then (k, x) :: l else (k, v) :: store h x l

/-- The handles of a table. -/
def handles {β : Type} (l : List (Nat × β)) : List Nat := l.map Prod.fst

/-! ## World state -/

/-- The state the code runs against: the call history, the network output, the
`_E` log, the handle counter, the allocated records, the live platform objects of
each kind, and the static latch `_resource_created`. -/
structure World where
  trace : List Event
  wire : List Message
  log : List String
  next : Nat
  records : List (Nat × connectivity_resource_s)
  responses : List (Nat × ResponseObj)
  representations : List (Nat × RepresentationObj)
  attributes : List (Nat × AttributesObj)
  resource_types : List (Nat × List String)
  interfaces : List (Nat × List iotcon_interface)
  resources : List (Nat × ResourceObj)
  observers : List (Nat × List Int)
  _resource_created : Bool
  deriving DecidableEq, Repr

/-- The state at program start: nothing allocated, the latch zero-initialised. -/
def World.initial : World :=
  { trace := [], wire := [], log := [], next := 0, records := [], responses := [],
    representations := [], attributes := [], resource_types := [], interfaces := [],
    resources := [], observers := [], _resource_created := false }

def World.emit (w : World) (c : Call) (status : Int) : World :=
  { w with trace := w.trace ++ [⟨c, status⟩] }

/-- The record a `connectivity_resource_s *` points at.  Reading through a pointer
that is not allocated is outside the C semantics; the model reads zero fields. -/
def World.record (w : World) (p : Nat) : connectivity_resource_s :=
  (find? p w.records).getD ⟨0, 0⟩

/-- The `_E` error log. -/
def _E (msg : String) (w : World) : World := { w with log := w.log ++ [msg] }

/-! ## The platform calls

Every call appends itself and the status it reported to the history.  A call that
creates an object hands out a fresh non-null handle; a call on a handle that is
not live reports `IOTCON_ERROR_INVALID_PARAMETER`; otherwise the status is the
platform's, and the call takes effect only when it is `IOTCON_ERROR_NONE`.
A destroy call gives up the handle it is passed: the object is released whatever
status is reported.  The code looks at the status of one destroy call only,
`iotcon_resource_destroy` in `_handle_delete_request`; that status is the
platform's. -/

/-- `calloc(1, sizeof(connectivity_resource_s))`: a zeroed record at a fresh address,
or the null pointer when the allocation fails. -/
def calloc (sdk : Platform) (w : World) : Nat × World :=
  let st := sdk w.trace Call.calloc
  if st = 0 then
    (w.next + 1, { w.emit Call.calloc st with
      next := w.next + 1, records := (w.next + 1, ⟨0, 0⟩) :: w.records })
  else (0, w.emit Call.calloc st)

/-- `free(p)`. -/
def free (p : Nat) (w : World) : World :=
  { w.emit (Call.free p) 0 with records := remove p w.records }

/-- The content of the representation behind a handle, as it would be sent. -/
def World.payload (w : World) (representation : Nat) : Option Payload :=
  match find? representation w.representations with
  | none => none
  | some r =>
    some { uri_path := r.uri_path
           attributes := match find? r.attributes w.attributes with
             | some a => a.entries
             | none => [] }

/-- Drop one reference to an attributes object, releasing it with the last one
(nothing to do for the null handle). -/
def releaseAttributes (a : Nat) (t : List (Nat × AttributesObj)) : List (Nat × AttributesObj) :=
  if a = 0 then t else
  match find? a t with
  | none => t
  | some o => if o.refs ≤ 1 then remove a t else store a { o with refs := o.refs - 1 } t

/-- Set an entry of an attribute table, replacing an earlier entry under the same key. -/
def setEntry (key : String) (v : Value) (entries : Attributes) : Attributes :=
  (key, v) :: entries.filter (fun e => e.1 ≠ key)

def iotcon_response_create (sdk : Platform) (w : World) : Int × Nat × World :=
  let c := Call.iotcon_response_create
  let st := sdk w.trace c
  if st = IOTCON_ERROR_NONE then
    (st, w.next + 1, { w.emit c st with
      next := w.next + 1, responses := (w.next + 1, ⟨none, 0⟩) :: w.responses })
  else (st, 0, w.emit c st)

def iotcon_response_set_result (sdk : Platform) (response : Nat)
    (result : iotcon_response_result_e) (w : World) : Int × World :=
  let c := Call.iotcon_response_set_result response result
  match find? response w.responses with
  | none => (IOTCON_ERROR_INVALID_PARAMETER, w.emit c IOTCON_ERROR_INVALID_PARAMETER)
  | some r =>
    let st := sdk w.trace c
    if st = IOTCON_ERROR_NONE then
      (st, { w.emit c st with
        responses := store response { r with result := some result } w.responses })
    else (st, w.emit c st)

def iotcon_response_set_representation (sdk : Platform) (response : Nat)
    (representation : Nat) (w : World) : Int × World :=
  let c := Call.iotcon_response_set_representation response representation
  match find? response w.responses with
  | none => (IOTCON_ERROR_INVALID_PARAMETER, w.emit c IOTCON_ERROR_INVALID_PARAMETER)
  | some r =>
    let st := sdk w.trace c
    if st = IOTCON_ERROR_NONE then
      (st, { w.emit c st with
        responses := store response { r with representation := representation } w.responses })
    else (st, w.emit c st)

/-- `iotcon_response_send`: on success the response goes out on the network. -/
def iotcon_response_send (sdk : Platform) (response : Nat) (w : World) : Int × World :=
  let c := Call.iotcon_response_send response
  match find? response w.responses with
  | none => (IOTCON_ERROR_INVALID_PARAMETER, w.emit c IOTCON_ERROR_INVALID_PARAMETER)
  | some r =>
    let st := sdk w.trace c
    if st = IOTCON_ERROR_NONE then
      (st, { w.emit c st with
        wire := w.wire ++ [Message.response r.result (w.payload r.representation)] })
    else (st, w.emit c st)

def iotcon_response_destroy (response : Nat) (w : World) : World :=
  { w.emit (Call.iotcon_response_destroy response) 0 with
    responses := remove response w.responses }

def iotcon_representation_create (sdk : Platform) (w : World) : Int × Nat × World :=
  let c := Call.iotcon_representation_create
  let st := sdk w.trace c
  if st = IOTCON_ERROR_NONE then
    (st, w.next + 1, { w.emit c st with
      next := w.next + 1, representations := (w.next + 1, ⟨none, 0⟩) :: w.representations })
  else (st, 0, w.emit c st)

/-- `iotcon_representation_destroy`: releases the representation and its reference
to its attributes. -/
def iotcon_representation_destroy (representation : Nat) (w : World) : World :=
  let c := Call.iotcon_representation_destroy representation
  match find? representation w.representations with
  | none => w.emit c IOTCON_ERROR_INVALID_PARAMETER
  | some r =>
    { w.emit c 0 with
      representations := remove representation w.representations
      attributes := releaseAttributes r.attributes w.attributes }

def iotcon_representation_set_uri_path (sdk : Platform) (representation : Nat)
    (uri_path : String) (w : World) : Int × World :=
  let c := Call.iotcon_representation_set_uri_path representation uri_path
  match find? representation w.representations with
  | none => (IOTCON_ERROR_INVALID_PARAMETER, w.emit c IOTCON_ERROR_INVALID_PARAMETER)
  | some r =>
    let st := sdk w.trace c
    if st = IOTCON_ERROR_NONE then
      (st, { w.emit c st with
        representations := store representation { r with uri_path := some uri_path }
          w.representations })
    else (st, w.emit c st)

/-- `iotcon_representation_set_attributes`: the representation takes a reference to
the attributes object and gives up the one it held. -/
def iotcon_representation_set_attributes (sdk : Platform) (representation : Nat)
    (attributes : Nat) (w : World) : Int × World :=
  let c := Call.iotcon_representation_set_attributes representation attributes
  match find? representation w.representations, find? attributes w.attributes with
  | some r, some a =>
    let st := sdk w.trace c
    if st = IOTCON_ERROR_NONE then
      (st, { w.emit c st with
        representations := store representation { r with attributes := attributes }
          w.representations
        attributes := releaseAttributes r.attributes
          (store attributes { a with refs := a.refs + 1 } w.attributes) })
    else (st, w.emit c st)
  | _, _ => (IOTCON_ERROR_INVALID_PARAMETER, w.emit c IOTCON_ERROR_INVALID_PARAMETER)

/-- `iotcon_representation_get_attributes`: the handle of the attributes the
representation holds (borrowed, no reference is taken). -/
def iotcon_representation_get_attributes (sdk : Platform) (representation : Nat)
    (w : World) : Int × Nat × World :=
  let c := Call.iotcon_representation_get_attributes representation
  match find? representation w.representations with
  | none => (IOTCON_ERROR_INVALID_PARAMETER, 0, w.emit c IOTCON_ERROR_INVALID_PARAMETER)
  | some r =>
    let st := sdk w.trace c
    if st = IOTCON_ERROR_NONE then (st, r.attributes, w.emit c st)
    else (st, 0, w.emit c st)

def iotcon_attributes_create (sdk : Platform) (w : World) : Int × Nat × World :=
  let c := Call.iotcon_attributes_create
  let st := sdk w.trace c
  if st = IOTCON_ERROR_NONE then
    (st, w.next + 1, { w.emit c st with
      next := w.next + 1, attributes := (w.next + 1, ⟨[], 1⟩) :: w.attributes })
  else (st, 0, w.emit c st)

def iotcon_attributes_destroy (attributes : Nat) (w : World) : World :=
  { w.emit (Call.iotcon_attributes_destroy attributes) 0 with
    attributes := releaseAttributes attributes w.attributes }

def iotcon_attributes_add_bool (sdk : Platform) (attributes : Nat) (key : String)
    (value : Bool) (w : World) : Int × World :=
  let c := Call.iotcon_attributes_add_bool attributes key value
  match find? attributes w.attributes with
  | none => (IOTCON_ERROR_INVALID_PARAMETER, w.emit c IOTCON_ERROR_INVALID_PARAMETER)
  | some a =>
    let st := sdk w.trace c
    if st = IOTCON_ERROR_NONE then
      (st, { w.emit c st with
        attributes := store attributes
          { a with entries := setEntry key (Value.bool value) a.entries } w.attributes })
    else (st, w.emit c st)

def iotcon_attributes_add_str (sdk : Platform) (attributes : Nat) (key : String)
    (value : String) (w : World) : Int × World :=
  let c := Call.iotcon_attributes_add_str attributes key value
  match find? attributes w.attributes with
  | none => (IOTCON_ERROR_INVALID_PARAMETER, w.emit c IOTCON_ERROR_INVALID_PARAMETER)
  | some a =>
    let st := sdk w.trace c
    if st = IOTCON_ERROR_NONE then
      (st, { w.emit c st with
        attributes := store attributes
          { a with entries := setEntry key (Value.str value) a.entries } w.attributes })
    else (st, w.emit c st)

/-- `iotcon_attributes_get_bool(attributes, key, &value)`; `cur` is the caller's
`*value`, left as it is unless the call succeeds. -/
def iotcon_attributes_get_bool (sdk : Platform) (attributes : Nat) (key : String)
    (cur : Bool) (w : World) : Int × Bool × World :=
  let c := Call.iotcon_attributes_get_bool attributes key
  match find? attributes w.attributes with
  | none => (IOTCON_ERROR_INVALID_PARAMETER, cur, w.emit c IOTCON_ERROR_INVALID_PARAMETER)
  | some a =>
    match a.entries.lookup key with
    | some (Value.bool b) =>
      let st := sdk w.trace c
      if st = IOTCON_ERROR_NONE then (st, b, w.emit c st) else (st, cur, w.emit c st)
    | _ => (IOTCON_ERROR_INVALID_PARAMETER, cur, w.emit c IOTCON_ERROR_INVALID_PARAMETER)

/-- `iotcon_resource_get_uri_path(res, &uri_path)`; the empty string stands for the
null `uri_path` the caller starts with. -/
def iotcon_resource_get_uri_path (sdk : Platform) (res : Nat) (w : World) :
    Int × String × World :=
  let c := Call.iotcon_resource_get_uri_path res
  match find? res w.resources with
  | none => (IOTCON_ERROR_INVALID_PARAMETER, "", w.emit c IOTCON_ERROR_INVALID_PARAMETER)
  | some r =>
    let st := sdk w.trace c
    if st = IOTCON_ERROR_NONE then (st, r.uri_path, w.emit c st)
    else (st, "", w.emit c st)

/-- `iotcon_resource_notify`: on success a notification carrying the representation
goes out to the members of the observer set. -/
def iotcon_resource_notify (sdk : Platform) (res : Nat) (representation : Nat)
    (observers : Nat) (qos : iotcon_qos_e) (w : World) : Int × World :=
  let c := Call.iotcon_resource_notify res representation observers qos
  match find? res w.resources with
  | none => (IOTCON_ERROR_INVALID_PARAMETER, w.emit c IOTCON_ERROR_INVALID_PARAMETER)
  | some _ =>
    let st := sdk w.trace c
    if st = IOTCON_ERROR_NONE then
      (st, { w.emit c st with
        wire := w.wire ++ [Message.notification res observers
          ((find? observers w.observers).getD []) (w.payload representation) qos] })
    else (st, w.emit c st)

def iotcon_resource_types_create (sdk : Platform) (w : World) : Int × Nat × World :=
  let c := Call.iotcon_resource_types_create
  let st := sdk w.trace c
  if st = IOTCON_ERROR_NONE then
    (st, w.next + 1, { w.emit c st with
      next := w.next + 1, resource_types := (w.next + 1, []) :: w.resource_types })
  else (st, 0, w.emit c st)

def iotcon_resource_types_add (sdk : Platform) (types : Nat) (type : String) (w : World) :
    Int × World :=
  let c := Call.iotcon_resource_types_add types type
  match find? types w.resource_types with
  | none => (IOTCON_ERROR_INVALID_PARAMETER, w.emit c IOTCON_ERROR_INVALID_PARAMETER)
  | some l =>
    let st := sdk w.trace c
    if st = IOTCON_ERROR_NONE then
      (st, { w.emit c st with resource_types := store types (l ++ [type]) w.resource_types })
    else (st, w.emit c st)

def iotcon_resource_types_destroy (types : Nat) (w : World) : World :=
  { w.emit (Call.iotcon_resource_types_destroy types) 0 with
    resource_types := remove types w.resource_types }

def iotcon_resource_interfaces_create (sdk : Platform) (w : World) : Int × Nat × World :=
  let c := Call.iotcon_resource_interfaces_create
  let st := sdk w.trace c
  if st = IOTCON_ERROR_NONE then
    (st, w.next + 1, { w.emit c st with
      next := w.next + 1, interfaces := (w.next + 1, []) :: w.interfaces })
  else (st, 0, w.emit c st)

def iotcon_resource_interfaces_add (sdk : Platform) (ifaces : Nat) (iface : iotcon_interface)
    (w : World) : Int × World :=
  let c := Call.iotcon_resource_interfaces_add ifaces iface
  match find? ifaces w.interfaces with
  | none => (IOTCON_ERROR_INVALID_PARAMETER, w.emit c IOTCON_ERROR_INVALID_PARAMETER)
  | some l =>
    let st := sdk w.trace c
    if st = IOTCON_ERROR_NONE then
      (st, { w.emit c st with interfaces := store ifaces (l ++ [iface]) w.interfaces })
    else (st, w.emit c st)

def iotcon_resource_interfaces_destroy (ifaces : Nat) (w : World) : World :=
  { w.emit (Call.iotcon_resource_interfaces_destroy ifaces) 0 with
    interfaces := remove ifaces w.interfaces }

/-- `iotcon_resource_create`: registers a resource under `uri_path` with the given
types, interfaces and policies; requests for it are delivered to
`_request_resource_handler` with `user_data`. -/
def iotcon_resource_create (sdk : Platform) (uri_path : String) (types : Nat) (ifaces : Nat)
    (policies : List iotcon_resource_policy_e) (user_data : Nat) (w : World) :
    Int × Nat × World :=
  let c := Call.iotcon_resource_create uri_path types ifaces policies user_data
  match find? types w.resource_types, find? ifaces w.interfaces with
  | some ts, some is =>
    let st := sdk w.trace c
    if st = IOTCON_ERROR_NONE then
      (st, w.next + 1, { w.emit c st with
        next := w.next + 1
        resources := (w.next + 1, ⟨uri_path, ts, is, policies, user_data⟩) :: w.resources })
    else (st, 0, w.emit c st)
  | _, _ => (IOTCON_ERROR_INVALID_PARAMETER, 0, w.emit c IOTCON_ERROR_INVALID_PARAMETER)

/-- `iotcon_resource_destroy`: gives up a resource handle and reports the platform's
status; reports `IOTCON_ERROR_INVALID_PARAMETER` for a handle that is not a live
resource.  The handle is released whatever the status: the callers that ignore the
status (`connectivity_unset_resource`, the `error:` label of
`connectivity_set_resource`) free the record that holds the handle right after the
call, so the handle is never destroyed a second time. -/
def iotcon_resource_destroy (sdk : Platform) (res : Nat) (w : World) : Int × World :=
  let c := Call.iotcon_resource_destroy res
  match find? res w.resources with
  | none => (IOTCON_ERROR_INVALID_PARAMETER, w.emit c IOTCON_ERROR_INVALID_PARAMETER)
  | some _ =>
    let st := sdk w.trace c
    (st, { w.emit c st with resources := remove res w.resources })

def iotcon_observers_create (sdk : Platform) (w : World) : Int × Nat × World :=
  let c := Call.iotcon_observers_create
  let st := sdk w.trace c
  if st = IOTCON_ERROR_NONE then
    (st, w.next + 1, { w.emit c st with
      next := w.next + 1, observers := (w.next + 1, []) :: w.observers })
  else (st, 0, w.emit c st)

def iotcon_observers_add (sdk : Platform) (observers : Nat) (id : Int) (w : World) :
    Int × World :=
  let c := Call.iotcon_observers_add observers id
  match find? observers w.observers with
  | none => (IOTCON_ERROR_INVALID_PARAMETER, w.emit c IOTCON_ERROR_INVALID_PARAMETER)
  | some l =>
    let st := sdk w.trace c
    if st = IOTCON_ERROR_NONE then
      (st, { w.emit c st with observers := store observers (l.insert id) w.observers })
    else (st, w.emit c st)

def iotcon_observers_remove (sdk : Platform) (observers : Nat) (id : Int) (w : World) :
    Int × World :=
  let c := Call.iotcon_observers_remove observers id
  match find? observers w.observers with
  | none => (IOTCON_ERROR_INVALID_PARAMETER, w.emit c IOTCON_ERROR_INVALID_PARAMETER)
  | some l =>
    let st := sdk w.trace c
    if st = IOTCON_ERROR_NONE then
      (st, { w.emit c st with observers := store observers (l.erase id) w.observers })
    else (st, w.emit c st)

def iotcon_observers_destroy (observers : Nat) (w : World) : World :=
  { w.emit (Call.iotcon_observers_destroy observers) 0 with
    observers := remove observers w.observers }

def iotcon_request_get_host_address (sdk : Platform) (request : Request) (w : World) :
    Int × Option String × World :=
  let c := Call.iotcon_request_get_host_address
  let st := sdk w.trace c
  if st = IOTCON_ERROR_NONE then (st, some request.host_address, w.emit c st)
  else (st, none, w.emit c st)

def iotcon_request_get_query (sdk : Platform) (request : Request) (w : World) :
    Int × Option (List (String × String)) × World :=
  let c := Call.iotcon_request_get_query
  let st := sdk w.trace c
  if st = IOTCON_ERROR_NONE then (st, request.query, w.emit c st)
  else (st, none, w.emit c st)

/-- The entries `iotcon_query_foreach` hands to the callback: it goes through them in
turn and stops after the first one on which the callback does not answer
`IOTCON_FUNC_CONTINUE` (`true`). -/
def visited (cb : String → String → Bool) : List (String × String) → List (String × String)
  | [] => []
  | e :: l => if cb e.1 e.2 then e :: visited cb l else [e]

/-- `iotcon_query_foreach(query, cb, user_data)`; the call is recorded with the
entries the callback was called on. -/
def iotcon_query_foreach (sdk : Platform) (query : List (String × String))
    (cb : String → String → Bool) (w : World) : Int × World :=
  let c := Call.iotcon_query_foreach (visited cb query)
  let st := sdk w.trace c
  (st, w.emit c st)

def iotcon_request_get_request_type (sdk : Platform) (request : Request) (w : World) :
    Int × iotcon_request_type_e × World :=
  let c := Call.iotcon_request_get_request_type
  let st := sdk w.trace c
  if st = IOTCON_ERROR_NONE then (st, request.type, w.emit c st)
  else (st, IOTCON_REQUEST_UNKNOWN, w.emit c st)

def iotcon_request_get_observe_type (sdk : Platform) (request : Request) (w : World) :
    Int × iotcon_observe_type_e × World :=
  let c := Call.iotcon_request_get_observe_type
  let st := sdk w.trace c
  if st = IOTCON_ERROR_NONE then (st, request.observe_type, w.emit c st)
  else (st, IOTCON_OBSERVE_NO_TYPE, w.emit c st)

/-- `iotcon_request_get_observe_id(request, &observe_id)`; `cur` is the caller's
`observe_id`, left as it is unless the call succeeds. -/
def iotcon_request_get_observe_id (sdk : Platform) (request : Request) (cur : Int)
    (w : World) : Int × Int × World :=
  let c := Call.iotcon_request_get_observe_id
  let st := sdk w.trace c
  if st = IOTCON_ERROR_NONE then (st, request.observe_id, w.emit c st)
  else (st, cur, w.emit c st)

def iotcon_request_get_representation (sdk : Platform) (request : Request) (w : World) :
    Int × Nat × World :=
  let c := Call.iotcon_request_get_representation
  let st := sdk w.trace c
  if st = IOTCON_ERROR_NONE then (st, request.representation, w.emit c st)
  else (st, 0, w.emit c st)

/-! ## `connectivity.c` -/

/-- `static int _send_response(request, representation, result)`. -/
def _send_response (sdk : Platform) (_request : Request) (representation : Nat)
    (result : iotcon_response_result_e) (w : World) : Int × World :=
  let (ret, response, w) := iotcon_response_create sdk w
  if IOTCON_ERROR_NONE ≠ ret then (-1, w) else
  let (ret, w) := iotcon_response_set_result sdk response result w
  if IOTCON_ERROR_NONE ≠ ret then (-1, iotcon_response_destroy response w) else
  let (ret, w) := iotcon_response_set_representation sdk response representation w
  if IOTCON_ERROR_NONE ≠ ret then (-1, iotcon_response_destroy response w) else
  let (ret, w) := iotcon_response_send sdk response w
  if IOTCON_ERROR_NONE ≠ ret then (-1, iotcon_response_destroy response w) else
  let w := iotcon_response_destroy response w
  (0, w)

/-- `static void _destroy_representation(representation)`. -/
def _destroy_representation (representation : Nat) (w : World) : World :=
  if representation = 0 then w else
  iotcon_representation_destroy representation w

/-- The `error:` label of `_create_representation_with_attribute`. -/
def _create_representation_with_attribute_error (attributes representation : Nat)
    (w : World) : Nat × World :=
  let w := if attributes ≠ 0 then iotcon_attributes_destroy attributes w else w
  let w := if representation ≠ 0 then iotcon_representation_destroy representation w else w
  (0, w)

/-- `static iotcon_representation_h _create_representation_with_attribute(res, value)`;
the result is the representation handle, `0` for `NULL`. -/
def _create_representation_with_attribute (sdk : Platform) (res : Nat) (value : Bool)
    (w : World) : Nat × World :=
  let (ret, uri_path, w) := iotcon_resource_get_uri_path sdk res w
  if IOTCON_ERROR_NONE ≠ ret then (0, w) else
  let (ret, representation, w) := iotcon_representation_create sdk w
  if IOTCON_ERROR_NONE ≠ ret then (0, w) else
  let (ret, attributes, w) := iotcon_attributes_create sdk w
  if IOTCON_ERROR_NONE ≠ ret then
    _create_representation_with_attribute_error attributes representation w else
  let (ret, w) := iotcon_representation_set_uri_path sdk representation uri_path w
  if IOTCON_ERROR_NONE ≠ ret then
    _create_representation_with_attribute_error attributes representation w else
  let (ret, w) := iotcon_attributes_add_bool sdk attributes "opened" value w
  if IOTCON_ERROR_NONE ≠ ret then
    _create_representation_with_attribute_error attributes representation w else
  let (ret, w) := iotcon_representation_set_attributes sdk representation attributes w
  if IOTCON_ERROR_NONE ≠ ret then
    _create_representation_with_attribute_error attributes representation w else
  let w := iotcon_attributes_destroy attributes w
  (representation, w)

/-- `static int _handle_get_request(res, request)`. -/
def _handle_get_request (sdk : Platform) (res : Nat) (request : Request) (w : World) :
    Int × World :=
  let value : Int := 1
  let (representation, w) := _create_representation_with_attribute sdk res (value ≠ 0) w
  if representation = 0 then (-1, w) else
  let (ret, w) := _send_response sdk request representation IOTCON_RESPONSE_OK w
  if 0 ≠ ret then (-1, _destroy_representation representation w) else
  let w := _destroy_representation representation w
  (0, w)

/-- `static int _get_value_from_representation(representation, &value)`; `cur` is
the caller's `*value`. -/
def _get_value_from_representation (sdk : Platform) (representation : Nat) (cur : Bool)
    (w : World) : Int × Bool × World :=
  let (ret, attributes, w) := iotcon_representation_get_attributes sdk representation w
  if IOTCON_ERROR_NONE ≠ ret then (-1, cur, w) else
  let (ret, value, w) := iotcon_attributes_get_bool sdk attributes "opened" cur w
  if IOTCON_ERROR_NONE ≠ ret then (-1, value, w) else
  (0, value, w)

/-- `static int _set_value_into_thing(representation, value)`. -/
def _set_value_into_thing (_representation : Nat) (_value : Bool) : Int := 0

/-- `static int _handle_put_request(resource_info, request)`. -/
def _handle_put_request (sdk : Platform) (resource_info : Nat) (request : Request)
    (w : World) : Int × World :=
  let value := false
  let (ret, req_repr, w) := iotcon_request_get_representation sdk request w
  if IOTCON_ERROR_NONE ≠ ret then (-1, w) else
  let (ret, value, w) := _get_value_from_representation sdk req_repr value w
  if 0 ≠ ret then (-1, w) else
  let ret := _set_value_into_thing req_repr value
  if 0 ≠ ret then (-1, w) else
  let (resp_repr, w) :=
    _create_representation_with_attribute sdk (w.record resource_info).res value w
  if resp_repr = 0 then (-1, w) else
  let (ret, w) := _send_response sdk request resp_repr IOTCON_RESPONSE_OK w
  if 0 ≠ ret then (-1, _destroy_representation resp_repr w) else
  let (ret, w) := iotcon_resource_notify sdk (w.record resource_info).res resp_repr
    (w.record resource_info).observers IOTCON_QOS_HIGH w
  if IOTCON_ERROR_NONE ≠ ret then (-1, _destroy_representation resp_repr w) else
  let w := _destroy_representation resp_repr w
  (0, w)

/-- `int connectivity_notify(resource_info, value)`. -/
def connectivity_notify (sdk : Platform) (resource_info : Nat) (value : Int) (w : World) :
    Int × World :=
  if resource_info = 0 then (-1, w) else
  if (w.record resource_info).observers = 0 then (-1, w) else
  let (representation, w) :=
    _create_representation_with_attribute sdk (w.record resource_info).res (value ≠ 0) w
  if representation = 0 then (-1, w) else
  let (ret, w) := iotcon_resource_notify sdk (w.record resource_info).res representation
    (w.record resource_info).observers IOTCON_QOS_HIGH w
  if IOTCON_ERROR_NONE ≠ ret then (-1, w) else
  let w := _destroy_representation representation w
  (0, w)

/-- Write the field `res` of the record at `p`. -/
def World.setRes (w : World) (p : Nat) (res : Nat) : World :=
  { w with records := store p { w.record p with res := res } w.records }

/-- Write the field `observers` of the record at `p`. -/
def World.setObservers (w : World) (p : Nat) (observers : Nat) : World :=
  { w with records := store p { w.record p with observers := observers } w.records }

/-- The `error:` label of `connectivity_set_resource`. -/
def connectivity_set_resource_error (sdk : Platform) (ifaces resource_types resource_info : Nat)
    (w : World) : World :=
  let w := if ifaces ≠ 0 then iotcon_resource_interfaces_destroy ifaces w else w
  let w := if resource_types ≠ 0 then iotcon_resource_types_destroy resource_types w else w
  let w := if (w.record resource_info).res ≠ 0 then
    (iotcon_resource_destroy sdk (w.record resource_info).res w).2 else w
  let w := if resource_info ≠ 0 then free resource_info w else w
  w

/-- `int connectivity_set_resource(uri_path, type, out_resource_info)`.  The argument
`out_resource_info` is the value of `*out_resource_info` on entry, the second
component of the result its value on return. -/
def connectivity_set_resource (sdk : Platform) (uri_path : String) (type : String)
    (out_resource_info : Nat) (w : World) : Int × Nat × World :=
  let (resource_info, w) := calloc sdk w
  if resource_info = 0 then (-1, out_resource_info, w) else
  let out_resource_info := resource_info
  let (ret, resource_types, w) := iotcon_resource_types_create sdk w
  if IOTCON_ERROR_NONE ≠ ret then
    (-1, out_resource_info,
      connectivity_set_resource_error sdk 0 resource_types resource_info w) else
  let (ret, w) := iotcon_resource_types_add sdk resource_types type w
  if IOTCON_ERROR_NONE ≠ ret then
    (-1, out_resource_info,
      connectivity_set_resource_error sdk 0 resource_types resource_info w) else
  let (ret, ifaces, w) := iotcon_resource_interfaces_create sdk w
  if IOTCON_ERROR_NONE ≠ ret then
    (-1, out_resource_info,
      connectivity_set_resource_error sdk ifaces resource_types resource_info w)
  else
  let (ret, w) := iotcon_resource_interfaces_add sdk ifaces IOTCON_INTERFACE_DEFAULT w
  if IOTCON_ERROR_NONE ≠ ret then
    (-1, out_resource_info,
      connectivity_set_resource_error sdk ifaces resource_types resource_info w)
  else
  let (ret, w) := iotcon_resource_interfaces_add sdk ifaces IOTCON_INTERFACE_BATCH w
  if IOTCON_ERROR_NONE ≠ ret then
    (-1, out_resource_info,
      connectivity_set_resource_error sdk ifaces resource_types resource_info w)
  else
  let policies :=
    [IOTCON_RESOURCE_DISCOVERABLE, IOTCON_RESOURCE_OBSERVABLE, IOTCON_RESOURCE_SECURE]
  let (ret, res, w) :=
    iotcon_resource_create sdk uri_path resource_types ifaces policies resource_info w
  let w := if IOTCON_ERROR_NONE = ret then w.setRes resource_info res else w
  if IOTCON_ERROR_NONE ≠ ret then
    (-1, out_resource_info,
      connectivity_set_resource_error sdk ifaces resource_types resource_info w)
  else
  let (ret, observers, w) := iotcon_observers_create sdk w
  let w := if IOTCON_ERROR_NONE = ret then w.setObservers resource_info observers else w
  if IOTCON_ERROR_NONE ≠ ret then
    (-1, out_resource_info,
      connectivity_set_resource_error sdk ifaces resource_types resource_info w)
  else
  let w := iotcon_resource_types_destroy resource_types w
  let w := iotcon_resource_interfaces_destroy ifaces w
  (0, out_resource_info, w)

/-- The `error:` label of `_handle_post_request`. -/
def _handle_post_request_error (resp_attributes resp_repr : Nat) (w : World) : Int × World :=
  let w := if resp_attributes ≠ 0 then iotcon_attributes_destroy resp_attributes w else w
  let w := iotcon_representation_destroy resp_repr w
  (-1, w)

/-- `static int _handle_post_request(resource_info, request)`. -/
def _handle_post_request (sdk : Platform) (_resource_info : Nat) (request : Request)
    (w : World) : Int × World :=
  if w._resource_created then
    (-1, _E "Resource(%s) is already created" w) else
  let (new_resource_info, w) := calloc sdk w
  if new_resource_info = 0 then (-1, w) else
  let (ret, _new_resource_info, w) := connectivity_set_resource sdk ULTRASONIC_RESOURCE_2_URI
    ULTRASONIC_RESOURCE_TYPE new_resource_info w
  if 0 ≠ ret then (-1, w) else
  let w := { w with _resource_created := true }
  let (ret, resp_repr, w) := iotcon_representation_create sdk w
  if IOTCON_ERROR_NONE ≠ ret then (-1, w) else
  let (ret, resp_attributes, w) := iotcon_attributes_create sdk w
  if IOTCON_ERROR_NONE ≠ ret then _handle_post_request_error resp_attributes resp_repr w else
  let (ret, w) :=
    iotcon_attributes_add_str sdk resp_attributes "createduripath" ULTRASONIC_RESOURCE_2_URI w
  if IOTCON_ERROR_NONE ≠ ret then _handle_post_request_error resp_attributes resp_repr w else
  let (ret, w) := iotcon_representation_set_attributes sdk resp_repr resp_attributes w
  if IOTCON_ERROR_NONE ≠ ret then _handle_post_request_error resp_attributes resp_repr w else
  let w := iotcon_attributes_destroy resp_attributes w
  let (ret, w) := _send_response sdk request resp_repr IOTCON_RESPONSE_RESOURCE_CREATED w
  if 0 ≠ ret then _handle_post_request_error resp_attributes resp_repr w else
  let w := iotcon_representation_destroy resp_repr w
  (0, w)

/-- `static int _handle_delete_request(resource, request)`. -/
def _handle_delete_request (sdk : Platform) (resource : Nat) (request : Request) (w : World) :
    Int × World :=
  let (ret, w) := iotcon_resource_destroy sdk resource w
  if IOTCON_ERROR_NONE ≠ ret then (-1, w) else
  let (ret, w) := _send_response sdk request 0 IOTCON_RESPONSE_RESOURCE_DELETED w
  if 0 ≠ ret then (-1, w) else
  (0, w)

/-- `static bool _query_cb(key, value, user_data)`: answers `IOTCON_FUNC_CONTINUE`. -/
def _query_cb (_key _value : String) : Bool := true

/-- `static int _handle_query(request)`. -/
def _handle_query (sdk : Platform) (request : Request) (w : World) : Int × World :=
  let (ret, query, w) := iotcon_request_get_query sdk request w
  if IOTCON_ERROR_NONE ≠ ret then (-1, w) else
  let w := match query with
    | some q => (iotcon_query_foreach sdk q _query_cb w).2
    | none => w
  (0, w)

/-- `static int _handle_request_by_crud_type(request, resource_info)`. -/
def _handle_request_by_crud_type (sdk : Platform) (request : Request) (resource_info : Nat)
    (w : World) : Int × World :=
  let (ret, type, w) := iotcon_request_get_request_type sdk request w
  if IOTCON_ERROR_NONE ≠ ret then (-1, w) else
  let (ret, w) := match type with
    | IOTCON_REQUEST_GET => _handle_get_request sdk (w.record resource_info).res request w
    | IOTCON_REQUEST_PUT => _handle_put_request sdk resource_info request w
    | IOTCON_REQUEST_POST => _handle_post_request sdk resource_info request w
    | IOTCON_REQUEST_DELETE => _handle_delete_request sdk (w.record resource_info).res request w
    | _ => (-1, _E "Cannot reach here" w)
  if 0 ≠ ret then (-1, w) else
  (0, w)

/-- `static int _handle_observer(request, observers)`. -/
def _handle_observer (sdk : Platform) (request : Request) (observers : Nat) (w : World) :
    Int × World :=
  let observe_id : Int := -1
  let (ret, observe_type, w) := iotcon_request_get_observe_type sdk request w
  if IOTCON_ERROR_NONE ≠ ret then (-1, w) else
  if IOTCON_OBSERVE_REGISTER = observe_type then
    let (ret, observe_id, w) := iotcon_request_get_observe_id sdk request observe_id w
    if IOTCON_ERROR_NONE ≠ ret then (-1, w) else
    let (ret, w) := iotcon_observers_add sdk observers observe_id w
    if IOTCON_ERROR_NONE ≠ ret then (-1, w) else
    (0, w)
  else if IOTCON_OBSERVE_DEREGISTER = observe_type then
    let (ret, observe_id, w) := iotcon_request_get_observe_id sdk request observe_id w
    if IOTCON_ERROR_NONE ≠ ret then (-1, w) else
    let (ret, w) := iotcon_observers_remove sdk observers observe_id w
    if IOTCON_ERROR_NONE ≠ ret then (-1, w) else
    (0, w)
  else (0, w)

/-- The `error:` label of `_request_resource_handler`. -/
def _request_resource_handler_error (sdk : Platform) (request : Request) (w : World) : World :=
  (_send_response sdk request 0 IOTCON_RESPONSE_ERROR w).2

/-- `static void _request_resource_handler(resource, request, user_data)`; a null
`request` is `none`. -/
def _request_resource_handler (sdk : Platform) (_resource : Nat) (request : Option Request)
    (user_data : Nat) (w : World) : World :=
  let resource_info := user_data
  match request with
  | none => w
  | some request =>
    let (ret, _host_address, w) := iotcon_request_get_host_address sdk request w
    if IOTCON_ERROR_NONE ≠ ret then _request_resource_handler_error sdk request w else
    let (ret, w) := _handle_query sdk request w
    if IOTCON_ERROR_NONE ≠ ret then _request_resource_handler_error sdk request w else
    let (ret, w) := _handle_request_by_crud_type sdk request resource_info w
    if 0 ≠ ret then _request_resource_handler_error sdk request w else
    let (ret, w) := _handle_observer sdk request (w.record resource_info).observers w
    if 0 ≠ ret then _request_resource_handler_error sdk request w else
    w

/-- `void connectivity_unset_resource(resource_info)`. -/
def connectivity_unset_resource (sdk : Platform) (resource_info : Nat) (w : World) : World :=
  if resource_info = 0 then w else
  let w := if (w.record resource_info).observers ≠ 0 then
    iotcon_observers_destroy (w.record resource_info).observers w else w
  let w := if (w.record resource_info).res ≠ 0 then
    (iotcon_resource_destroy sdk (w.record resource_info).res w).2 else w
  free resource_info w

/-! ## Observations on a run -/

/-- The result codes of the responses in a network output, in order. -/
def responsesOf : List Message → List (Option iotcon_response_result_e)
  | [] => []
  | Message.response r _ :: l => r :: responsesOf l
  | Message.notification _ _ _ _ _ :: l => responsesOf l

/-- The result codes of the responses sent so far. -/
def World.sent (w : World) : List (Option iotcon_response_result_e) := responsesOf w.wire

/-- The events a run from `w` to `w2` appended to the history. -/
def since (w w2 : World) : List Event := w2.trace.drop w.trace.length

/-- The `iotcon_resource_notify` calls of a history, in order. -/
def notifyCalls : List Event → List Call
  | [] => []
  | ⟨Call.iotcon_resource_notify a b c d, _⟩ :: l =>
    Call.iotcon_resource_notify a b c d :: notifyCalls l
  | _ :: l => notifyCalls l

/-- Whether a call is one of the fallible sub-steps of `connectivity_set_resource`. -/
def isSetResourceStep : Call → Bool
  | Call.iotcon_resource_types_create => true
  | Call.iotcon_resource_types_add _ _ => true
  | Call.iotcon_resource_interfaces_create => true
  | Call.iotcon_resource_interfaces_add _ _ => true
  | Call.iotcon_resource_create _ _ _ _ _ => true
  | Call.iotcon_observers_create => true
  | _ => false

/-- Whether an event is the successful creation of a platform object of one of the
four kinds `connectivity_set_resource` handles. -/
def isPlatformCreate (e : Event) : Bool :=
  match e.call with
  | Call.iotcon_resource_types_create => e.status = IOTCON_ERROR_NONE
  | Call.iotcon_resource_interfaces_create => e.status = IOTCON_ERROR_NONE
  | Call.iotcon_resource_create _ _ _ _ _ => e.status = IOTCON_ERROR_NONE
  | Call.iotcon_observers_create => e.status = IOTCON_ERROR_NONE
  | _ => false

/-- Whether an event is the destruction of a platform object of one of these kinds. -/
def isPlatformDestroy (e : Event) : Bool :=
  match e.call with
  | Call.iotcon_resource_types_destroy _ => true
  | Call.iotcon_resource_interfaces_destroy _ => true
  | Call.iotcon_resource_destroy _ => true
  | Call.iotcon_observers_destroy _ => true
  | _ => false

/-- The history of `w2` extends that of `w`. -/
def Later (w w2 : World) : Prop := ∃ l, w2.trace = w.trace ++ l

/-- A run from `w` to `w2` that sent no response: the responses sent are the same
and the history of `w2` extends that of `w`. -/
def Quiet (w w2 : World) : Prop := w2.sent = w.sent ∧ Later w w2

/-- Whether an event is an `iotcon_resource_notify` call that failed. -/
def isNotifyFailure (e : Event) : Bool :=
  match e.call with
  | Call.iotcon_resource_notify _ _ _ _ => e.status ≠ IOTCON_ERROR_NONE
  | _ => false

/-- The `iotcon_resource_notify` calls that have failed so far, in order. -/
def World.notifyFailures (w : World) : List Event := w.trace.filter isNotifyFailure

/-- The first step of `_request_resource_handler`: the host-address call. -/
def hostStep (sdk : Platform) (request : Request) (w : World) : Int × Option String × World :=
  iotcon_request_get_host_address sdk request w

/-- The second step of `_request_resource_handler`: `_handle_query`, run from the
state the first step left. -/
def queryStep (sdk : Platform) (request : Request) (w : World) : Int × World :=
  _handle_query sdk request (hostStep sdk request w).2.2

/-- The third step of `_request_resource_handler`: the CRUD dispatch, run from the
state the second step left. -/
def crudStep (sdk : Platform) (request : Request) (resource_info : Nat) (w : World) :
    Int × World :=
  _handle_request_by_crud_type sdk request resource_info (queryStep sdk request w).2

/-- The fourth step of `_request_resource_handler`: `_handle_observer` on the
observer set of the record, run from the state the third step left. -/
def observerStep (sdk : Platform) (request : Request) (resource_info : Nat) (w : World) :
    Int × World :=
  _handle_observer sdk request
    ((crudStep sdk request resource_info w).2.record resource_info).observers
    (crudStep sdk request resource_info w).2

/-- The response a CRUD handler sends on success, by request type. -/
def typeSpecific : iotcon_request_type_e → Option iotcon_response_result_e
  | IOTCON_REQUEST_GET => some IOTCON_RESPONSE_OK
  | IOTCON_REQUEST_PUT => some IOTCON_RESPONSE_OK
  | IOTCON_REQUEST_POST => some IOTCON_RESPONSE_RESOURCE_CREATED
  | IOTCON_REQUEST_DELETE => some IOTCON_RESPONSE_RESOURCE_DELETED
  | IOTCON_REQUEST_UNKNOWN => none

/-- The `_send_response(request, NULL, IOTCON_RESPONSE_ERROR)` call of the `error:`
label of `_request_resource_handler`, made in state `wf`. -/
def errorResponse (sdk : Platform) (request : Request) (wf : World) : Int × World :=
  _send_response sdk request 0 IOTCON_RESPONSE_ERROR wf

/-- What the `error:` label of `_request_resource_handler` adds when the handler
reaches it in state `wf` and ends having sent `sent`.  Its `_send_response` call
returns 0 exactly when every platform call it makes reports `IOTCON_ERROR_NONE`;
then `sent` is what had been sent in `wf` followed by the ERROR response.
Otherwise it returns -1 and `sent` is what had been sent in `wf`. -/
def errorLabelSends (sdk : Platform) (request : Request) (wf : World)
    (sent : List (Option iotcon_response_result_e)) : Prop :=
  ((errorResponse sdk request wf).1 = 0 ↔
    ∀ e ∈ since wf (errorResponse sdk request wf).2, e.status = IOTCON_ERROR_NONE) ∧
  (((errorResponse sdk request wf).1 = 0 ∧
      sent = wf.sent ++ [some IOTCON_RESPONSE_ERROR]) ∨
   ((errorResponse sdk request wf).1 = -1 ∧ sent = wf.sent))

/-! ## Concrete platforms, states and requests -/

/-- A platform on which `iotcon_resource_notify` fails and every other call succeeds. -/
def notifyFails : Platform := fun _ c =>
  match c with
  | Call.iotcon_resource_notify _ _ _ _ => -1
  | _ => IOTCON_ERROR_NONE

/-- A platform on which `iotcon_request_get_observe_type` fails and every other call
succeeds. -/
def observeTypeFails : Platform := fun _ c =>
  match c with
  | Call.iotcon_request_get_observe_type => -1
  | _ => IOTCON_ERROR_NONE

/-- A platform on which `iotcon_resource_destroy` fails and every other call succeeds. -/
def resourceDestroyFails : Platform := fun _ c =>
  match c with
  | Call.iotcon_resource_destroy _ => -1
  | _ => IOTCON_ERROR_NONE

/-- A platform on which `iotcon_response_send` fails and every other call succeeds. -/
def responseSendFails : Platform := fun _ c =>
  match c with
  | Call.iotcon_response_send _ => -1
  | _ => IOTCON_ERROR_NONE

/-- A platform on which `iotcon_observers_create` fails and every other call succeeds. -/
def observersCreateFails : Platform := fun _ c =>
  match c with
  | Call.iotcon_observers_create => -1
  | _ => IOTCON_ERROR_NONE

/-- The state right after `connectivity_set_resource` has set up the door resource
from the initial state on a platform where every call succeeds: the record is at
address 1, the platform resource is handle 4 and its observer set is handle 5. -/
def door : World :=
  (connectivity_set_resource allOk ULTRASONIC_RESOURCE_1_URI ULTRASONIC_RESOURCE_TYPE 0
    World.initial).2.2

/-- A state extended with the body of an incoming PUT request: representation 100
holding attributes 101 with `"opened" = v`. -/
def withBody (v : Bool) (w : World) : World :=
  { w with
    representations := (100, ⟨none, 101⟩) :: w.representations
    attributes := (101, ⟨[("opened", Value.bool v)], 1⟩) :: w.attributes }

def getRequest : Request :=
  ⟨"192.168.0.2", none, IOTCON_REQUEST_GET, IOTCON_OBSERVE_NO_TYPE, 0, 0⟩

def putRequest : Request :=
  ⟨"192.168.0.2", none, IOTCON_REQUEST_PUT, IOTCON_OBSERVE_NO_TYPE, 0, 100⟩

def postRequest : Request :=
  ⟨"192.168.0.2", none, IOTCON_REQUEST_POST, IOTCON_OBSERVE_NO_TYPE, 0, 0⟩

def deleteRequest : Request :=
  ⟨"192.168.0.2", none, IOTCON_REQUEST_DELETE, IOTCON_OBSERVE_NO_TYPE, 0, 0⟩

def registerRequest (i : Int) : Request :=
  ⟨"192.168.0.2", none, IOTCON_REQUEST_GET, IOTCON_OBSERVE_REGISTER, i, 0⟩

def deregisterRequest (i : Int) : Request :=
  ⟨"192.168.0.2", none, IOTCON_REQUEST_GET, IOTCON_OBSERVE_DEREGISTER, i, 0⟩

end Connectivity

/-! # Theorems -/

namespace Sensor

open peripheral_gpio_direction_e

/-- C8 (as stated, refuted): when `peripheral_gpio_open` returns non-zero, and when
it yields a null handle, the init routine returns -1 without entering the
teardown routine. -/
theorem init_open_failure_skips_fini :
    (model_init_infrared_obstacle_avoidance_sensor openFails State.initial).1 = -1 ∧
    finiCalls (model_init_infrared_obstacle_avoidance_sensor openFails State.initial).2.trace = 0 ∧
    (model_init_infrared_obstacle_avoidance_sensor openNull State.initial).1 = -1 ∧
    finiCalls (model_init_infrared_obstacle_avoidance_sensor openNull State.initial).2.trace = 0
        := by
  decide

/-- The init routine, read off its definition in terms of its two peripheral calls. -/
theorem init_unfold (p : Peripheral) (s : State) :
    model_init_infrared_obstacle_avoidance_sensor p s =
      if (afterOpen p s).1 ≠ 0 then (-1, (afterOpen p s).2)
      else if (afterOpen p s).2.gpio = 0 then (-1, (afterOpen p s).2)
      else if (afterDirection p s).1 ≠ 0 then
        (-1, model_fini_infrared_obstacle_avoidance_sensor (afterDirection p s).2)
      else (0, (afterDirection p s).2) := rfl

theorem finiCalls_afterOpen (p : Peripheral) (s : State) :
    finiCalls (afterOpen p s).2.trace = finiCalls s.trace := by
  have hmsg : (Ev.log INIT_MSG == Ev.log FINI_MSG) = false := by decide
  simp [afterOpen, peripheral_gpio_open, State.emit, finiCalls, List.count_cons, hmsg]

theorem finiCalls_afterDirection (p : Peripheral) (s : State) :
    finiCalls (afterDirection p s).2.trace = finiCalls s.trace := by
  rw [← finiCalls_afterOpen p s]
  simp [afterDirection, peripheral_gpio_set_direction, State.emit, finiCalls, List.count_cons]

theorem closeCount_afterDirection (p : Peripheral) (s : State) (h : Nat) :
    closeCount h (afterDirection p s).2.trace = closeCount h s.trace := by
  simp [afterDirection, afterOpen, peripheral_gpio_open, peripheral_gpio_set_direction,
    State.emit, closeCount, List.count_cons]

theorem gpio_afterDirection (p : Peripheral) (s : State) :
    (afterDirection p s).2.gpio = (afterOpen p s).2.gpio := rfl

theorem finiCalls_fini (s : State) :
    finiCalls (model_fini_infrared_obstacle_avoidance_sensor s).trace = finiCalls s.trace + 1 := by
  unfold model_fini_infrared_obstacle_avoidance_sensor peripheral_gpio_close State.emit
  simp only []
  split <;> simp [finiCalls, List.count_cons]

/-- The teardown routine leaves the stored handle as it is, so every further
teardown with a non-null stored handle issues one more close call on it. -/
theorem fini_keeps_handle (s : State) :
    (model_fini_infrared_obstacle_avoidance_sensor s).gpio = s.gpio ∧
    (s.gpio ≠ 0 →
      closeCount s.gpio (model_fini_infrared_obstacle_avoidance_sensor s).trace
        = closeCount s.gpio s.trace + 1) := by
  constructor
  · unfold model_fini_infrared_obstacle_avoidance_sensor peripheral_gpio_close State.emit
    simp only []
    split <;> rfl
  · intro h
    simp [model_fini_infrared_obstacle_avoidance_sensor, peripheral_gpio_close, State.emit,
      h, closeCount, List.count_cons]

/-- C8 (amended): the init routine opens pin 4 and then has exactly three outcomes.
If the open returns non-zero or leaves a null handle, it returns -1 right after the
open, without entering the teardown routine.  If the open succeeds with a non-null
handle and setting the input direction fails, it runs the teardown routine (which
closes that handle) and returns -1.  Otherwise it returns 0.  So it returns 0
exactly when the open on pin 4 succeeds with a non-null handle and setting the
direction to input succeeds. -/
theorem init_outcomes (p : Peripheral) (s : State) :
    ((((afterOpen p s).1 ≠ 0 ∨ (afterOpen p s).2.gpio = 0) ∧
        model_init_infrared_obstacle_avoidance_sensor p s = (-1, (afterOpen p s).2) ∧
        finiCalls (model_init_infrared_obstacle_avoidance_sensor p s).2.trace
          = finiCalls s.trace) ∨
      ((afterOpen p s).1 = 0 ∧ (afterOpen p s).2.gpio ≠ 0 ∧ (afterDirection p s).1 ≠ 0 ∧
        model_init_infrared_obstacle_avoidance_sensor p s
          = (-1, model_fini_infrared_obstacle_avoidance_sensor (afterDirection p s).2) ∧
        finiCalls (model_init_infrared_obstacle_avoidance_sensor p s).2.trace
          = finiCalls s.trace + 1 ∧
        closeCount (afterOpen p s).2.gpio
            (model_init_infrared_obstacle_avoidance_sensor p s).2.trace
          = closeCount (afterOpen p s).2.gpio s.trace + 1) ∨
      ((afterOpen p s).1 = 0 ∧ (afterOpen p s).2.gpio ≠ 0 ∧ (afterDirection p s).1 = 0 ∧
        model_init_infrared_obstacle_avoidance_sensor p s = (0, (afterDirection p s).2))) ∧
    ((model_init_infrared_obstacle_avoidance_sensor p s).1 = 0 ↔
      (afterOpen p s).1 = 0 ∧ (afterOpen p s).2.gpio ≠ 0 ∧ (afterDirection p s).1 = 0) := by
  by_cases h1 : (afterOpen p s).1 = 0
  · by_cases h2 : (afterOpen p s).2.gpio = 0
    · refine ⟨Or.inl ⟨Or.inr h2, ?_, ?_⟩, ?_⟩
      · rw [init_unfold]; simp [h1, h2]
      · rw [init_unfold]; simp [h1, h2, finiCalls_afterOpen]
      · rw [init_unfold]; simp [h1, h2]
    · by_cases h3 : (afterDirection p s).1 = 0
      · refine ⟨Or.inr (Or.inr ⟨h1, h2, h3, ?_⟩), ?_⟩
        · rw [init_unfold]; simp [h1, h2, h3]
        · rw [init_unfold]; simp [h1, h2, h3]
      · have hg : (afterDirection p s).2.gpio ≠ 0 := by rw [gpio_afterDirection]; exact h2
        refine ⟨Or.inr (Or.inl ⟨h1, h2, h3, ?_, ?_, ?_⟩), ?_⟩
        · rw [init_unfold]; simp [h1, h2, h3]
        · rw [init_unfold]; simp [h1, h2, h3, finiCalls_fini, finiCalls_afterDirection]
        · rw [init_unfold]
          simp only [h1, h2, h3, ne_eq, not_true_eq_false, not_false_eq_true, if_false, if_true]
          rw [← gpio_afterDirection, (fini_keeps_handle _).2 hg, closeCount_afterDirection]
        · rw [init_unfold]; simp [h1, h2, h3]
  · refine ⟨Or.inl ⟨Or.inl h1, ?_, ?_⟩, ?_⟩
    · rw [init_unfold]; simp [h1]
    · rw [init_unfold]; simp [h1, finiCalls_afterOpen]
    · rw [init_unfold]; simp [h1]

/-- C9 (the code at the failing input): after a successful init the stored handle
is 7; the first teardown closes it once, and a second teardown right after closes
the same, already closed, handle again. -/
theorem fini_twice_closes_twice :
    (model_init_infrared_obstacle_avoidance_sensor okPeripheral State.initial).2.gpio = 7 ∧
    closeCount 7 (model_fini_infrared_obstacle_avoidance_sensor
      (model_init_infrared_obstacle_avoidance_sensor okPeripheral State.initial).2).trace = 1 ∧
    closeCount 7 (model_fini_infrared_obstacle_avoidance_sensor
      (model_fini_infrared_obstacle_avoidance_sensor
        (model_init_infrared_obstacle_avoidance_sensor okPeripheral State.initial).2)).trace
      = 2 := by
  decide

/-- The teardown routine makes no close call when the sensor was never opened. -/
theorem fini_never_opened :
    model_fini_infrared_obstacle_avoidance_sensor State.initial
      = { gpio := 0, trace := [Ev.log FINI_MSG] } := by
  decide

end Sensor

namespace Connectivity

open iotcon_response_result_e iotcon_request_type_e iotcon_observe_type_e iotcon_qos_e

open iotcon_resource_policy_e iotcon_interface

set_option linter.unusedTactic false

set_option linter.unreachableTactic false

/-! ## Handle tables -/

@[simp] theorem find?_cons_self {β : Type} (h : Nat) (x : β) (l : List (Nat × β)) :
    find? h ((h, x) :: l) = some x := by simp [find?]

@[simp] theorem remove_cons_self {β : Type} (h : Nat) (x : β) (l : List (Nat × β)) :
    remove h ((h, x) :: l) = l := by simp [remove]

@[simp] theorem store_cons_self {β : Type} (h : Nat) (x y : β) (l : List (Nat × β)) :
    store h y ((h, x) :: l) = (h, y) :: l := by simp [store]

@[simp] theorem find?_store_self {β : Type} (h : Nat) (x : β) (l : List (Nat × β)) :
    find? h (store h x l) = (find? h l).map (fun _ => x) := by
  induction l with
  | nil => rfl
  | cons e l ih =>
    obtain ⟨k, v⟩ := e
    by_cases hk : k = h <;> simp [find?, store, hk, ih]

@[simp] theorem store_store {β : Type} (h : Nat) (x y : β) (l : List (Nat × β)) :
    store h x (store h y l) = store h x l := by
  induction l with
  | nil => rfl
  | cons e l ih =>
    obtain ⟨k, v⟩ := e
    by_cases hk : k = h <;> simp [store, hk, ih]

theorem responsesOf_append (a b : List Message) :
    responsesOf (a ++ b) = responsesOf a ++ responsesOf b := by
  induction a with
  | nil => rfl
  | cons m a ih => cases m <;> simp [responsesOf, ih]

theorem notifyCalls_append (a b : List Event) :
    notifyCalls (a ++ b) = notifyCalls a ++ notifyCalls b := by
  induction a with
  | nil => rfl
  | cons e a ih =>
    obtain ⟨c, st⟩ := e
    cases c <;> simp [notifyCalls, ih]

/-! ## Runs on a platform where every call succeeds -/

theorem send_response_allOk (request : Request) (representation : Nat)
    (result : iotcon_response_result_e) (w : World) :
    _send_response allOk request representation result w =
      (0, { w with
        trace := w.trace ++
          [⟨Call.iotcon_response_create, 0⟩,
           ⟨Call.iotcon_response_set_result (w.next + 1) result, 0⟩,
           ⟨Call.iotcon_response_set_representation (w.next + 1) representation, 0⟩,
           ⟨Call.iotcon_response_send (w.next + 1), 0⟩,
           ⟨Call.iotcon_response_destroy (w.next + 1), 0⟩]
        wire := w.wire ++ [Message.response (some result) (w.payload representation)]
        next := w.next + 1 }) := by
  simp [_send_response, iotcon_response_create, iotcon_response_set_result,
    iotcon_response_set_representation, iotcon_response_send, iotcon_response_destroy,
    allOk, World.emit, World.payload]

theorem set_resource_allOk (uri_path type : String) (out : Nat) (w : World) :
    connectivity_set_resource allOk uri_path type out w =
      (0, w.next + 1, { w with
        trace := w.trace ++
          [⟨Call.calloc, 0⟩,
           ⟨Call.iotcon_resource_types_create, 0⟩,
           ⟨Call.iotcon_resource_types_add (w.next + 2) type, 0⟩,
           ⟨Call.iotcon_resource_interfaces_create, 0⟩,
           ⟨Call.iotcon_resource_interfaces_add (w.next + 3) IOTCON_INTERFACE_DEFAULT, 0⟩,
           ⟨Call.iotcon_resource_interfaces_add (w.next + 3) IOTCON_INTERFACE_BATCH, 0⟩,
           ⟨Call.iotcon_resource_create uri_path (w.next + 2) (w.next + 3)
              [IOTCON_RESOURCE_DISCOVERABLE, IOTCON_RESOURCE_OBSERVABLE,
               IOTCON_RESOURCE_SECURE] (w.next + 1), 0⟩,
           ⟨Call.iotcon_observers_create, 0⟩,
           ⟨Call.iotcon_resource_types_destroy (w.next + 2), 0⟩,
           ⟨Call.iotcon_resource_interfaces_destroy (w.next + 3), 0⟩]
        next := w.next + 5
        records := (w.next + 1, ⟨w.next + 4, w.next + 5⟩) :: w.records
        resources := (w.next + 4, ⟨uri_path, [type],
          [IOTCON_INTERFACE_DEFAULT, IOTCON_INTERFACE_BATCH],
          [IOTCON_RESOURCE_DISCOVERABLE, IOTCON_RESOURCE_OBSERVABLE,
           IOTCON_RESOURCE_SECURE], w.next + 1⟩) :: w.resources
        observers := (w.next + 5, []) :: w.observers }) := by
  simp [connectivity_set_resource, calloc, allOk, World.emit,
    iotcon_resource_types_create, iotcon_resource_types_add, iotcon_resource_interfaces_create,
    iotcon_resource_interfaces_add, iotcon_resource_create, iotcon_observers_create,
    iotcon_resource_types_destroy, iotcon_resource_interfaces_destroy, World.setRes,
    World.setObservers, World.record]

theorem create_representation_allOk (res : Nat) (value : Bool) (w : World) (r : ResourceObj)
    (hres : find? res w.resources = some r) :
    _create_representation_with_attribute allOk res value w =
      (w.next + 1, { w with
        trace := w.trace ++
          [⟨Call.iotcon_resource_get_uri_path res, 0⟩,
           ⟨Call.iotcon_representation_create, 0⟩,
           ⟨Call.iotcon_attributes_create, 0⟩,
           ⟨Call.iotcon_representation_set_uri_path (w.next + 1) r.uri_path, 0⟩,
           ⟨Call.iotcon_attributes_add_bool (w.next + 2) "opened" value, 0⟩,
           ⟨Call.iotcon_representation_set_attributes (w.next + 1) (w.next + 2), 0⟩,
           ⟨Call.iotcon_attributes_destroy (w.next + 2), 0⟩]
        next := w.next + 2
        representations := (w.next + 1, ⟨some r.uri_path, w.next + 2⟩) :: w.representations
        attributes := (w.next + 2, ⟨[("opened", Value.bool value)], 1⟩) :: w.attributes }) := by
  simp [_create_representation_with_attribute, iotcon_resource_get_uri_path,
    iotcon_representation_create, iotcon_attributes_create, iotcon_representation_set_uri_path,
    iotcon_attributes_add_bool, iotcon_representation_set_attributes,
    iotcon_attributes_destroy, releaseAttributes, setEntry, allOk, World.emit, hres]

theorem post_allOk (request : Request) (resource_info : Nat) (w : World)
    (hlatch : w._resource_created = false) :
    _handle_post_request allOk resource_info request w =
      (0, { w with
        trace := (connectivity_set_resource allOk ULTRASONIC_RESOURCE_2_URI
            ULTRASONIC_RESOURCE_TYPE (w.next + 1) (calloc allOk w).2).2.2.trace ++
          [⟨Call.iotcon_representation_create, 0⟩,
           ⟨Call.iotcon_attributes_create, 0⟩,
           ⟨Call.iotcon_attributes_add_str (w.next + 8) "createduripath"
              ULTRASONIC_RESOURCE_2_URI, 0⟩,
           ⟨Call.iotcon_representation_set_attributes (w.next + 7) (w.next + 8), 0⟩,
           ⟨Call.iotcon_attributes_destroy (w.next + 8), 0⟩,
           ⟨Call.iotcon_response_create, 0⟩,
           ⟨Call.iotcon_response_set_result (w.next + 9) IOTCON_RESPONSE_RESOURCE_CREATED, 0⟩,
           ⟨Call.iotcon_response_set_representation (w.next + 9) (w.next + 7), 0⟩,
           ⟨Call.iotcon_response_send (w.next + 9), 0⟩,
           ⟨Call.iotcon_response_destroy (w.next + 9), 0⟩,
           ⟨Call.iotcon_representation_destroy (w.next + 7), 0⟩]
        wire := w.wire ++ [Message.response (some IOTCON_RESPONSE_RESOURCE_CREATED)
          (some ⟨none, [("createduripath", Value.str ULTRASONIC_RESOURCE_2_URI)]⟩)]
        next := w.next + 9
        records := (w.next + 2, ⟨w.next + 5, w.next + 6⟩) :: (w.next + 1, ⟨0, 0⟩) :: w.records
        resources := (w.next + 5, ⟨ULTRASONIC_RESOURCE_2_URI, [ULTRASONIC_RESOURCE_TYPE],
          [IOTCON_INTERFACE_DEFAULT, IOTCON_INTERFACE_BATCH],
          [IOTCON_RESOURCE_DISCOVERABLE, IOTCON_RESOURCE_OBSERVABLE,
           IOTCON_RESOURCE_SECURE], w.next + 2⟩) :: w.resources
        observers := (w.next + 6, []) :: w.observers
        _resource_created := true }) := by
  simp [_handle_post_request, set_resource_allOk, send_response_allOk, calloc, allOk,
    World.emit, hlatch, iotcon_representation_create, iotcon_attributes_create,
    iotcon_attributes_add_str, iotcon_representation_set_attributes,
    iotcon_attributes_destroy, iotcon_representation_destroy, releaseAttributes,
    World.payload, setEntry]

theorem put_allOk (v : Bool) (request : Request) (resource_info : Nat) (w : World)
    (rec : connectivity_resource_s) (r : ResourceObj) (body : RepresentationObj)
    (battrs : AttributesObj)
    (hrec : find? resource_info w.records = some rec)
    (hres : find? rec.res w.resources = some r)
    (hbody : find? request.representation w.representations = some body)
    (hattrs : find? body.attributes w.attributes = some battrs)
    (hopened : battrs.entries.lookup "opened" = some (Value.bool v)) :
    _handle_put_request allOk resource_info request w =
      (0, { w with
        trace := w.trace ++
          [⟨Call.iotcon_request_get_representation, 0⟩,
           ⟨Call.iotcon_representation_get_attributes request.representation, 0⟩,
           ⟨Call.iotcon_attributes_get_bool body.attributes "opened", 0⟩,
           ⟨Call.iotcon_resource_get_uri_path rec.res, 0⟩,
           ⟨Call.iotcon_representation_create, 0⟩,
           ⟨Call.iotcon_attributes_create, 0⟩,
           ⟨Call.iotcon_representation_set_uri_path (w.next + 1) r.uri_path, 0⟩,
           ⟨Call.iotcon_attributes_add_bool (w.next + 2) "opened" v, 0⟩,
           ⟨Call.iotcon_representation_set_attributes (w.next + 1) (w.next + 2), 0⟩,
           ⟨Call.iotcon_attributes_destroy (w.next + 2), 0⟩,
           ⟨Call.iotcon_response_create, 0⟩,
           ⟨Call.iotcon_response_set_result (w.next + 3) IOTCON_RESPONSE_OK, 0⟩,
           ⟨Call.iotcon_response_set_representation (w.next + 3) (w.next + 1), 0⟩,
           ⟨Call.iotcon_response_send (w.next + 3), 0⟩,
           ⟨Call.iotcon_response_destroy (w.next + 3), 0⟩,
           ⟨Call.iotcon_resource_notify rec.res (w.next + 1) rec.observers IOTCON_QOS_HIGH, 0⟩,
           ⟨Call.iotcon_representation_destroy (w.next + 1), 0⟩]
        wire := w.wire ++
          [Message.response (some IOTCON_RESPONSE_OK)
             (some ⟨some r.uri_path, [("opened", Value.bool v)]⟩),
           Message.notification rec.res rec.observers ((find? rec.observers w.observers).getD [])
             (some ⟨some r.uri_path, [("opened", Value.bool v)]⟩) IOTCON_QOS_HIGH]
        next := w.next + 3 }) := by
  have hr : w.record resource_info = rec := by simp [World.record, hrec]
  have e1 : iotcon_request_get_representation allOk request w =
      (0, request.representation,
        w.emit Call.iotcon_request_get_representation 0) := by
    simp [iotcon_request_get_representation, allOk]
  have e2 : _get_value_from_representation allOk request.representation false
      (w.emit Call.iotcon_request_get_representation 0) =
      (0, v, { w with trace := w.trace ++
          [⟨Call.iotcon_request_get_representation, 0⟩,
           ⟨Call.iotcon_representation_get_attributes request.representation, 0⟩,
           ⟨Call.iotcon_attributes_get_bool body.attributes "opened", 0⟩] }) := by
    simp [_get_value_from_representation, iotcon_representation_get_attributes,
      iotcon_attributes_get_bool, allOk, World.emit, hbody, hattrs, hopened]
  unfold _handle_put_request
  rw [e1]
  simp only [e2]
  rw [create_representation_allOk _ _ _ r (by simpa [World.record, hrec] using hres)]
  simp [send_response_allOk, World.record, hrec, hres, iotcon_resource_notify, allOk,
    World.emit, _set_value_into_thing, _destroy_representation, iotcon_representation_destroy,
    releaseAttributes, World.payload]

/-! ## Failed notify calls, on any platform

No platform call but `iotcon_resource_notify` adds to the failed notify calls of
the history; the lemmas below carry this through the functions of
`connectivity.c`. -/

@[simp] theorem calloc_notifyFailures (sdk : Platform) (w : World) :
    (calloc sdk w).2.notifyFailures = w.notifyFailures := by
  unfold calloc
  simp only [World.emit, World.notifyFailures]
  repeat' split
  all_goals simp [List.filter_append, isNotifyFailure]

@[simp] theorem free_notifyFailures (p : Nat) (w : World) :
    (free p w).notifyFailures = w.notifyFailures := by
  unfold free
  simp only [World.emit, World.notifyFailures]
  repeat' split
  all_goals simp [List.filter_append, isNotifyFailure]

@[simp] theorem iotcon_response_create_notifyFailures (sdk : Platform) (w : World) :
    (iotcon_response_create sdk w).2.2.notifyFailures = w.notifyFailures := by
  unfold iotcon_response_create
  simp only [World.emit, World.notifyFailures]
  repeat' split
  all_goals simp [List.filter_append, isNotifyFailure]

@[simp] theorem iotcon_response_set_result_notifyFailures (sdk : Platform) (h : Nat)
    (x : iotcon_response_result_e) (w : World) :
    (iotcon_response_set_result sdk h x w).2.notifyFailures = w.notifyFailures := by
  unfold iotcon_response_set_result
  simp only [World.emit, World.notifyFailures]
  repeat' split
  all_goals simp [List.filter_append, isNotifyFailure]

@[simp] theorem iotcon_response_set_representation_notifyFailures (sdk : Platform) (h r : Nat)
    (w : World) :
    (iotcon_response_set_representation sdk h r w).2.notifyFailures = w.notifyFailures := by
  unfold iotcon_response_set_representation
  simp only [World.emit, World.notifyFailures]
  repeat' split
  all_goals simp [List.filter_append, isNotifyFailure]

@[simp] theorem iotcon_response_send_notifyFailures (sdk : Platform) (h : Nat) (w : World) :
    (iotcon_response_send sdk h w).2.notifyFailures = w.notifyFailures := by
  unfold iotcon_response_send
  simp only [World.emit, World.notifyFailures]
  repeat' split
  all_goals simp [List.filter_append, isNotifyFailure]

@[simp] theorem iotcon_response_destroy_notifyFailures (h : Nat) (w : World) :
    (iotcon_response_destroy h w).notifyFailures = w.notifyFailures := by
  unfold iotcon_response_destroy
  simp only [World.emit, World.notifyFailures]
  repeat' split
  all_goals simp [List.filter_append, isNotifyFailure]

@[simp] theorem iotcon_representation_create_notifyFailures (sdk : Platform) (w : World) :
    (iotcon_representation_create sdk w).2.2.notifyFailures = w.notifyFailures := by
  unfold iotcon_representation_create
  simp only [World.emit, World.notifyFailures]
  repeat' split
  all_goals simp [List.filter_append, isNotifyFailure]

@[simp] theorem iotcon_representation_destroy_notifyFailures (h : Nat) (w : World) :
    (iotcon_representation_destroy h w).notifyFailures = w.notifyFailures := by
  unfold iotcon_representation_destroy
  simp only [World.emit, World.notifyFailures]
  repeat' split
  all_goals simp [List.filter_append, isNotifyFailure]

@[simp] theorem iotcon_representation_set_uri_path_notifyFailures (sdk : Platform) (h : Nat)
    (u : String) (w : World) :
    (iotcon_representation_set_uri_path sdk h u w).2.notifyFailures = w.notifyFailures := by
  unfold iotcon_representation_set_uri_path
  simp only [World.emit, World.notifyFailures]
  repeat' split
  all_goals simp [List.filter_append, isNotifyFailure]

@[simp] theorem iotcon_representation_set_attributes_notifyFailures (sdk : Platform) (h a : Nat)
    (w : World) :
    (iotcon_representation_set_attributes sdk h a w).2.notifyFailures = w.notifyFailures := by
  unfold iotcon_representation_set_attributes
  simp only [World.emit, World.notifyFailures]
  repeat' split
  all_goals simp [List.filter_append, isNotifyFailure]

@[simp] theorem iotcon_representation_get_attributes_notifyFailures (sdk : Platform) (h : Nat)
    (w : World) :
    (iotcon_representation_get_attributes sdk h w).2.2.notifyFailures = w.notifyFailures := by
  unfold iotcon_representation_get_attributes
  simp only [World.emit, World.notifyFailures]
  repeat' split
  all_goals simp [List.filter_append, isNotifyFailure]

@[simp] theorem iotcon_attributes_create_notifyFailures (sdk : Platform) (w : World) :
    (iotcon_attributes_create sdk w).2.2.notifyFailures = w.notifyFailures := by
  unfold iotcon_attributes_create
  simp only [World.emit, World.notifyFailures]
  repeat' split
  all_goals simp [List.filter_append, isNotifyFailure]

@[simp] theorem iotcon_attributes_destroy_notifyFailures (h : Nat) (w : World) :
    (iotcon_attributes_destroy h w).notifyFailures = w.notifyFailures := by
  unfold iotcon_attributes_destroy
  simp only [World.emit, World.notifyFailures]
  repeat' split
  all_goals simp [List.filter_append, isNotifyFailure]

@[simp] theorem iotcon_attributes_add_bool_notifyFailures (sdk : Platform) (h : Nat)
    (k : String) (b : Bool) (w : World) :
    (iotcon_attributes_add_bool sdk h k b w).2.notifyFailures = w.notifyFailures := by
  unfold iotcon_attributes_add_bool
  simp only [World.emit, World.notifyFailures]
  repeat' split
  all_goals simp [List.filter_append, isNotifyFailure]

@[simp] theorem iotcon_attributes_add_str_notifyFailures (sdk : Platform) (h : Nat)
    (k v : String) (w : World) :
    (iotcon_attributes_add_str sdk h k v w).2.notifyFailures = w.notifyFailures := by
  unfold iotcon_attributes_add_str
  simp only [World.emit, World.notifyFailures]
  repeat' split
  all_goals simp [List.filter_append, isNotifyFailure]

@[simp] theorem iotcon_attributes_get_bool_notifyFailures (sdk : Platform) (h : Nat)
    (k : String) (b : Bool) (w : World) :
    (iotcon_attributes_get_bool sdk h k b w).2.2.notifyFailures = w.notifyFailures := by
  unfold iotcon_attributes_get_bool
  simp only [World.emit, World.notifyFailures]
  repeat' split
  all_goals simp [List.filter_append, isNotifyFailure]

@[simp] theorem iotcon_resource_get_uri_path_notifyFailures (sdk : Platform) (h : Nat)
    (w : World) :
    (iotcon_resource_get_uri_path sdk h w).2.2.notifyFailures = w.notifyFailures := by
  unfold iotcon_resource_get_uri_path
  simp only [World.emit, World.notifyFailures]
  repeat' split
  all_goals simp [List.filter_append, isNotifyFailure]

@[simp] theorem iotcon_resource_types_create_notifyFailures (sdk : Platform) (w : World) :
    (iotcon_resource_types_create sdk w).2.2.notifyFailures = w.notifyFailures := by
  unfold iotcon_resource_types_create
  simp only [World.emit, World.notifyFailures]
  repeat' split
  all_goals simp [List.filter_append, isNotifyFailure]

@[simp] theorem iotcon_resource_types_add_notifyFailures (sdk : Platform) (h : Nat) (t : String)
    (w : World) :
    (iotcon_resource_types_add sdk h t w).2.notifyFailures = w.notifyFailures := by
  unfold iotcon_resource_types_add
  simp only [World.emit, World.notifyFailures]
  repeat' split
  all_goals simp [List.filter_append, isNotifyFailure]

@[simp] theorem iotcon_resource_types_destroy_notifyFailures (h : Nat) (w : World) :
    (iotcon_resource_types_destroy h w).notifyFailures = w.notifyFailures := by
  unfold iotcon_resource_types_destroy
  simp only [World.emit, World.notifyFailures]
  repeat' split
  all_goals simp [List.filter_append, isNotifyFailure]

@[simp] theorem iotcon_resource_interfaces_create_notifyFailures (sdk : Platform) (w : World) :
    (iotcon_resource_interfaces_create sdk w).2.2.notifyFailures = w.notifyFailures := by
  unfold iotcon_resource_interfaces_create
  simp only [World.emit, World.notifyFailures]
  repeat' split
  all_goals simp [List.filter_append, isNotifyFailure]

@[simp] theorem iotcon_resource_interfaces_add_notifyFailures (sdk : Platform) (h : Nat)
    (i : iotcon_interface) (w : World) :
    (iotcon_resource_interfaces_add sdk h i w).2.notifyFailures = w.notifyFailures := by
  unfold iotcon_resource_interfaces_add
  simp only [World.emit, World.notifyFailures]
  repeat' split
  all_goals simp [List.filter_append, isNotifyFailure]

@[simp] theorem iotcon_resource_interfaces_destroy_notifyFailures (h : Nat) (w : World) :
    (iotcon_resource_interfaces_destroy h w).notifyFailures = w.notifyFailures := by
  unfold iotcon_resource_interfaces_destroy
  simp only [World.emit, World.notifyFailures]
  repeat' split
  all_goals simp [List.filter_append, isNotifyFailure]

@[simp] theorem iotcon_resource_create_notifyFailures (sdk : Platform) (u : String) (t i : Nat)
    (p : List iotcon_resource_policy_e) (d : Nat) (w : World) :
    (iotcon_resource_create sdk u t i p d w).2.2.notifyFailures = w.notifyFailures := by
  unfold iotcon_resource_create
  simp only [World.emit, World.notifyFailures]
  repeat' split
  all_goals simp [List.filter_append, isNotifyFailure]

@[simp] theorem iotcon_resource_destroy_notifyFailures (sdk : Platform) (h : Nat) (w : World) :
    (iotcon_resource_destroy sdk h w).2.notifyFailures = w.notifyFailures := by
  unfold iotcon_resource_destroy
  simp only [World.emit, World.notifyFailures]
  repeat' split
  all_goals simp [List.filter_append, isNotifyFailure]

@[simp] theorem iotcon_observers_create_notifyFailures (sdk : Platform) (w : World) :
    (iotcon_observers_create sdk w).2.2.notifyFailures = w.notifyFailures := by
  unfold iotcon_observers_create
  simp only [World.emit, World.notifyFailures]
  repeat' split
  all_goals simp [List.filter_append, isNotifyFailure]

@[simp] theorem iotcon_observers_add_notifyFailures (sdk : Platform) (h : Nat) (i : Int)
    (w : World) :
    (iotcon_observers_add sdk h i w).2.notifyFailures = w.notifyFailures := by
  unfold iotcon_observers_add
  simp only [World.emit, World.notifyFailures]
  repeat' split
  all_goals simp [List.filter_append, isNotifyFailure]

@[simp] theorem iotcon_observers_remove_notifyFailures (sdk : Platform) (h : Nat) (i : Int)
    (w : World) :
    (iotcon_observers_remove sdk h i w).2.notifyFailures = w.notifyFailures := by
  unfold iotcon_observers_remove
  simp only [World.emit, World.notifyFailures]
  repeat' split
  all_goals simp [List.filter_append, isNotifyFailure]

@[simp] theorem iotcon_observers_destroy_notifyFailures (h : Nat) (w : World) :
    (iotcon_observers_destroy h w).notifyFailures = w.notifyFailures := by
  unfold iotcon_observers_destroy
  simp only [World.emit, World.notifyFailures]
  repeat' split
  all_goals simp [List.filter_append, isNotifyFailure]

@[simp] theorem iotcon_request_get_host_address_notifyFailures (sdk : Platform)
    (request : Request) (w : World) :
    (iotcon_request_get_host_address sdk request w).2.2.notifyFailures = w.notifyFailures := by
  unfold iotcon_request_get_host_address
  simp only [World.emit, World.notifyFailures]
  repeat' split
  all_goals simp [List.filter_append, isNotifyFailure]

@[simp] theorem iotcon_request_get_query_notifyFailures (sdk : Platform) (request : Request)
    (w : World) :
    (iotcon_request_get_query sdk request w).2.2.notifyFailures = w.notifyFailures := by
  unfold iotcon_request_get_query
  simp only [World.emit, World.notifyFailures]
  repeat' split
  all_goals simp [List.filter_append, isNotifyFailure]

@[simp] theorem iotcon_query_foreach_notifyFailures (sdk : Platform)
    (q : List (String × String)) (cb : String → String → Bool) (w : World) :
    (iotcon_query_foreach sdk q cb w).2.notifyFailures = w.notifyFailures := by
  unfold iotcon_query_foreach
  simp only [World.emit, World.notifyFailures]
  repeat' split
  all_goals simp [List.filter_append, isNotifyFailure]

@[simp] theorem iotcon_request_get_request_type_notifyFailures (sdk : Platform)
    (request : Request) (w : World) :
    (iotcon_request_get_request_type sdk request w).2.2.notifyFailures = w.notifyFailures := by
  unfold iotcon_request_get_request_type
  simp only [World.emit, World.notifyFailures]
  repeat' split
  all_goals simp [List.filter_append, isNotifyFailure]

@[simp] theorem iotcon_request_get_observe_type_notifyFailures (sdk : Platform)
    (request : Request) (w : World) :
    (iotcon_request_get_observe_type sdk request w).2.2.notifyFailures = w.notifyFailures := by
  unfold iotcon_request_get_observe_type
  simp only [World.emit, World.notifyFailures]
  repeat' split
  all_goals simp [List.filter_append, isNotifyFailure]

@[simp] theorem iotcon_request_get_observe_id_notifyFailures (sdk : Platform)
    (request : Request) (cur : Int) (w : World) :
    (iotcon_request_get_observe_id sdk request cur w).2.2.notifyFailures = w.notifyFailures := by
  unfold iotcon_request_get_observe_id
  simp only [World.emit, World.notifyFailures]
  repeat' split
  all_goals simp [List.filter_append, isNotifyFailure]

@[simp] theorem iotcon_request_get_representation_notifyFailures (sdk : Platform)
    (request : Request) (w : World) :
    (iotcon_request_get_representation sdk request w).2.2.notifyFailures = w.notifyFailures := by
  unfold iotcon_request_get_representation
  simp only [World.emit, World.notifyFailures]
  repeat' split
  all_goals simp [List.filter_append, isNotifyFailure]

@[simp] theorem _E_notifyFailures (msg : String) (w : World) :
    (_E msg w).notifyFailures = w.notifyFailures := rfl

@[simp] theorem setRes_notifyFailures (w : World) (p r : Nat) :
    (w.setRes p r).notifyFailures = w.notifyFailures := rfl

@[simp] theorem setObservers_notifyFailures (w : World) (p r : Nat) :
    (w.setObservers p r).notifyFailures = w.notifyFailures := rfl

/-- A notify call adds itself to the failed notify calls exactly when it fails. -/
theorem iotcon_resource_notify_notifyFailures (sdk : Platform) (h r o : Nat) (q : iotcon_qos_e)
    (w : World) :
    ((iotcon_resource_notify sdk h r o q w).1 = IOTCON_ERROR_NONE ∧
      (iotcon_resource_notify sdk h r o q w).2.notifyFailures = w.notifyFailures) ∨
    ((iotcon_resource_notify sdk h r o q w).1 ≠ IOTCON_ERROR_NONE ∧
      (iotcon_resource_notify sdk h r o q w).2.notifyFailures = w.notifyFailures ++
        [⟨Call.iotcon_resource_notify h r o q, (iotcon_resource_notify sdk h r o q w).1⟩]) := by
  unfold iotcon_resource_notify
  simp only [World.emit, World.notifyFailures]
  repeat' split
  all_goals simp_all [List.filter_append, isNotifyFailure, IOTCON_ERROR_NONE,
    IOTCON_ERROR_INVALID_PARAMETER]

@[simp] theorem send_response_notifyFailures (sdk : Platform) (request : Request)
    (representation : Nat) (result : iotcon_response_result_e) (w : World) :
    (_send_response sdk request representation result w).2.notifyFailures
      = w.notifyFailures := by
  unfold _send_response
  simp only []
  have f1 := iotcon_response_create_notifyFailures sdk w
  generalize iotcon_response_create sdk w = r at f1 ⊢
  obtain ⟨ret1, response, w1⟩ := r
  simp only [] at f1 ⊢
  have f2 := iotcon_response_set_result_notifyFailures sdk response result w1
  generalize iotcon_response_set_result sdk response result w1 = r at f2 ⊢
  obtain ⟨ret2, w2⟩ := r
  simp only [] at f2 ⊢
  have f3 := iotcon_response_set_representation_notifyFailures sdk response representation w2
  generalize iotcon_response_set_representation sdk response representation w2 = r at f3 ⊢
  obtain ⟨ret3, w3⟩ := r
  simp only [] at f3 ⊢
  have f4 := iotcon_response_send_notifyFailures sdk response w3
  generalize iotcon_response_send sdk response w3 = r at f4 ⊢
  obtain ⟨ret4, w4⟩ := r
  simp only [] at f4 ⊢
  split_ifs <;> simp [f1, f2, f3, f4]

@[simp] theorem destroy_representation_notifyFailures (h : Nat) (w : World) :
    (_destroy_representation h w).notifyFailures = w.notifyFailures := by
  unfold _destroy_representation
  split <;> simp

@[simp] theorem create_representation_error_notifyFailures (a r : Nat) (w : World) :
    (_create_representation_with_attribute_error a r w).2.notifyFailures
      = w.notifyFailures := by
  unfold _create_representation_with_attribute_error
  simp only []
  split_ifs <;> simp

@[simp] theorem create_representation_notifyFailures (sdk : Platform) (res : Nat) (v : Bool)
    (w : World) :
    (_create_representation_with_attribute sdk res v w).2.notifyFailures
      = w.notifyFailures := by
  unfold _create_representation_with_attribute
  simp only []
  have f1 := iotcon_resource_get_uri_path_notifyFailures sdk res w
  generalize iotcon_resource_get_uri_path sdk res w = r at f1 ⊢
  obtain ⟨ret1, uri, w1⟩ := r
  simp only [] at f1 ⊢
  have f2 := iotcon_representation_create_notifyFailures sdk w1
  generalize iotcon_representation_create sdk w1 = r at f2 ⊢
  obtain ⟨ret2, repr, w2⟩ := r
  simp only [] at f2 ⊢
  have f3 := iotcon_attributes_create_notifyFailures sdk w2
  generalize iotcon_attributes_create sdk w2 = r at f3 ⊢
  obtain ⟨ret3, attrs, w3⟩ := r
  simp only [] at f3 ⊢
  have f4 := iotcon_representation_set_uri_path_notifyFailures sdk repr uri w3
  generalize iotcon_representation_set_uri_path sdk repr uri w3 = r at f4 ⊢
  obtain ⟨ret4, w4⟩ := r
  simp only [] at f4 ⊢
  have f5 := iotcon_attributes_add_bool_notifyFailures sdk attrs "opened" v w4
  generalize iotcon_attributes_add_bool sdk attrs "opened" v w4 = r at f5 ⊢
  obtain ⟨ret5, w5⟩ := r
  simp only [] at f5 ⊢
  have f6 := iotcon_representation_set_attributes_notifyFailures sdk repr attrs w5
  generalize iotcon_representation_set_attributes sdk repr attrs w5 = r at f6 ⊢
  obtain ⟨ret6, w6⟩ := r
  simp only [] at f6 ⊢
  split_ifs <;> simp [f1, f2, f3, f4, f5, f6]

@[simp] theorem get_notifyFailures (sdk : Platform) (res : Nat) (request : Request)
    (w : World) :
    (_handle_get_request sdk res request w).2.notifyFailures = w.notifyFailures := by
  unfold _handle_get_request
  simp only []
  generalize decide ((1 : Int) ≠ 0) = v
  have f1 := create_representation_notifyFailures sdk res v w
  generalize _create_representation_with_attribute sdk res v w = r at f1 ⊢
  obtain ⟨representation, w1⟩ := r
  simp only [] at f1 ⊢
  have f2 := send_response_notifyFailures sdk request representation IOTCON_RESPONSE_OK w1
  generalize _send_response sdk request representation IOTCON_RESPONSE_OK w1 = r at f2 ⊢
  obtain ⟨ret, w2⟩ := r
  simp only [] at f2 ⊢
  split_ifs <;> simp [f1, f2]

@[simp] theorem get_value_notifyFailures (sdk : Platform) (representation : Nat) (cur : Bool)
    (w : World) :
    (_get_value_from_representation sdk representation cur w).2.2.notifyFailures
      = w.notifyFailures := by
  unfold _get_value_from_representation
  simp only []
  have f1 := iotcon_representation_get_attributes_notifyFailures sdk representation w
  generalize iotcon_representation_get_attributes sdk representation w = r at f1 ⊢
  obtain ⟨ret1, attributes, w1⟩ := r
  simp only [] at f1 ⊢
  have f2 := iotcon_attributes_get_bool_notifyFailures sdk attributes "opened" cur w1
  generalize iotcon_attributes_get_bool sdk attributes "opened" cur w1 = r at f2 ⊢
  obtain ⟨ret2, value, w2⟩ := r
  simp only [] at f2 ⊢
  split_ifs <;> simp [f1, f2]

@[simp] theorem delete_notifyFailures (sdk : Platform) (resource : Nat) (request : Request)
    (w : World) :
    (_handle_delete_request sdk resource request w).2.notifyFailures = w.notifyFailures := by
  unfold _handle_delete_request
  simp only []
  have f1 := iotcon_resource_destroy_notifyFailures sdk resource w
  generalize iotcon_resource_destroy sdk resource w = r at f1 ⊢
  obtain ⟨ret1, w1⟩ := r
  simp only [] at f1 ⊢
  have f2 := send_response_notifyFailures sdk request 0 IOTCON_RESPONSE_RESOURCE_DELETED w1
  generalize _send_response sdk request 0 IOTCON_RESPONSE_RESOURCE_DELETED w1 = r at f2 ⊢
  obtain ⟨ret2, w2⟩ := r
  simp only [] at f2 ⊢
  split_ifs <;> simp [f1, f2]

@[simp] theorem set_resource_notifyFailures (sdk : Platform) (uri_path type : String)
    (out : Nat) (w : World) :
    (connectivity_set_resource sdk uri_path type out w).2.2.notifyFailures
      = w.notifyFailures := by
  by_cases h1 : sdk w.trace Call.calloc = 0
  swap
  · simp [connectivity_set_resource, connectivity_set_resource_error, calloc, free,
      World.emit, iotcon_resource_types_create, iotcon_resource_types_add,
      iotcon_resource_interfaces_create, iotcon_resource_interfaces_add,
      iotcon_resource_create, iotcon_observers_create, iotcon_resource_types_destroy,
      iotcon_resource_interfaces_destroy, iotcon_resource_destroy, World.setRes,
      World.setObservers, World.record, World.notifyFailures, isNotifyFailure,
      h1, Ne.symm h1]
  by_cases h2 : sdk (w.trace ++
      [⟨Call.calloc, 0⟩])
      (Call.iotcon_resource_types_create) = 0
  swap
  · simp [connectivity_set_resource, connectivity_set_resource_error, calloc, free,
      World.emit, iotcon_resource_types_create, iotcon_resource_types_add,
      iotcon_resource_interfaces_create, iotcon_resource_interfaces_add,
      iotcon_resource_create, iotcon_observers_create, iotcon_resource_types_destroy,
      iotcon_resource_interfaces_destroy, iotcon_resource_destroy, World.setRes,
      World.setObservers, World.record, World.notifyFailures, isNotifyFailure,
      h1, h2, Ne.symm h2]
  by_cases h3 : sdk (w.trace ++
      [⟨Call.calloc, 0⟩,
       ⟨Call.iotcon_resource_types_create, 0⟩])
      (Call.iotcon_resource_types_add (w.next + 2) type) = 0
  swap
  · simp [connectivity_set_resource, connectivity_set_resource_error, calloc, free,
      World.emit, iotcon_resource_types_create, iotcon_resource_types_add,
      iotcon_resource_interfaces_create, iotcon_resource_interfaces_add,
      iotcon_resource_create, iotcon_observers_create, iotcon_resource_types_destroy,
      iotcon_resource_interfaces_destroy, iotcon_resource_destroy, World.setRes,
      World.setObservers, World.record, World.notifyFailures, isNotifyFailure,
      h1, h2, h3, Ne.symm h3]
  by_cases h4 : sdk (w.trace ++
      [⟨Call.calloc, 0⟩,
       ⟨Call.iotcon_resource_types_create, 0⟩,
       ⟨Call.iotcon_resource_types_add (w.next + 2) type, 0⟩])
      (Call.iotcon_resource_interfaces_create) = 0
  swap
  · simp [connectivity_set_resource, connectivity_set_resource_error, calloc, free,
      World.emit, iotcon_resource_types_create, iotcon_resource_types_add,
      iotcon_resource_interfaces_create, iotcon_resource_interfaces_add,
      iotcon_resource_create, iotcon_observers_create, iotcon_resource_types_destroy,
      iotcon_resource_interfaces_destroy, iotcon_resource_destroy, World.setRes,
      World.setObservers, World.record, World.notifyFailures, isNotifyFailure,
      h1, h2, h3, h4, Ne.symm h4]
  by_cases h5 : sdk (w.trace ++
      [⟨Call.calloc, 0⟩,
       ⟨Call.iotcon_resource_types_create, 0⟩,
       ⟨Call.iotcon_resource_types_add (w.next + 2) type, 0⟩,
       ⟨Call.iotcon_resource_interfaces_create, 0⟩])
      (Call.iotcon_resource_interfaces_add (w.next + 3) IOTCON_INTERFACE_DEFAULT) = 0
  swap
  · simp [connectivity_set_resource, connectivity_set_resource_error, calloc, free,
      World.emit, iotcon_resource_types_create, iotcon_resource_types_add,
      iotcon_resource_interfaces_create, iotcon_resource_interfaces_add,
      iotcon_resource_create, iotcon_observers_create, iotcon_resource_types_destroy,
      iotcon_resource_interfaces_destroy, iotcon_resource_destroy, World.setRes,
      World.setObservers, World.record, World.notifyFailures, isNotifyFailure,
      h1, h2, h3, h4, h5, Ne.symm h5]
  by_cases h6 : sdk (w.trace ++
      [⟨Call.calloc, 0⟩,
       ⟨Call.iotcon_resource_types_create, 0⟩,
       ⟨Call.iotcon_resource_types_add (w.next + 2) type, 0⟩,
       ⟨Call.iotcon_resource_interfaces_create, 0⟩,
       ⟨Call.iotcon_resource_interfaces_add (w.next + 3) IOTCON_INTERFACE_DEFAULT, 0⟩])
      (Call.iotcon_resource_interfaces_add (w.next + 3) IOTCON_INTERFACE_BATCH) = 0
  swap
  · simp [connectivity_set_resource, connectivity_set_resource_error, calloc, free,
      World.emit, iotcon_resource_types_create, iotcon_resource_types_add,
      iotcon_resource_interfaces_create, iotcon_resource_interfaces_add,
      iotcon_resource_create, iotcon_observers_create, iotcon_resource_types_destroy,
      iotcon_resource_interfaces_destroy, iotcon_resource_destroy, World.setRes,
      World.setObservers, World.record, World.notifyFailures, isNotifyFailure,
      h1, h2, h3, h4, h5, h6, Ne.symm h6]
  by_cases h7 : sdk (w.trace ++
      [⟨Call.calloc, 0⟩,
       ⟨Call.iotcon_resource_types_create, 0⟩,
       ⟨Call.iotcon_resource_types_add (w.next + 2) type, 0⟩,
       ⟨Call.iotcon_resource_interfaces_create, 0⟩,
       ⟨Call.iotcon_resource_interfaces_add (w.next + 3) IOTCON_INTERFACE_DEFAULT, 0⟩,
       ⟨Call.iotcon_resource_interfaces_add (w.next + 3) IOTCON_INTERFACE_BATCH, 0⟩])
      (Call.iotcon_resource_create uri_path (w.next + 2) (w.next + 3)
        [IOTCON_RESOURCE_DISCOVERABLE, IOTCON_RESOURCE_OBSERVABLE, IOTCON_RESOURCE_SECURE]
        (w.next + 1)) = 0
  swap
  · simp [connectivity_set_resource, connectivity_set_resource_error, calloc, free,
      World.emit, iotcon_resource_types_create, iotcon_resource_types_add,
      iotcon_resource_interfaces_create, iotcon_resource_interfaces_add,
      iotcon_resource_create, iotcon_observers_create, iotcon_resource_types_destroy,
      iotcon_resource_interfaces_destroy, iotcon_resource_destroy, World.setRes,
      World.setObservers, World.record, World.notifyFailures, isNotifyFailure,
      h1, h2, h3, h4, h5, h6, h7, Ne.symm h7]
  by_cases h8 : sdk (w.trace ++
      [⟨Call.calloc, 0⟩,
       ⟨Call.iotcon_resource_types_create, 0⟩,
       ⟨Call.iotcon_resource_types_add (w.next + 2) type, 0⟩,
       ⟨Call.iotcon_resource_interfaces_create, 0⟩,
       ⟨Call.iotcon_resource_interfaces_add (w.next + 3) IOTCON_INTERFACE_DEFAULT, 0⟩,
       ⟨Call.iotcon_resource_interfaces_add (w.next + 3) IOTCON_INTERFACE_BATCH, 0⟩,
       ⟨Call.iotcon_resource_create uri_path (w.next + 2) (w.next + 3)
        [IOTCON_RESOURCE_DISCOVERABLE, IOTCON_RESOURCE_OBSERVABLE, IOTCON_RESOURCE_SECURE]
        (w.next + 1), 0⟩])
      (Call.iotcon_observers_create) = 0
  swap
  · simp [connectivity_set_resource, connectivity_set_resource_error, calloc, free,
      World.emit, iotcon_resource_types_create, iotcon_resource_types_add,
      iotcon_resource_interfaces_create, iotcon_resource_interfaces_add,
      iotcon_resource_create, iotcon_observers_create, iotcon_resource_types_destroy,
      iotcon_resource_interfaces_destroy, iotcon_resource_destroy, World.setRes,
      World.setObservers, World.record, World.notifyFailures, isNotifyFailure,
      h1, h2, h3, h4, h5, h6, h7, h8, Ne.symm h8]
  simp [connectivity_set_resource, connectivity_set_resource_error, calloc, free,
      World.emit, iotcon_resource_types_create, iotcon_resource_types_add,
      iotcon_resource_interfaces_create, iotcon_resource_interfaces_add,
      iotcon_resource_create, iotcon_observers_create, iotcon_resource_types_destroy,
      iotcon_resource_interfaces_destroy, iotcon_resource_destroy, World.setRes,
      World.setObservers, World.record, World.notifyFailures, isNotifyFailure,
      h1, h2, h3, h4, h5, h6, h7, h8]

@[simp] theorem post_error_notifyFailures (a r : Nat) (w : World) :
    (_handle_post_request_error a r w).2.notifyFailures = w.notifyFailures := by
  unfold _handle_post_request_error
  simp only []
  split_ifs <;> simp

@[simp] theorem post_notifyFailures (sdk : Platform) (resource_info : Nat) (request : Request)
    (w : World) :
    (_handle_post_request sdk resource_info request w).2.notifyFailures
      = w.notifyFailures := by
  generalize hr : _handle_post_request sdk resource_info request w = r
  unfold _handle_post_request at hr
  split at hr
  · subst hr
    simp
  split at hr
  rename_i new_resource_info w1 h1
  have f1 := calloc_notifyFailures sdk w
  rw [h1] at f1
  simp only [] at f1
  split at hr
  · subst hr
    simp [f1]
  split at hr
  rename_i ret2 out w2 h2
  have f2 := set_resource_notifyFailures sdk ULTRASONIC_RESOURCE_2_URI ULTRASONIC_RESOURCE_TYPE
    new_resource_info w1
  rw [h2] at f2
  simp only [] at f2
  split at hr
  · subst hr
    simp [f1, f2]
  conv at hr => lhs; zeta
  generalize hw2b : ({ w2 with _resource_created := true } : World) = w2b at hr
  have f2b : w2b.notifyFailures = w2.notifyFailures := by rw [← hw2b]; rfl
  split at hr
  rename_i ret3 resp_repr w3 h3
  have f3 := iotcon_representation_create_notifyFailures sdk w2b
  rw [h3] at f3
  simp only [] at f3
  split at hr
  · subst hr
    simp [f1, f2, f2b, f3]
  split at hr
  rename_i ret4 resp_attributes w4 h4
  have f4 := iotcon_attributes_create_notifyFailures sdk w3
  rw [h4] at f4
  simp only [] at f4
  split at hr
  · subst hr
    simp [f1, f2, f2b, f3, f4]
  split at hr
  rename_i ret5 w5 h5
  have f5 := iotcon_attributes_add_str_notifyFailures sdk resp_attributes "createduripath"
    ULTRASONIC_RESOURCE_2_URI w4
  rw [h5] at f5
  simp only [] at f5
  split at hr
  · subst hr
    simp [f1, f2, f2b, f3, f4, f5]
  split at hr
  rename_i ret6 w6 h6
  have f6 := iotcon_representation_set_attributes_notifyFailures sdk resp_repr resp_attributes w5
  rw [h6] at f6
  simp only [] at f6
  split at hr
  · subst hr
    simp [f1, f2, f2b, f3, f4, f5, f6]
  generalize hw6b : iotcon_attributes_destroy resp_attributes w6 = w6b at hr
  have f6b : w6b.notifyFailures = w6.notifyFailures := by
    rw [← hw6b]; exact iotcon_attributes_destroy_notifyFailures resp_attributes w6
  split at hr
  rename_i ret7 w7 h7
  have f7 := send_response_notifyFailures sdk request resp_repr
    IOTCON_RESPONSE_RESOURCE_CREATED w6b
  rw [h7] at f7
  simp only [] at f7
  split at hr
  · subst hr
    simp [f1, f2, f2b, f3, f4, f5, f6, f6b, f7]
  · subst hr
    simp [f1, f2, f2b, f3, f4, f5, f6, f6b, f7]

/-! ## What a run sends, on any platform

Every platform call but `iotcon_response_send` leaves the responses sent as they
are and only extends the history; the lemmas below carry this through the
functions of `connectivity.c` and say what each of them sends. -/

theorem calloc_quiet (sdk : Platform) (w : World) :
    Quiet w (calloc sdk w).2 := by
  unfold Quiet Later calloc
  simp only [World.emit, World.sent]
  repeat' split
  all_goals exact ⟨by simp [responsesOf_append, responsesOf], _, rfl⟩

theorem free_quiet (p : Nat) (w : World) :
    Quiet w (free p w) := by
  unfold Quiet Later free
  simp only [World.emit, World.sent]
  repeat' split
  all_goals exact ⟨by simp [responsesOf_append, responsesOf], _, rfl⟩

theorem iotcon_response_create_quiet (sdk : Platform) (w : World) :
    Quiet w (iotcon_response_create sdk w).2.2 := by
  unfold Quiet Later iotcon_response_create
  simp only [World.emit, World.sent]
  repeat' split
  all_goals exact ⟨by simp [responsesOf_append, responsesOf], _, rfl⟩

theorem iotcon_response_set_result_quiet (sdk : Platform) (h : Nat)
    (x : iotcon_response_result_e) (w : World) :
    Quiet w (iotcon_response_set_result sdk h x w).2 := by
  unfold Quiet Later iotcon_response_set_result
  simp only [World.emit, World.sent]
  repeat' split
  all_goals exact ⟨by simp [responsesOf_append, responsesOf], _, rfl⟩

theorem iotcon_response_set_representation_quiet (sdk : Platform) (h r : Nat) (w : World) :
    Quiet w (iotcon_response_set_representation sdk h r w).2 := by
  unfold Quiet Later iotcon_response_set_representation
  simp only [World.emit, World.sent]
  repeat' split
  all_goals exact ⟨by simp [responsesOf_append, responsesOf], _, rfl⟩

theorem iotcon_response_destroy_quiet (h : Nat) (w : World) :
    Quiet w (iotcon_response_destroy h w) := by
  unfold Quiet Later iotcon_response_destroy
  simp only [World.emit, World.sent]
  repeat' split
  all_goals exact ⟨by simp [responsesOf_append, responsesOf], _, rfl⟩

theorem iotcon_representation_create_quiet (sdk : Platform) (w : World) :
    Quiet w (iotcon_representation_create sdk w).2.2 := by
  unfold Quiet Later iotcon_representation_create
  simp only [World.emit, World.sent]
  repeat' split
  all_goals exact ⟨by simp [responsesOf_append, responsesOf], _, rfl⟩

theorem iotcon_representation_destroy_quiet (h : Nat) (w : World) :
    Quiet w (iotcon_representation_destroy h w) := by
  unfold Quiet Later iotcon_representation_destroy
  simp only [World.emit, World.sent]
  repeat' split
  all_goals exact ⟨by simp [responsesOf_append, responsesOf], _, rfl⟩

theorem iotcon_representation_set_uri_path_quiet (sdk : Platform) (h : Nat) (u : String)
    (w : World) :
    Quiet w (iotcon_representation_set_uri_path sdk h u w).2 := by
  unfold Quiet Later iotcon_representation_set_uri_path
  simp only [World.emit, World.sent]
  repeat' split
  all_goals exact ⟨by simp [responsesOf_append, responsesOf], _, rfl⟩

theorem iotcon_representation_set_attributes_quiet (sdk : Platform) (h a : Nat) (w : World) :
    Quiet w (iotcon_representation_set_attributes sdk h a w).2 := by
  unfold Quiet Later iotcon_representation_set_attributes
  simp only [World.emit, World.sent]
  repeat' split
  all_goals exact ⟨by simp [responsesOf_append, responsesOf], _, rfl⟩

theorem iotcon_representation_get_attributes_quiet (sdk : Platform) (h : Nat) (w : World) :
    Quiet w (iotcon_representation_get_attributes sdk h w).2.2 := by
  unfold Quiet Later iotcon_representation_get_attributes
  simp only [World.emit, World.sent]
  repeat' split
  all_goals exact ⟨by simp [responsesOf_append, responsesOf], _, rfl⟩

theorem iotcon_attributes_create_quiet (sdk : Platform) (w : World) :
    Quiet w (iotcon_attributes_create sdk w).2.2 := by
  unfold Quiet Later iotcon_attributes_create
  simp only [World.emit, World.sent]
  repeat' split
  all_goals exact ⟨by simp [responsesOf_append, responsesOf], _, rfl⟩

theorem iotcon_attributes_destroy_quiet (h : Nat) (w : World) :
    Quiet w (iotcon_attributes_destroy h w) := by
  unfold Quiet Later iotcon_attributes_destroy
  simp only [World.emit, World.sent]
  repeat' split
  all_goals exact ⟨by simp [responsesOf_append, responsesOf], _, rfl⟩

theorem iotcon_attributes_add_bool_quiet (sdk : Platform) (h : Nat) (k : String) (b : Bool)
    (w : World) :
    Quiet w (iotcon_attributes_add_bool sdk h k b w).2 := by
  unfold Quiet Later iotcon_attributes_add_bool
  simp only [World.emit, World.sent]
  repeat' split
  all_goals exact ⟨by simp [responsesOf_append, responsesOf], _, rfl⟩

theorem iotcon_attributes_add_str_quiet (sdk : Platform) (h : Nat) (k v : String) (w : World) :
    Quiet w (iotcon_attributes_add_str sdk h k v w).2 := by
  unfold Quiet Later iotcon_attributes_add_str
  simp only [World.emit, World.sent]
  repeat' split
  all_goals exact ⟨by simp [responsesOf_append, responsesOf], _, rfl⟩

theorem iotcon_attributes_get_bool_quiet (sdk : Platform) (h : Nat) (k : String) (b : Bool)
    (w : World) :
    Quiet w (iotcon_attributes_get_bool sdk h k b w).2.2 := by
  unfold Quiet Later iotcon_attributes_get_bool
  simp only [World.emit, World.sent]
  repeat' split
  all_goals exact ⟨by simp [responsesOf_append, responsesOf], _, rfl⟩

theorem iotcon_resource_get_uri_path_quiet (sdk : Platform) (h : Nat) (w : World) :
    Quiet w (iotcon_resource_get_uri_path sdk h w).2.2 := by
  unfold Quiet Later iotcon_resource_get_uri_path
  simp only [World.emit, World.sent]
  repeat' split
  all_goals exact ⟨by simp [responsesOf_append, responsesOf], _, rfl⟩

theorem iotcon_resource_notify_quiet (sdk : Platform) (h r o : Nat) (q : iotcon_qos_e) (w : World) :
    Quiet w (iotcon_resource_notify sdk h r o q w).2 := by
  unfold Quiet Later iotcon_resource_notify
  simp only [World.emit, World.sent]
  repeat' split
  all_goals exact ⟨by simp [responsesOf_append, responsesOf], _, rfl⟩

theorem iotcon_resource_types_create_quiet (sdk : Platform) (w : World) :
    Quiet w (iotcon_resource_types_create sdk w).2.2 := by
  unfold Quiet Later iotcon_resource_types_create
  simp only [World.emit, World.sent]
  repeat' split
  all_goals exact ⟨by simp [responsesOf_append, responsesOf], _, rfl⟩

theorem iotcon_resource_types_add_quiet (sdk : Platform) (h : Nat) (t : String) (w : World) :
    Quiet w (iotcon_resource_types_add sdk h t w).2 := by
  unfold Quiet Later iotcon_resource_types_add
  simp only [World.emit, World.sent]
  repeat' split
  all_goals exact ⟨by simp [responsesOf_append, responsesOf], _, rfl⟩

theorem iotcon_resource_types_destroy_quiet (h : Nat) (w : World) :
    Quiet w (iotcon_resource_types_destroy h w) := by
  unfold Quiet Later iotcon_resource_types_destroy
  simp only [World.emit, World.sent]
  repeat' split
  all_goals exact ⟨by simp [responsesOf_append, responsesOf], _, rfl⟩

theorem iotcon_resource_interfaces_create_quiet (sdk : Platform) (w : World) :
    Quiet w (iotcon_resource_interfaces_create sdk w).2.2 := by
  unfold Quiet Later iotcon_resource_interfaces_create
  simp only [World.emit, World.sent]
  repeat' split
  all_goals exact ⟨by simp [responsesOf_append, responsesOf], _, rfl⟩

theorem iotcon_resource_interfaces_add_quiet (sdk : Platform) (h : Nat) (i : iotcon_interface)
    (w : World) :
    Quiet w (iotcon_resource_interfaces_add sdk h i w).2 := by
  unfold Quiet Later iotcon_resource_interfaces_add
  simp only [World.emit, World.sent]
  repeat' split
  all_goals exact ⟨by simp [responsesOf_append, responsesOf], _, rfl⟩

theorem iotcon_resource_interfaces_destroy_quiet (h : Nat) (w : World) :
    Quiet w (iotcon_resource_interfaces_destroy h w) := by
  unfold Quiet Later iotcon_resource_interfaces_destroy
  simp only [World.emit, World.sent]
  repeat' split
  all_goals exact ⟨by simp [responsesOf_append, responsesOf], _, rfl⟩

theorem iotcon_resource_create_quiet (sdk : Platform) (u : String) (t i : Nat)
    (p : List iotcon_resource_policy_e) (d : Nat) (w : World) :
    Quiet w (iotcon_resource_create sdk u t i p d w).2.2 := by
  unfold Quiet Later iotcon_resource_create
  simp only [World.emit, World.sent]
  repeat' split
  all_goals exact ⟨by simp [responsesOf_append, responsesOf], _, rfl⟩

theorem iotcon_resource_destroy_quiet (sdk : Platform) (h : Nat) (w : World) :
    Quiet w (iotcon_resource_destroy sdk h w).2 := by
  unfold Quiet Later iotcon_resource_destroy
  simp only [World.emit, World.sent]
  repeat' split
  all_goals exact ⟨by simp [responsesOf_append, responsesOf], _, rfl⟩

theorem iotcon_observers_create_quiet (sdk : Platform) (w : World) :
    Quiet w (iotcon_observers_create sdk w).2.2 := by
  unfold Quiet Later iotcon_observers_create
  simp only [World.emit, World.sent]
  repeat' split
  all_goals exact ⟨by simp [responsesOf_append, responsesOf], _, rfl⟩

theorem iotcon_observers_add_quiet (sdk : Platform) (h : Nat) (i : Int) (w : World) :
    Quiet w (iotcon_observers_add sdk h i w).2 := by
  unfold Quiet Later iotcon_observers_add
  simp only [World.emit, World.sent]
  repeat' split
  all_goals exact ⟨by simp [responsesOf_append, responsesOf], _, rfl⟩

theorem iotcon_observers_remove_quiet (sdk : Platform) (h : Nat) (i : Int) (w : World) :
    Quiet w (iotcon_observers_remove sdk h i w).2 := by
  unfold Quiet Later iotcon_observers_remove
  simp only [World.emit, World.sent]
  repeat' split
  all_goals exact ⟨by simp [responsesOf_append, responsesOf], _, rfl⟩

theorem iotcon_observers_destroy_quiet (h : Nat) (w : World) :
    Quiet w (iotcon_observers_destroy h w) := by
  unfold Quiet Later iotcon_observers_destroy
  simp only [World.emit, World.sent]
  repeat' split
  all_goals exact ⟨by simp [responsesOf_append, responsesOf], _, rfl⟩

theorem iotcon_request_get_host_address_quiet (sdk : Platform) (request : Request) (w : World) :
    Quiet w (iotcon_request_get_host_address sdk request w).2.2 := by
  unfold Quiet Later iotcon_request_get_host_address
  simp only [World.emit, World.sent]
  repeat' split
  all_goals exact ⟨by simp [responsesOf_append, responsesOf], _, rfl⟩

theorem iotcon_request_get_query_quiet (sdk : Platform) (request : Request) (w : World) :
    Quiet w (iotcon_request_get_query sdk request w).2.2 := by
  unfold Quiet Later iotcon_request_get_query
  simp only [World.emit, World.sent]
  repeat' split
  all_goals exact ⟨by simp [responsesOf_append, responsesOf], _, rfl⟩

theorem iotcon_query_foreach_quiet (sdk : Platform) (q : List (String × String))
    (cb : String → String → Bool) (w : World) :
    Quiet w (iotcon_query_foreach sdk q cb w).2 := by
  unfold Quiet Later iotcon_query_foreach
  simp only [World.emit, World.sent]
  repeat' split
  all_goals exact ⟨by simp [responsesOf_append, responsesOf], _, rfl⟩

theorem iotcon_request_get_request_type_quiet (sdk : Platform) (request : Request) (w : World) :
    Quiet w (iotcon_request_get_request_type sdk request w).2.2 := by
  unfold Quiet Later iotcon_request_get_request_type
  simp only [World.emit, World.sent]
  repeat' split
  all_goals exact ⟨by simp [responsesOf_append, responsesOf], _, rfl⟩

theorem iotcon_request_get_observe_type_quiet (sdk : Platform) (request : Request) (w : World) :
    Quiet w (iotcon_request_get_observe_type sdk request w).2.2 := by
  unfold Quiet Later iotcon_request_get_observe_type
  simp only [World.emit, World.sent]
  repeat' split
  all_goals exact ⟨by simp [responsesOf_append, responsesOf], _, rfl⟩

theorem iotcon_request_get_observe_id_quiet (sdk : Platform) (request : Request) (cur : Int)
    (w : World) :
    Quiet w (iotcon_request_get_observe_id sdk request cur w).2.2 := by
  unfold Quiet Later iotcon_request_get_observe_id
  simp only [World.emit, World.sent]
  repeat' split
  all_goals exact ⟨by simp [responsesOf_append, responsesOf], _, rfl⟩

theorem iotcon_request_get_representation_quiet (sdk : Platform) (request : Request) (w : World) :
    Quiet w (iotcon_request_get_representation sdk request w).2.2 := by
  unfold Quiet Later iotcon_request_get_representation
  simp only [World.emit, World.sent]
  repeat' split
  all_goals exact ⟨by simp [responsesOf_append, responsesOf], _, rfl⟩

theorem Quiet.later {a b : World} (h : Quiet a b) : Later a b := h.2

theorem Later.here (w : World) : Later w w := ⟨[], by simp⟩

theorem Later.andThen {a b c : World} (h1 : Later a b) (h2 : Later b c) : Later a c := by
  obtain ⟨l1, t1⟩ := h1
  obtain ⟨l2, t2⟩ := h2
  exact ⟨l1 ++ l2, by rw [t2, t1, List.append_assoc]⟩

theorem since_of_later {a b c : World} (h1 : Later a b) (h2 : Later b c) (e : Event)
    (he : e ∈ since b c) : e ∈ since a c := by
  obtain ⟨l1, t1⟩ := h1
  obtain ⟨l2, t2⟩ := h2
  have hb : since b c = l2 := by simp [since, t2]
  have ha : since a c = l1 ++ l2 := by simp [since, t2, t1]
  rw [ha]
  rw [hb] at he
  exact List.mem_append_right _ he

theorem iotcon_response_send_later (sdk : Platform) (h : Nat) (w : World) :
    Later w (iotcon_response_send sdk h w).2 := by
  unfold Later iotcon_response_send
  simp only [World.emit]
  repeat' split
  all_goals exact ⟨_, rfl⟩

/-- What `_send_response` sends, on any platform: the response, once, exactly when
it returns 0; nothing when it returns -1. -/
theorem send_response_sent (sdk : Platform) (request : Request) (representation : Nat)
    (result : iotcon_response_result_e) (w : World) :
    ((_send_response sdk request representation result w).1 = 0 ∧
      (_send_response sdk request representation result w).2.sent
        = w.sent ++ [some result]) ∨
    ((_send_response sdk request representation result w).1 = -1 ∧
      (_send_response sdk request representation result w).2.sent = w.sent) := by
  by_cases h1 : sdk w.trace Call.iotcon_response_create = 0
  swap
  · simp [_send_response, iotcon_response_create, World.emit, World.sent, h1, Ne.symm h1]
  by_cases h2 : sdk (w.trace ++ [⟨Call.iotcon_response_create, 0⟩])
      (Call.iotcon_response_set_result (w.next + 1) result) = 0
  swap
  · simp [_send_response, iotcon_response_create, iotcon_response_set_result,
      iotcon_response_destroy, World.emit, World.sent, h1, h2, Ne.symm h2]
  by_cases h3 : sdk (w.trace ++ [⟨Call.iotcon_response_create, 0⟩,
      ⟨Call.iotcon_response_set_result (w.next + 1) result, 0⟩])
      (Call.iotcon_response_set_representation (w.next + 1) representation) = 0
  swap
  · simp [_send_response, iotcon_response_create, iotcon_response_set_result,
      iotcon_response_set_representation, iotcon_response_destroy, World.emit, World.sent,
      h1, h2, h3, Ne.symm h3]
  by_cases h4 : sdk (w.trace ++ [⟨Call.iotcon_response_create, 0⟩,
      ⟨Call.iotcon_response_set_result (w.next + 1) result, 0⟩,
      ⟨Call.iotcon_response_set_representation (w.next + 1) representation, 0⟩])
      (Call.iotcon_response_send (w.next + 1)) = 0
  swap
  · simp [_send_response, iotcon_response_create, iotcon_response_set_result,
      iotcon_response_set_representation, iotcon_response_send, iotcon_response_destroy,
      World.emit, World.sent, h1, h2, h3, h4, Ne.symm h4]
  simp [_send_response, iotcon_response_create, iotcon_response_set_result,
    iotcon_response_set_representation, iotcon_response_send, iotcon_response_destroy,
    World.emit, World.sent, h1, h2, h3, h4, responsesOf_append, responsesOf]

/-- When `_send_response` returns 0, on any platform: exactly when every platform
call it made reported `IOTCON_ERROR_NONE`. -/
theorem send_response_ok_iff (sdk : Platform) (request : Request) (representation : Nat)
    (result : iotcon_response_result_e) (w : World) :
    (_send_response sdk request representation result w).1 = 0 ↔
      ∀ e ∈ since w (_send_response sdk request representation result w).2,
        e.status = IOTCON_ERROR_NONE := by
  by_cases h1 : sdk w.trace Call.iotcon_response_create = 0
  swap
  · simp [_send_response, iotcon_response_create, World.emit, since, h1, Ne.symm h1,
      IOTCON_ERROR_NONE]
  by_cases h2 : sdk (w.trace ++ [⟨Call.iotcon_response_create, 0⟩])
      (Call.iotcon_response_set_result (w.next + 1) result) = 0
  swap
  · simp [_send_response, iotcon_response_create, iotcon_response_set_result,
      iotcon_response_destroy, World.emit, since, h1, h2, Ne.symm h2, IOTCON_ERROR_NONE]
  by_cases h3 : sdk (w.trace ++ [⟨Call.iotcon_response_create, 0⟩,
      ⟨Call.iotcon_response_set_result (w.next + 1) result, 0⟩])
      (Call.iotcon_response_set_representation (w.next + 1) representation) = 0
  swap
  · simp [_send_response, iotcon_response_create, iotcon_response_set_result,
      iotcon_response_set_representation, iotcon_response_destroy, World.emit, since,
      h1, h2, h3, Ne.symm h3, IOTCON_ERROR_NONE]
  by_cases h4 : sdk (w.trace ++ [⟨Call.iotcon_response_create, 0⟩,
      ⟨Call.iotcon_response_set_result (w.next + 1) result, 0⟩,
      ⟨Call.iotcon_response_set_representation (w.next + 1) representation, 0⟩])
      (Call.iotcon_response_send (w.next + 1)) = 0
  swap
  · simp [_send_response, iotcon_response_create, iotcon_response_set_result,
      iotcon_response_set_representation, iotcon_response_send, iotcon_response_destroy,
      World.emit, since, h1, h2, h3, h4, Ne.symm h4, IOTCON_ERROR_NONE]
  simp [_send_response, iotcon_response_create, iotcon_response_set_result,
    iotcon_response_set_representation, iotcon_response_send, iotcon_response_destroy,
    World.emit, since, h1, h2, h3, h4, IOTCON_ERROR_NONE]

theorem send_response_later (sdk : Platform) (request : Request) (representation : Nat)
    (result : iotcon_response_result_e) (w : World) :
    Later w (_send_response sdk request representation result w).2 := by
  unfold _send_response
  simp only []
  have f1 := (iotcon_response_create_quiet sdk w).later
  generalize iotcon_response_create sdk w = r at f1 ⊢
  obtain ⟨ret1, response, w1⟩ := r
  simp only [] at f1 ⊢
  have f2 := (iotcon_response_set_result_quiet sdk response result w1).later
  generalize iotcon_response_set_result sdk response result w1 = r at f2 ⊢
  obtain ⟨ret2, w2⟩ := r
  simp only [] at f2 ⊢
  have f3 := (iotcon_response_set_representation_quiet sdk response representation w2).later
  generalize iotcon_response_set_representation sdk response representation w2 = r at f3 ⊢
  obtain ⟨ret3, w3⟩ := r
  simp only [] at f3 ⊢
  have f4 := iotcon_response_send_later sdk response w3
  generalize iotcon_response_send sdk response w3 = r at f4 ⊢
  obtain ⟨ret4, w4⟩ := r
  simp only [] at f4 ⊢
  have d2 := (iotcon_response_destroy_quiet response w2).later
  have d3 := (iotcon_response_destroy_quiet response w3).later
  have d4 := (iotcon_response_destroy_quiet response w4).later
  split_ifs
  · exact f1
  · exact (f1.andThen f2).andThen d2
  · exact ((f1.andThen f2).andThen f3).andThen d3
  · exact (((f1.andThen f2).andThen f3).andThen f4).andThen d4
  · exact (((f1.andThen f2).andThen f3).andThen f4).andThen d4

@[simp] theorem calloc_sent (sdk : Platform) (w : World) :
    (calloc sdk w).2.sent = w.sent := (calloc_quiet sdk w).1

@[simp] theorem free_sent (p : Nat) (w : World) :
    (free p w).sent = w.sent := (free_quiet p w).1

@[simp] theorem iotcon_response_create_sent (sdk : Platform) (w : World) :
    (iotcon_response_create sdk w).2.2.sent = w.sent := (iotcon_response_create_quiet sdk w).1

@[simp] theorem iotcon_response_set_result_sent (sdk : Platform) (h : Nat)
    (x : iotcon_response_result_e) (w : World) :
    (iotcon_response_set_result sdk h x w).2.sent = w.sent := (iotcon_response_set_result_quiet
        sdk h x w).1

@[simp] theorem iotcon_response_set_representation_sent (sdk : Platform) (h r : Nat) (w : World) :
    (iotcon_response_set_representation sdk h r w).2.sent = w.sent :=
        (iotcon_response_set_representation_quiet sdk h r w).1

@[simp] theorem iotcon_response_destroy_sent (h : Nat) (w : World) :
    (iotcon_response_destroy h w).sent = w.sent := (iotcon_response_destroy_quiet h w).1

@[simp] theorem iotcon_representation_create_sent (sdk : Platform) (w : World) :
    (iotcon_representation_create sdk w).2.2.sent = w.sent := (iotcon_representation_create_quiet
        sdk w).1

@[simp] theorem iotcon_representation_destroy_sent (h : Nat) (w : World) :
    (iotcon_representation_destroy h w).sent = w.sent := (iotcon_representation_destroy_quiet h w).1

@[simp] theorem iotcon_representation_set_uri_path_sent (sdk : Platform) (h : Nat) (u : String)
    (w : World) :
    (iotcon_representation_set_uri_path sdk h u w).2.sent = w.sent :=
        (iotcon_representation_set_uri_path_quiet sdk h u w).1

@[simp] theorem iotcon_representation_set_attributes_sent (sdk : Platform) (h a : Nat) (w : World) :
    (iotcon_representation_set_attributes sdk h a w).2.sent = w.sent :=
        (iotcon_representation_set_attributes_quiet sdk h a w).1

@[simp] theorem iotcon_representation_get_attributes_sent (sdk : Platform) (h : Nat) (w : World) :
    (iotcon_representation_get_attributes sdk h w).2.2.sent = w.sent :=
        (iotcon_representation_get_attributes_quiet sdk h w).1

@[simp] theorem iotcon_attributes_create_sent (sdk : Platform) (w : World) :
    (iotcon_attributes_create sdk w).2.2.sent = w.sent := (iotcon_attributes_create_quiet sdk w).1

@[simp] theorem iotcon_attributes_destroy_sent (h : Nat) (w : World) :
    (iotcon_attributes_destroy h w).sent = w.sent := (iotcon_attributes_destroy_quiet h w).1

@[simp] theorem iotcon_attributes_add_bool_sent (sdk : Platform) (h : Nat) (k : String)
    (b : Bool) (w : World) :
    (iotcon_attributes_add_bool sdk h k b w).2.sent = w.sent := (iotcon_attributes_add_bool_quiet
        sdk h k b w).1

@[simp] theorem iotcon_attributes_add_str_sent (sdk : Platform) (h : Nat) (k v : String)
    (w : World) :
    (iotcon_attributes_add_str sdk h k v w).2.sent = w.sent := (iotcon_attributes_add_str_quiet
        sdk h k v w).1

@[simp] theorem iotcon_attributes_get_bool_sent (sdk : Platform) (h : Nat) (k : String)
    (b : Bool) (w : World) :
    (iotcon_attributes_get_bool sdk h k b w).2.2.sent = w.sent :=
        (iotcon_attributes_get_bool_quiet sdk h k b w).1

@[simp] theorem iotcon_resource_get_uri_path_sent (sdk : Platform) (h : Nat) (w : World) :
    (iotcon_resource_get_uri_path sdk h w).2.2.sent = w.sent :=
        (iotcon_resource_get_uri_path_quiet sdk h w).1

@[simp] theorem iotcon_resource_notify_sent (sdk : Platform) (h r o : Nat) (q : iotcon_qos_e)
    (w : World) :
    (iotcon_resource_notify sdk h r o q w).2.sent = w.sent := (iotcon_resource_notify_quiet sdk h
        r o q w).1

@[simp] theorem iotcon_resource_types_create_sent (sdk : Platform) (w : World) :
    (iotcon_resource_types_create sdk w).2.2.sent = w.sent := (iotcon_resource_types_create_quiet
        sdk w).1

@[simp] theorem iotcon_resource_types_add_sent (sdk : Platform) (h : Nat) (t : String) (w : World) :
    (iotcon_resource_types_add sdk h t w).2.sent = w.sent := (iotcon_resource_types_add_quiet sdk
        h t w).1

@[simp] theorem iotcon_resource_types_destroy_sent (h : Nat) (w : World) :
    (iotcon_resource_types_destroy h w).sent = w.sent := (iotcon_resource_types_destroy_quiet h w).1

@[simp] theorem iotcon_resource_interfaces_create_sent (sdk : Platform) (w : World) :
    (iotcon_resource_interfaces_create sdk w).2.2.sent = w.sent :=
        (iotcon_resource_interfaces_create_quiet sdk w).1

@[simp] theorem iotcon_resource_interfaces_add_sent (sdk : Platform) (h : Nat)
    (i : iotcon_interface) (w : World) :
    (iotcon_resource_interfaces_add sdk h i w).2.sent = w.sent :=
        (iotcon_resource_interfaces_add_quiet sdk h i w).1

@[simp] theorem iotcon_resource_interfaces_destroy_sent (h : Nat) (w : World) :
    (iotcon_resource_interfaces_destroy h w).sent = w.sent :=
        (iotcon_resource_interfaces_destroy_quiet h w).1

@[simp] theorem iotcon_resource_create_sent (sdk : Platform) (u : String) (t i : Nat)
    (p : List iotcon_resource_policy_e) (d : Nat) (w : World) :
    (iotcon_resource_create sdk u t i p d w).2.2.sent = w.sent := (iotcon_resource_create_quiet
        sdk u t i p d w).1

@[simp] theorem iotcon_resource_destroy_sent (sdk : Platform) (h : Nat) (w : World) :
    (iotcon_resource_destroy sdk h w).2.sent = w.sent := (iotcon_resource_destroy_quiet sdk h w).1

@[simp] theorem iotcon_observers_create_sent (sdk : Platform) (w : World) :
    (iotcon_observers_create sdk w).2.2.sent = w.sent := (iotcon_observers_create_quiet sdk w).1

@[simp] theorem iotcon_observers_add_sent (sdk : Platform) (h : Nat) (i : Int) (w : World) :
    (iotcon_observers_add sdk h i w).2.sent = w.sent := (iotcon_observers_add_quiet sdk h i w).1

@[simp] theorem iotcon_observers_remove_sent (sdk : Platform) (h : Nat) (i : Int) (w : World) :
    (iotcon_observers_remove sdk h i w).2.sent = w.sent := (iotcon_observers_remove_quiet sdk h i
        w).1

@[simp] theorem iotcon_observers_destroy_sent (h : Nat) (w : World) :
    (iotcon_observers_destroy h w).sent = w.sent := (iotcon_observers_destroy_quiet h w).1

@[simp] theorem iotcon_request_get_host_address_sent (sdk : Platform) (request : Request)
    (w : World) :
    (iotcon_request_get_host_address sdk request w).2.2.sent = w.sent :=
        (iotcon_request_get_host_address_quiet sdk request w).1

@[simp] theorem iotcon_request_get_query_sent (sdk : Platform) (request : Request) (w : World) :
    (iotcon_request_get_query sdk request w).2.2.sent = w.sent := (iotcon_request_get_query_quiet
        sdk request w).1

@[simp] theorem iotcon_query_foreach_sent (sdk : Platform) (q : List (String × String))
    (cb : String → String → Bool) (w : World) :
    (iotcon_query_foreach sdk q cb w).2.sent = w.sent := (iotcon_query_foreach_quiet sdk q cb w).1

@[simp] theorem iotcon_request_get_request_type_sent (sdk : Platform) (request : Request)
    (w : World) :
    (iotcon_request_get_request_type sdk request w).2.2.sent = w.sent :=
        (iotcon_request_get_request_type_quiet sdk request w).1

@[simp] theorem iotcon_request_get_observe_type_sent (sdk : Platform) (request : Request)
    (w : World) :
    (iotcon_request_get_observe_type sdk request w).2.2.sent = w.sent :=
        (iotcon_request_get_observe_type_quiet sdk request w).1

@[simp] theorem iotcon_request_get_observe_id_sent (sdk : Platform) (request : Request)
    (cur : Int) (w : World) :
    (iotcon_request_get_observe_id sdk request cur w).2.2.sent = w.sent :=
        (iotcon_request_get_observe_id_quiet sdk request cur w).1

@[simp] theorem iotcon_request_get_representation_sent (sdk : Platform) (request : Request)
    (w : World) :
    (iotcon_request_get_representation sdk request w).2.2.sent = w.sent :=
        (iotcon_request_get_representation_quiet sdk request w).1

@[simp] theorem _E_sent (msg : String) (w : World) : (_E msg w).sent = w.sent := rfl

@[simp] theorem setRes_sent (w : World) (p r : Nat) : (w.setRes p r).sent = w.sent := rfl

@[simp] theorem setObservers_sent (w : World) (p r : Nat) :
    (w.setObservers p r).sent = w.sent := rfl

@[simp] theorem destroy_representation_sent (h : Nat) (w : World) :
    (_destroy_representation h w).sent = w.sent := by
  unfold _destroy_representation
  split <;> simp

theorem destroy_representation_later (h : Nat) (w : World) :
    Later w (_destroy_representation h w) := by
  unfold _destroy_representation
  split
  · exact Later.here w
  · exact (iotcon_representation_destroy_quiet h w).later

@[simp] theorem create_representation_error_sent (a r : Nat) (w : World) :
    (_create_representation_with_attribute_error a r w).2.sent = w.sent := by
  unfold _create_representation_with_attribute_error
  simp only []
  split_ifs <;> simp

theorem create_representation_error_later (a r : Nat) (w : World) :
    Later w (_create_representation_with_attribute_error a r w).2 := by
  unfold _create_representation_with_attribute_error
  simp only []
  have d1 := (iotcon_attributes_destroy_quiet a w).later
  have d2 := (iotcon_representation_destroy_quiet r w).later
  have d3 := (iotcon_representation_destroy_quiet r (iotcon_attributes_destroy a w)).later
  have d4 := Later.here w
  have d5 := d1.andThen d3
  split_ifs <;> assumption

@[simp] theorem create_representation_sent (sdk : Platform) (res : Nat) (v : Bool) (w : World) :
    (_create_representation_with_attribute sdk res v w).2.sent = w.sent := by
  unfold _create_representation_with_attribute
  simp only []
  have f1 := iotcon_resource_get_uri_path_sent sdk res w
  generalize iotcon_resource_get_uri_path sdk res w = r at f1 ⊢
  obtain ⟨ret1, uri, w1⟩ := r
  simp only [] at f1 ⊢
  have f2 := iotcon_representation_create_sent sdk w1
  generalize iotcon_representation_create sdk w1 = r at f2 ⊢
  obtain ⟨ret2, repr, w2⟩ := r
  simp only [] at f2 ⊢
  have f3 := iotcon_attributes_create_sent sdk w2
  generalize iotcon_attributes_create sdk w2 = r at f3 ⊢
  obtain ⟨ret3, attrs, w3⟩ := r
  simp only [] at f3 ⊢
  have f4 := iotcon_representation_set_uri_path_sent sdk repr uri w3
  generalize iotcon_representation_set_uri_path sdk repr uri w3 = r at f4 ⊢
  obtain ⟨ret4, w4⟩ := r
  simp only [] at f4 ⊢
  have f5 := iotcon_attributes_add_bool_sent sdk attrs "opened" v w4
  generalize iotcon_attributes_add_bool sdk attrs "opened" v w4 = r at f5 ⊢
  obtain ⟨ret5, w5⟩ := r
  simp only [] at f5 ⊢
  have f6 := iotcon_representation_set_attributes_sent sdk repr attrs w5
  generalize iotcon_representation_set_attributes sdk repr attrs w5 = r at f6 ⊢
  obtain ⟨ret6, w6⟩ := r
  simp only [] at f6 ⊢
  split_ifs <;> simp [f1, f2, f3, f4, f5, f6]

theorem create_representation_later (sdk : Platform) (res : Nat) (v : Bool) (w : World) :
    Later w (_create_representation_with_attribute sdk res v w).2 := by
  unfold _create_representation_with_attribute
  simp only []
  have f1 := (iotcon_resource_get_uri_path_quiet sdk res w).later
  generalize iotcon_resource_get_uri_path sdk res w = r at f1 ⊢
  obtain ⟨ret1, uri, w1⟩ := r
  simp only [] at f1 ⊢
  have f2 := (iotcon_representation_create_quiet sdk w1).later
  generalize iotcon_representation_create sdk w1 = r at f2 ⊢
  obtain ⟨ret2, repr, w2⟩ := r
  simp only [] at f2 ⊢
  have f3 := (iotcon_attributes_create_quiet sdk w2).later
  generalize iotcon_attributes_create sdk w2 = r at f3 ⊢
  obtain ⟨ret3, attrs, w3⟩ := r
  simp only [] at f3 ⊢
  have f4 := (iotcon_representation_set_uri_path_quiet sdk repr uri w3).later
  generalize iotcon_representation_set_uri_path sdk repr uri w3 = r at f4 ⊢
  obtain ⟨ret4, w4⟩ := r
  simp only [] at f4 ⊢
  have f5 := (iotcon_attributes_add_bool_quiet sdk attrs "opened" v w4).later
  generalize iotcon_attributes_add_bool sdk attrs "opened" v w4 = r at f5 ⊢
  obtain ⟨ret5, w5⟩ := r
  simp only [] at f5 ⊢
  have f6 := (iotcon_representation_set_attributes_quiet sdk repr attrs w5).later
  generalize iotcon_representation_set_attributes sdk repr attrs w5 = r at f6 ⊢
  obtain ⟨ret6, w6⟩ := r
  simp only [] at f6 ⊢
  have g2 := f1.andThen f2
  have g3 := g2.andThen f3
  have g4 := g3.andThen f4
  have g5 := g4.andThen f5
  have g6 := g5.andThen f6
  split_ifs
  all_goals first
    | assumption
    | exact Later.andThen (by assumption) (create_representation_error_later _ _ _)
    | exact Later.andThen (by assumption) (iotcon_attributes_destroy_quiet _ _).later

theorem iotcon_resource_notify_trace (sdk : Platform) (h r o : Nat) (q : iotcon_qos_e)
    (w : World) :
    (iotcon_resource_notify sdk h r o q w).2.trace = w.trace ++
      [⟨Call.iotcon_resource_notify h r o q, (iotcon_resource_notify sdk h r o q w).1⟩] := by
  unfold iotcon_resource_notify
  simp only [World.emit]
  repeat' split
  all_goals rfl

theorem iotcon_request_get_request_type_value (sdk : Platform) (request : Request) (w : World)
    (h : (iotcon_request_get_request_type sdk request w).1 = IOTCON_ERROR_NONE) :
    (iotcon_request_get_request_type sdk request w).2.1 = request.type := by
  unfold iotcon_request_get_request_type at h ⊢
  simp only [] at h ⊢
  split_ifs with hs
  · rfl
  · rw [if_neg hs] at h
    exact absurd h hs

/-- What `_handle_get_request` sends, on any platform. -/
theorem get_sent (sdk : Platform) (res : Nat) (request : Request) (w : World) :
    ((_handle_get_request sdk res request w).1 = 0 ∧
      (_handle_get_request sdk res request w).2.sent = w.sent ++ [some IOTCON_RESPONSE_OK]) ∨
    ((_handle_get_request sdk res request w).1 = -1 ∧
      (_handle_get_request sdk res request w).2.sent = w.sent) := by
  unfold _handle_get_request
  simp only []
  generalize decide ((1 : Int) ≠ 0) = v
  have f1 := create_representation_sent sdk res v w
  generalize _create_representation_with_attribute sdk res v w = r at f1 ⊢
  obtain ⟨representation, w1⟩ := r
  simp only [] at f1 ⊢
  have s := send_response_sent sdk request representation IOTCON_RESPONSE_OK w1
  generalize _send_response sdk request representation IOTCON_RESPONSE_OK w1 = r at s ⊢
  obtain ⟨ret, w2⟩ := r
  simp only [] at s ⊢
  rcases s with ⟨h0, hs⟩ | ⟨h1, hs⟩ <;> split_ifs <;> simp_all

@[simp] theorem get_value_sent (sdk : Platform) (representation : Nat) (cur : Bool)
    (w : World) :
    (_get_value_from_representation sdk representation cur w).2.2.sent = w.sent := by
  unfold _get_value_from_representation
  simp only []
  have f1 := iotcon_representation_get_attributes_sent sdk representation w
  generalize iotcon_representation_get_attributes sdk representation w = r at f1 ⊢
  obtain ⟨ret1, attributes, w1⟩ := r
  simp only [] at f1 ⊢
  have f2 := iotcon_attributes_get_bool_sent sdk attributes "opened" cur w1
  generalize iotcon_attributes_get_bool sdk attributes "opened" cur w1 = r at f2 ⊢
  obtain ⟨ret2, value, w2⟩ := r
  simp only [] at f2 ⊢
  split_ifs <;> simp [f1, f2]

theorem get_value_later (sdk : Platform) (representation : Nat) (cur : Bool) (w : World) :
    Later w (_get_value_from_representation sdk representation cur w).2.2 := by
  unfold _get_value_from_representation
  simp only []
  have f1 := (iotcon_representation_get_attributes_quiet sdk representation w).later
  generalize iotcon_representation_get_attributes sdk representation w = r at f1 ⊢
  obtain ⟨ret1, attributes, w1⟩ := r
  simp only [] at f1 ⊢
  have f2 := (iotcon_attributes_get_bool_quiet sdk attributes "opened" cur w1).later
  generalize iotcon_attributes_get_bool sdk attributes "opened" cur w1 = r at f2 ⊢
  obtain ⟨ret2, value, w2⟩ := r
  simp only [] at f2 ⊢
  have g2 := f1.andThen f2
  split_ifs <;> assumption

theorem mem_since_of_later {w a b c : World} {e : Event} (h1 : Later w a)
    (h2 : b.trace = a.trace ++ [e]) (h3 : Later b c) : e ∈ since w c := by
  obtain ⟨l1, t1⟩ := h1
  obtain ⟨l3, t3⟩ := h3
  have : since w c = l1 ++ [e] ++ l3 := by simp [since, t3, h2, t1]
  rw [this]
  simp

/-- What `_handle_put_request` sends, on any platform: OK once when it returns 0;
when it returns -1, either nothing, no notify call having failed, or OK once and
then one `iotcon_resource_notify` call, which failed. -/
theorem put_sent (sdk : Platform) (resource_info : Nat) (request : Request) (w : World) :
    ((_handle_put_request sdk resource_info request w).1 = 0 ∧
      (_handle_put_request sdk resource_info request w).2.sent
        = w.sent ++ [some IOTCON_RESPONSE_OK] ∧
      (_handle_put_request sdk resource_info request w).2.notifyFailures
        = w.notifyFailures) ∨
    ((_handle_put_request sdk resource_info request w).1 = -1 ∧
      (_handle_put_request sdk resource_info request w).2.sent = w.sent ∧
      (_handle_put_request sdk resource_info request w).2.notifyFailures
        = w.notifyFailures) ∨
    ((_handle_put_request sdk resource_info request w).1 = -1 ∧
      (_handle_put_request sdk resource_info request w).2.sent
        = w.sent ++ [some IOTCON_RESPONSE_OK] ∧
      Later w (_handle_put_request sdk resource_info request w).2 ∧
      (∃ e ∈ since w (_handle_put_request sdk resource_info request w).2,
        isNotifyFailure e = true) ∧
      ∃ e, isNotifyFailure e = true ∧
        (_handle_put_request sdk resource_info request w).2.notifyFailures
          = w.notifyFailures ++ [e]) := by
  unfold _handle_put_request
  simp only [_set_value_into_thing]
  have f1 := iotcon_request_get_representation_quiet sdk request w
  have n1 := iotcon_request_get_representation_notifyFailures sdk request w
  generalize iotcon_request_get_representation sdk request w = r at f1 n1 ⊢
  obtain ⟨ret1, req_repr, w1⟩ := r
  simp only [] at f1 n1 ⊢
  have f2 := get_value_sent sdk req_repr false w1
  have l2 := get_value_later sdk req_repr false w1
  have n2 := get_value_notifyFailures sdk req_repr false w1
  generalize _get_value_from_representation sdk req_repr false w1 = r at f2 l2 n2 ⊢
  obtain ⟨ret2, value, w2⟩ := r
  simp only [] at f2 l2 n2 ⊢
  generalize (w2.record resource_info).res = res
  have f3 := create_representation_sent sdk res value w2
  have l3 := create_representation_later sdk res value w2
  have n3 := create_representation_notifyFailures sdk res value w2
  generalize _create_representation_with_attribute sdk res value w2 = r at f3 l3 n3 ⊢
  obtain ⟨resp_repr, w3⟩ := r
  simp only [] at f3 l3 n3 ⊢
  have s4 := send_response_sent sdk request resp_repr IOTCON_RESPONSE_OK w3
  have l4 := send_response_later sdk request resp_repr IOTCON_RESPONSE_OK w3
  have n4 := send_response_notifyFailures sdk request resp_repr IOTCON_RESPONSE_OK w3
  generalize _send_response sdk request resp_repr IOTCON_RESPONSE_OK w3 = r at s4 l4 n4 ⊢
  obtain ⟨ret4, w4⟩ := r
  simp only [] at s4 l4 n4 ⊢
  generalize (w4.record resource_info).res = res4
  generalize (w4.record resource_info).observers = obs4
  have f5 := iotcon_resource_notify_sent sdk res4 resp_repr obs4 IOTCON_QOS_HIGH w4
  have t5 := iotcon_resource_notify_trace sdk res4 resp_repr obs4 IOTCON_QOS_HIGH w4
  have n5 := iotcon_resource_notify_notifyFailures sdk res4 resp_repr obs4 IOTCON_QOS_HIGH w4
  generalize iotcon_resource_notify sdk res4 resp_repr obs4 IOTCON_QOS_HIGH w4 = r
    at f5 t5 n5 ⊢
  obtain ⟨ret5, w5⟩ := r
  simp only [] at f5 t5 n5 ⊢
  have l0 : Later w w4 := ((f1.later.andThen l2).andThen l3).andThen l4
  have l6 := destroy_representation_later resp_repr w5
  by_cases c1 : IOTCON_ERROR_NONE ≠ ret1
  · simp [c1, f1.1, n1]
  by_cases c2 : (0 : Int) ≠ ret2
  · simp [c1, c2, f1.1, f2, n1, n2]
  by_cases c3 : resp_repr = 0
  · simp [c1, c2, c3, f1.1, f2, f3, n1, n2, n3]
  rcases s4 with ⟨h4, s4⟩ | ⟨h4, s4⟩
  · by_cases c5 : IOTCON_ERROR_NONE ≠ ret5
    · refine Or.inr (Or.inr ?_)
      simp only [c1, c2, c3, c5, h4, if_true, if_false, ne_eq, not_true_eq_false,
        not_false_eq_true]
      refine ⟨trivial, by simp [f5, s4, f3, f2, f1.1], ?_, ?_, ?_⟩
      · exact (l0.andThen ⟨_, t5⟩).andThen l6
      · exact ⟨_, mem_since_of_later l0 t5 l6, by simpa [isNotifyFailure] using Ne.symm c5⟩
      · rcases n5 with ⟨h5, _⟩ | ⟨_, n5⟩
        · exact absurd h5.symm c5
        · exact ⟨⟨Call.iotcon_resource_notify res4 resp_repr obs4 IOTCON_QOS_HIGH, ret5⟩,
            by simpa [isNotifyFailure] using Ne.symm c5, by simp [n5, n4, n3, n2, n1]⟩
    · have n5b : w5.notifyFailures = w4.notifyFailures := by
        rcases n5 with ⟨_, n5⟩ | ⟨h5, _⟩
        · exact n5
        · exact absurd (Ne.symm h5) c5
      simp [c1, c2, c3, c5, h4, f5, s4, f3, f2, f1.1, n5b, n4, n3, n2, n1]
  · simp [c1, c2, c3, h4, s4, f3, f2, f1.1, n1, n2, n3, n4]

@[simp] theorem set_resource_error_sent (sdk : Platform)
    (ifaces resource_types resource_info : Nat) (w : World) :
    (connectivity_set_resource_error sdk ifaces resource_types resource_info w).sent
      = w.sent := by
  unfold connectivity_set_resource_error
  simp only []
  split_ifs <;> simp

@[simp] theorem set_resource_sent (sdk : Platform) (uri_path type : String) (out : Nat)
    (w : World) :
    (connectivity_set_resource sdk uri_path type out w).2.2.sent = w.sent := by
  by_cases h1 : sdk w.trace Call.calloc = 0
  swap
  · simp [connectivity_set_resource, connectivity_set_resource_error, calloc, free,
      World.emit, iotcon_resource_types_create, iotcon_resource_types_add,
      iotcon_resource_interfaces_create, iotcon_resource_interfaces_add,
      iotcon_resource_create, iotcon_observers_create, iotcon_resource_types_destroy,
      iotcon_resource_interfaces_destroy, iotcon_resource_destroy, World.setRes,
      World.setObservers, World.record, World.sent,
      h1, Ne.symm h1]
  by_cases h2 : sdk (w.trace ++
      [⟨Call.calloc, 0⟩])
      (Call.iotcon_resource_types_create) = 0
  swap
  · simp [connectivity_set_resource, connectivity_set_resource_error, calloc, free,
      World.emit, iotcon_resource_types_create, iotcon_resource_types_add,
      iotcon_resource_interfaces_create, iotcon_resource_interfaces_add,
      iotcon_resource_create, iotcon_observers_create, iotcon_resource_types_destroy,
      iotcon_resource_interfaces_destroy, iotcon_resource_destroy, World.setRes,
      World.setObservers, World.record, World.sent,
      h1, h2, Ne.symm h2]
  by_cases h3 : sdk (w.trace ++
      [⟨Call.calloc, 0⟩,
       ⟨Call.iotcon_resource_types_create, 0⟩])
      (Call.iotcon_resource_types_add (w.next + 2) type) = 0
  swap
  · simp [connectivity_set_resource, connectivity_set_resource_error, calloc, free,
      World.emit, iotcon_resource_types_create, iotcon_resource_types_add,
      iotcon_resource_interfaces_create, iotcon_resource_interfaces_add,
      iotcon_resource_create, iotcon_observers_create, iotcon_resource_types_destroy,
      iotcon_resource_interfaces_destroy, iotcon_resource_destroy, World.setRes,
      World.setObservers, World.record, World.sent,
      h1, h2, h3, Ne.symm h3]
  by_cases h4 : sdk (w.trace ++
      [⟨Call.calloc, 0⟩,
       ⟨Call.iotcon_resource_types_create, 0⟩,
       ⟨Call.iotcon_resource_types_add (w.next + 2) type, 0⟩])
      (Call.iotcon_resource_interfaces_create) = 0
  swap
  · simp [connectivity_set_resource, connectivity_set_resource_error, calloc, free,
      World.emit, iotcon_resource_types_create, iotcon_resource_types_add,
      iotcon_resource_interfaces_create, iotcon_resource_interfaces_add,
      iotcon_resource_create, iotcon_observers_create, iotcon_resource_types_destroy,
      iotcon_resource_interfaces_destroy, iotcon_resource_destroy, World.setRes,
      World.setObservers, World.record, World.sent,
      h1, h2, h3, h4, Ne.symm h4]
  by_cases h5 : sdk (w.trace ++
      [⟨Call.calloc, 0⟩,
       ⟨Call.iotcon_resource_types_create, 0⟩,
       ⟨Call.iotcon_resource_types_add (w.next + 2) type, 0⟩,
       ⟨Call.iotcon_resource_interfaces_create, 0⟩])
      (Call.iotcon_resource_interfaces_add (w.next + 3) IOTCON_INTERFACE_DEFAULT) = 0
  swap
  · simp [connectivity_set_resource, connectivity_set_resource_error, calloc, free,
      World.emit, iotcon_resource_types_create, iotcon_resource_types_add,
      iotcon_resource_interfaces_create, iotcon_resource_interfaces_add,
      iotcon_resource_create, iotcon_observers_create, iotcon_resource_types_destroy,
      iotcon_resource_interfaces_destroy, iotcon_resource_destroy, World.setRes,
      World.setObservers, World.record, World.sent,
      h1, h2, h3, h4, h5, Ne.symm h5]
  by_cases h6 : sdk (w.trace ++
      [⟨Call.calloc, 0⟩,
       ⟨Call.iotcon_resource_types_create, 0⟩,
       ⟨Call.iotcon_resource_types_add (w.next + 2) type, 0⟩,
       ⟨Call.iotcon_resource_interfaces_create, 0⟩,
       ⟨Call.iotcon_resource_interfaces_add (w.next + 3) IOTCON_INTERFACE_DEFAULT, 0⟩])
      (Call.iotcon_resource_interfaces_add (w.next + 3) IOTCON_INTERFACE_BATCH) = 0
  swap
  · simp [connectivity_set_resource, connectivity_set_resource_error, calloc, free,
      World.emit, iotcon_resource_types_create, iotcon_resource_types_add,
      iotcon_resource_interfaces_create, iotcon_resource_interfaces_add,
      iotcon_resource_create, iotcon_observers_create, iotcon_resource_types_destroy,
      iotcon_resource_interfaces_destroy, iotcon_resource_destroy, World.setRes,
      World.setObservers, World.record, World.sent,
      h1, h2, h3, h4, h5, h6, Ne.symm h6]
  by_cases h7 : sdk (w.trace ++
      [⟨Call.calloc, 0⟩,
       ⟨Call.iotcon_resource_types_create, 0⟩,
       ⟨Call.iotcon_resource_types_add (w.next + 2) type, 0⟩,
       ⟨Call.iotcon_resource_interfaces_create, 0⟩,
       ⟨Call.iotcon_resource_interfaces_add (w.next + 3) IOTCON_INTERFACE_DEFAULT, 0⟩,
       ⟨Call.iotcon_resource_interfaces_add (w.next + 3) IOTCON_INTERFACE_BATCH, 0⟩])
      (Call.iotcon_resource_create uri_path (w.next + 2) (w.next + 3)
        [IOTCON_RESOURCE_DISCOVERABLE, IOTCON_RESOURCE_OBSERVABLE, IOTCON_RESOURCE_SECURE]
        (w.next + 1)) = 0
  swap
  · simp [connectivity_set_resource, connectivity_set_resource_error, calloc, free,
      World.emit, iotcon_resource_types_create, iotcon_resource_types_add,
      iotcon_resource_interfaces_create, iotcon_resource_interfaces_add,
      iotcon_resource_create, iotcon_observers_create, iotcon_resource_types_destroy,
      iotcon_resource_interfaces_destroy, iotcon_resource_destroy, World.setRes,
      World.setObservers, World.record, World.sent,
      h1, h2, h3, h4, h5, h6, h7, Ne.symm h7]
  by_cases h8 : sdk (w.trace ++
      [⟨Call.calloc, 0⟩,
       ⟨Call.iotcon_resource_types_create, 0⟩,
       ⟨Call.iotcon_resource_types_add (w.next + 2) type, 0⟩,
       ⟨Call.iotcon_resource_interfaces_create, 0⟩,
       ⟨Call.iotcon_resource_interfaces_add (w.next + 3) IOTCON_INTERFACE_DEFAULT, 0⟩,
       ⟨Call.iotcon_resource_interfaces_add (w.next + 3) IOTCON_INTERFACE_BATCH, 0⟩,
       ⟨Call.iotcon_resource_create uri_path (w.next + 2) (w.next + 3)
        [IOTCON_RESOURCE_DISCOVERABLE, IOTCON_RESOURCE_OBSERVABLE, IOTCON_RESOURCE_SECURE]
        (w.next + 1), 0⟩])
      (Call.iotcon_observers_create) = 0
  swap
  · simp [connectivity_set_resource, connectivity_set_resource_error, calloc, free,
      World.emit, iotcon_resource_types_create, iotcon_resource_types_add,
      iotcon_resource_interfaces_create, iotcon_resource_interfaces_add,
      iotcon_resource_create, iotcon_observers_create, iotcon_resource_types_destroy,
      iotcon_resource_interfaces_destroy, iotcon_resource_destroy, World.setRes,
      World.setObservers, World.record, World.sent,
      h1, h2, h3, h4, h5, h6, h7, h8, Ne.symm h8]
  simp [connectivity_set_resource, connectivity_set_resource_error, calloc, free,
      World.emit, iotcon_resource_types_create, iotcon_resource_types_add,
      iotcon_resource_interfaces_create, iotcon_resource_interfaces_add,
      iotcon_resource_create, iotcon_observers_create, iotcon_resource_types_destroy,
      iotcon_resource_interfaces_destroy, iotcon_resource_destroy, World.setRes,
      World.setObservers, World.record, World.sent,
      h1, h2, h3, h4, h5, h6, h7, h8]

@[simp] theorem post_error_sent (a r : Nat) (w : World) :
    (_handle_post_request_error a r w).2.sent = w.sent := by
  unfold _handle_post_request_error
  simp only []
  split_ifs <;> simp

@[simp] theorem post_error_fst (a r : Nat) (w : World) :
    (_handle_post_request_error a r w).1 = -1 := rfl

/-- What `_handle_post_request` sends, on any platform. -/
theorem post_sent (sdk : Platform) (resource_info : Nat) (request : Request) (w : World) :
    ((_handle_post_request sdk resource_info request w).1 = 0 ∧
      (_handle_post_request sdk resource_info request w).2.sent
        = w.sent ++ [some IOTCON_RESPONSE_RESOURCE_CREATED]) ∨
    ((_handle_post_request sdk resource_info request w).1 = -1 ∧
      (_handle_post_request sdk resource_info request w).2.sent = w.sent) := by
  generalize hr : _handle_post_request sdk resource_info request w = r
  unfold _handle_post_request at hr
  split at hr
  · subst hr
    simp
  split at hr
  rename_i new_resource_info w1 h1
  have f1 := calloc_sent sdk w
  rw [h1] at f1
  simp only [] at f1
  split at hr
  · subst hr
    simp [f1]
  split at hr
  rename_i ret2 out w2 h2
  have f2 := set_resource_sent sdk ULTRASONIC_RESOURCE_2_URI ULTRASONIC_RESOURCE_TYPE
    new_resource_info w1
  rw [h2] at f2
  simp only [] at f2
  split at hr
  · subst hr
    simp [f1, f2]
  conv at hr => lhs; zeta
  generalize hw2b : ({ w2 with _resource_created := true } : World) = w2b at hr
  have f2b : w2b.sent = w2.sent := by rw [← hw2b]; rfl
  split at hr
  rename_i ret3 resp_repr w3 h3
  have f3 := iotcon_representation_create_sent sdk w2b
  rw [h3] at f3
  simp only [] at f3
  split at hr
  · subst hr
    simp [f1, f2, f2b, f3]
  split at hr
  rename_i ret4 resp_attributes w4 h4
  have f4 := iotcon_attributes_create_sent sdk w3
  rw [h4] at f4
  simp only [] at f4
  split at hr
  · subst hr
    simp [f1, f2, f2b, f3, f4]
  split at hr
  rename_i ret5 w5 h5
  have f5 := iotcon_attributes_add_str_sent sdk resp_attributes "createduripath"
    ULTRASONIC_RESOURCE_2_URI w4
  rw [h5] at f5
  simp only [] at f5
  split at hr
  · subst hr
    simp [f1, f2, f2b, f3, f4, f5]
  split at hr
  rename_i ret6 w6 h6
  have f6 := iotcon_representation_set_attributes_sent sdk resp_repr resp_attributes w5
  rw [h6] at f6
  simp only [] at f6
  split at hr
  · subst hr
    simp [f1, f2, f2b, f3, f4, f5, f6]
  generalize hw6b : iotcon_attributes_destroy resp_attributes w6 = w6b at hr
  have f6b : w6b.sent = w6.sent := by
    rw [← hw6b]; exact iotcon_attributes_destroy_sent resp_attributes w6
  split at hr
  rename_i ret7 w7 h7
  have s7 := send_response_sent sdk request resp_repr IOTCON_RESPONSE_RESOURCE_CREATED w6b
  rw [h7] at s7
  simp only [] at s7
  split at hr
  · subst hr
    rcases s7 with ⟨h0, s7⟩ | ⟨h0, s7⟩
    · simp_all
    · simp [s7, f1, f2, f2b, f3, f4, f5, f6, f6b]
  · subst hr
    rcases s7 with ⟨h0, s7⟩ | ⟨h0, s7⟩
    · simp [s7, f1, f2, f2b, f3, f4, f5, f6, f6b]
    · simp_all

/-- What `_handle_delete_request` sends, on any platform. -/
theorem delete_sent (sdk : Platform) (resource : Nat) (request : Request) (w : World) :
    ((_handle_delete_request sdk resource request w).1 = 0 ∧
      (_handle_delete_request sdk resource request w).2.sent
        = w.sent ++ [some IOTCON_RESPONSE_RESOURCE_DELETED]) ∨
    ((_handle_delete_request sdk resource request w).1 = -1 ∧
      (_handle_delete_request sdk resource request w).2.sent = w.sent) := by
  unfold _handle_delete_request
  simp only []
  have f1 := iotcon_resource_destroy_sent sdk resource w
  generalize iotcon_resource_destroy sdk resource w = r at f1 ⊢
  obtain ⟨ret1, w1⟩ := r
  simp only [] at f1 ⊢
  have s2 := send_response_sent sdk request 0 IOTCON_RESPONSE_RESOURCE_DELETED w1
  generalize _send_response sdk request 0 IOTCON_RESPONSE_RESOURCE_DELETED w1 = r at s2 ⊢
  obtain ⟨ret2, w2⟩ := r
  simp only [] at s2 ⊢
  rcases s2 with ⟨h2, s2⟩ | ⟨h2, s2⟩ <;> split_ifs <;> simp_all

@[simp] theorem query_sent (sdk : Platform) (request : Request) (w : World) :
    (_handle_query sdk request w).2.sent = w.sent := by
  unfold _handle_query
  simp only []
  have f1 := iotcon_request_get_query_sent sdk request w
  generalize iotcon_request_get_query sdk request w = r at f1 ⊢
  obtain ⟨ret1, query, w1⟩ := r
  simp only [] at f1 ⊢
  cases query <;> split_ifs <;> simp [f1]

@[simp] theorem observer_sent (sdk : Platform) (request : Request) (observers : Nat)
    (w : World) :
    (_handle_observer sdk request observers w).2.sent = w.sent := by
  unfold _handle_observer
  simp only []
  have f1 := iotcon_request_get_observe_type_sent sdk request w
  generalize iotcon_request_get_observe_type sdk request w = r at f1 ⊢
  obtain ⟨ret1, observe_type, w1⟩ := r
  simp only [] at f1 ⊢
  have f2 := iotcon_request_get_observe_id_sent sdk request (-1) w1
  generalize iotcon_request_get_observe_id sdk request (-1) w1 = r at f2 ⊢
  obtain ⟨ret2, observe_id, w2⟩ := r
  simp only [] at f2 ⊢
  have f3 := iotcon_observers_add_sent sdk observers observe_id w2
  have f4 := iotcon_observers_remove_sent sdk observers observe_id w2
  split_ifs <;> simp [f1, f2, f3, f4]

/-- What the CRUD dispatch sends, on any platform: when it returns 0, the response
of the request type, once; when it returns -1, either nothing, no notify call
having failed, or, for a PUT, its OK response and then one
`iotcon_resource_notify` call, which failed. -/
theorem crud_sent (sdk : Platform) (request : Request) (resource_info : Nat) (w : World) :
    ((_handle_request_by_crud_type sdk request resource_info w).1 = 0 ∧
      ∃ r, typeSpecific request.type = some r ∧
        (_handle_request_by_crud_type sdk request resource_info w).2.sent
          = w.sent ++ [some r]) ∨
    ((_handle_request_by_crud_type sdk request resource_info w).1 = -1 ∧
      (_handle_request_by_crud_type sdk request resource_info w).2.sent = w.sent ∧
      (_handle_request_by_crud_type sdk request resource_info w).2.notifyFailures
        = w.notifyFailures) ∨
    ((_handle_request_by_crud_type sdk request resource_info w).1 = -1 ∧
      request.type = IOTCON_REQUEST_PUT ∧
      (_handle_request_by_crud_type sdk request resource_info w).2.sent
        = w.sent ++ [some IOTCON_RESPONSE_OK] ∧
      (∃ e ∈ since w (_handle_request_by_crud_type sdk request resource_info w).2,
        isNotifyFailure e = true) ∧
      ∃ e, isNotifyFailure e = true ∧
        (_handle_request_by_crud_type sdk request resource_info w).2.notifyFailures
          = w.notifyFailures ++ [e]) := by
  unfold _handle_request_by_crud_type
  simp only []
  have f1 := iotcon_request_get_request_type_quiet sdk request w
  have n1 := iotcon_request_get_request_type_notifyFailures sdk request w
  have hv := iotcon_request_get_request_type_value sdk request w
  generalize iotcon_request_get_request_type sdk request w = r at f1 n1 hv ⊢
  obtain ⟨ret1, type, w1⟩ := r
  simp only [] at f1 n1 hv ⊢
  by_cases c1 : IOTCON_ERROR_NONE ≠ ret1
  · simp [c1, f1.1, n1]
  have h0 : ret1 = IOTCON_ERROR_NONE := by
    by_contra hne
    exact c1 (Ne.symm hne)
  have hty : type = request.type := hv h0
  subst hty
  simp only [c1, if_false]
  cases hreq : request.type
  · simp [f1.1, n1]
  · have n := get_notifyFailures sdk (w1.record resource_info).res request w1
    rcases get_sent sdk (w1.record resource_info).res request w1 with ⟨h, s⟩ | ⟨h, s⟩
    · simp [h, s, f1.1, typeSpecific]
    · simp [h, s, f1.1, n, n1]
  · rcases put_sent sdk resource_info request w1 with
      ⟨h, s, _⟩ | ⟨h, s, n⟩ | ⟨h, s, hl, ⟨e, he, hn⟩, e2, hn2, n⟩
    · simp [h, s, f1.1, typeSpecific]
    · simp [h, s, f1.1, n, n1]
    · refine Or.inr (Or.inr ?_)
      simp only [h]
      refine ⟨by simp, trivial, by simp [s, f1.1], ?_, ?_⟩
      · exact ⟨e, since_of_later f1.later hl e (by simpa using he), hn⟩
      · exact ⟨e2, hn2, by simp [n, n1]⟩
  · have n := post_notifyFailures sdk resource_info request w1
    rcases post_sent sdk resource_info request w1 with ⟨h, s⟩ | ⟨h, s⟩
    · simp [h, s, f1.1, typeSpecific]
    · simp [h, s, f1.1, n, n1]
  · have n := delete_notifyFailures sdk (w1.record resource_info).res request w1
    rcases delete_sent sdk (w1.record resource_info).res request w1 with ⟨h, s⟩ | ⟨h, s⟩
    · simp [h, s, f1.1, typeSpecific]
    · simp [h, s, f1.1, n, n1]

/-! ## The claims -/

/-- Two failing runs on the door resource.  A DELETE whose `iotcon_resource_destroy`
call fails gets the ERROR response and no RESOURCE_DELETED response.  When every
`iotcon_response_send` call fails, a GET gets no response at all: neither its OK
response nor the ERROR response goes out. -/
theorem handler_failed_delete_and_failed_send :
    (_request_resource_handler resourceDestroyFails 4 (some deleteRequest) 1 door).sent
      = [some IOTCON_RESPONSE_ERROR] ∧
    (_request_resource_handler responseSendFails 4 (some getRequest) 1 door).sent = [] := by
  decide

/-- C2: from a state in which the latch `_resource_created` is false, on a platform
where every call succeeds, the first POST returns 0, registers a resource at
`"/door/2"` and sends one RESOURCE_CREATED response; a second POST right after it
returns -1 and changes nothing but the `_E` log: it makes no call at all, so it
allocates no record, no platform object, no representation and no attributes. -/
theorem post_twice (first second : Request) (resource_info : Nat) (w : World)
    (hlatch : w._resource_created = false) :
    (_handle_post_request allOk resource_info first w).1 = 0 ∧
    (_handle_post_request allOk resource_info first w).2.resources
      = (w.next + 5, ⟨"/door/2", [ULTRASONIC_RESOURCE_TYPE],
          [IOTCON_INTERFACE_DEFAULT, IOTCON_INTERFACE_BATCH],
          [IOTCON_RESOURCE_DISCOVERABLE, IOTCON_RESOURCE_OBSERVABLE,
           IOTCON_RESOURCE_SECURE], w.next + 2⟩) :: w.resources ∧
    (_handle_post_request allOk resource_info first w).2.wire
      = w.wire ++ [Message.response (some IOTCON_RESPONSE_RESOURCE_CREATED)
          (some ⟨none, [("createduripath", Value.str "/door/2")]⟩)] ∧
    _handle_post_request allOk resource_info second
        (_handle_post_request allOk resource_info first w).2
      = (-1, _E "Resource(%s) is already created"
          (_handle_post_request allOk resource_info first w).2) ∧
    (_handle_post_request allOk resource_info second
        (_handle_post_request allOk resource_info first w).2).2.trace
      = (_handle_post_request allOk resource_info first w).2.trace := by
  rw [post_allOk first resource_info w hlatch]
  refine ⟨rfl, rfl, rfl, ?_, ?_⟩ <;> simp [_handle_post_request, _E]

/-- C2 (witness): the two POSTs starting from the initial state. -/
theorem post_twice_initial :
    World.initial._resource_created = false ∧
    ((_handle_post_request allOk 0 postRequest World.initial).1 = 0 ∧
    (_handle_post_request allOk 0 postRequest World.initial).2.resources
      = (World.initial.next + 5, ⟨"/door/2", [ULTRASONIC_RESOURCE_TYPE],
          [IOTCON_INTERFACE_DEFAULT, IOTCON_INTERFACE_BATCH],
          [IOTCON_RESOURCE_DISCOVERABLE, IOTCON_RESOURCE_OBSERVABLE,
           IOTCON_RESOURCE_SECURE], World.initial.next + 2⟩) :: World.initial.resources ∧
    (_handle_post_request allOk 0 postRequest World.initial).2.wire
      = World.initial.wire ++ [Message.response (some IOTCON_RESPONSE_RESOURCE_CREATED)
          (some ⟨none, [("createduripath", Value.str "/door/2")]⟩)] ∧
    _handle_post_request allOk 0 postRequest
        (_handle_post_request allOk 0 postRequest World.initial).2
      = (-1, _E "Resource(%s) is already created"
          (_handle_post_request allOk 0 postRequest World.initial).2) ∧
    (_handle_post_request allOk 0 postRequest
        (_handle_post_request allOk 0 postRequest World.initial).2).2.trace
      = (_handle_post_request allOk 0 postRequest World.initial).2.trace) :=
  ⟨rfl, post_twice postRequest postRequest 0 World.initial rfl⟩

/-- C3: if any of the fallible sub-steps of `connectivity_set_resource` (resource
types create/add, interfaces create/add default/add batch, resource create,
observers create) reports a failure, the function returns -1 and the live platform
handles of each kind (resource types, interfaces, resources, observer sets) are
exactly those from before the call; the destroy calls it made are on distinct
handles and as many as the platform objects it created, so each object it
created was destroyed exactly once. -/
theorem set_resource_failure_releases (sdk : Platform) (uri_path type : String) (out : Nat)
    (w : World)
    (hfail : ∃ e ∈ since w (connectivity_set_resource sdk uri_path type out w).2.2,
      isSetResourceStep e.call = true ∧ e.status ≠ IOTCON_ERROR_NONE) :
    (connectivity_set_resource sdk uri_path type out w).1 = -1 ∧
    (connectivity_set_resource sdk uri_path type out w).2.2.resource_types = w.resource_types ∧
    (connectivity_set_resource sdk uri_path type out w).2.2.interfaces = w.interfaces ∧
    (connectivity_set_resource sdk uri_path type out w).2.2.resources = w.resources ∧
    (connectivity_set_resource sdk uri_path type out w).2.2.observers = w.observers ∧
    ((since w (connectivity_set_resource sdk uri_path type out w).2.2).filter
      isPlatformDestroy).Nodup ∧
    ((since w (connectivity_set_resource sdk uri_path type out w).2.2).filter
      isPlatformDestroy).length =
    ((since w (connectivity_set_resource sdk uri_path type out w).2.2).filter
      isPlatformCreate).length := by
  by_cases h1 : sdk w.trace Call.calloc = 0
  swap
  · simp [connectivity_set_resource, connectivity_set_resource_error, calloc, free,
      World.emit, iotcon_resource_types_create, iotcon_resource_types_add,
      iotcon_resource_interfaces_create, iotcon_resource_interfaces_add,
      iotcon_resource_create, iotcon_observers_create, iotcon_resource_types_destroy,
      iotcon_resource_interfaces_destroy, iotcon_resource_destroy, World.setRes,
      World.setObservers, World.record, since, isSetResourceStep,
      isPlatformDestroy, isPlatformCreate,
      h1, Ne.symm h1]
  by_cases h2 : sdk (w.trace ++
      [⟨Call.calloc, 0⟩])
      (Call.iotcon_resource_types_create) = 0
  swap
  · simp [connectivity_set_resource, connectivity_set_resource_error, calloc, free,
      World.emit, iotcon_resource_types_create, iotcon_resource_types_add,
      iotcon_resource_interfaces_create, iotcon_resource_interfaces_add,
      iotcon_resource_create, iotcon_observers_create, iotcon_resource_types_destroy,
      iotcon_resource_interfaces_destroy, iotcon_resource_destroy, World.setRes,
      World.setObservers, World.record, since, isSetResourceStep,
      isPlatformDestroy, isPlatformCreate,
      h1, h2, Ne.symm h2]
  by_cases h3 : sdk (w.trace ++
      [⟨Call.calloc, 0⟩,
       ⟨Call.iotcon_resource_types_create, 0⟩])
      (Call.iotcon_resource_types_add (w.next + 2) type) = 0
  swap
  · simp [connectivity_set_resource, connectivity_set_resource_error, calloc, free,
      World.emit, iotcon_resource_types_create, iotcon_resource_types_add,
      iotcon_resource_interfaces_create, iotcon_resource_interfaces_add,
      iotcon_resource_create, iotcon_observers_create, iotcon_resource_types_destroy,
      iotcon_resource_interfaces_destroy, iotcon_resource_destroy, World.setRes,
      World.setObservers, World.record, since, isSetResourceStep,
      isPlatformDestroy, isPlatformCreate,
      h1, h2, h3, Ne.symm h3]
  by_cases h4 : sdk (w.trace ++
      [⟨Call.calloc, 0⟩,
       ⟨Call.iotcon_resource_types_create, 0⟩,
       ⟨Call.iotcon_resource_types_add (w.next + 2) type, 0⟩])
      (Call.iotcon_resource_interfaces_create) = 0
  swap
  · simp [connectivity_set_resource, connectivity_set_resource_error, calloc, free,
      World.emit, iotcon_resource_types_create, iotcon_resource_types_add,
      iotcon_resource_interfaces_create, iotcon_resource_interfaces_add,
      iotcon_resource_create, iotcon_observers_create, iotcon_resource_types_destroy,
      iotcon_resource_interfaces_destroy, iotcon_resource_destroy, World.setRes,
      World.setObservers, World.record, since, isSetResourceStep,
      isPlatformDestroy, isPlatformCreate,
      h1, h2, h3, h4, Ne.symm h4]
  by_cases h5 : sdk (w.trace ++
      [⟨Call.calloc, 0⟩,
       ⟨Call.iotcon_resource_types_create, 0⟩,
       ⟨Call.iotcon_resource_types_add (w.next + 2) type, 0⟩,
       ⟨Call.iotcon_resource_interfaces_create, 0⟩])
      (Call.iotcon_resource_interfaces_add (w.next + 3) IOTCON_INTERFACE_DEFAULT) = 0
  swap
  · simp [connectivity_set_resource, connectivity_set_resource_error, calloc, free,
      World.emit, iotcon_resource_types_create, iotcon_resource_types_add,
      iotcon_resource_interfaces_create, iotcon_resource_interfaces_add,
      iotcon_resource_create, iotcon_observers_create, iotcon_resource_types_destroy,
      iotcon_resource_interfaces_destroy, iotcon_resource_destroy, World.setRes,
      World.setObservers, World.record, since, isSetResourceStep,
      isPlatformDestroy, isPlatformCreate,
      h1, h2, h3, h4, h5, Ne.symm h5]
  by_cases h6 : sdk (w.trace ++
      [⟨Call.calloc, 0⟩,
       ⟨Call.iotcon_resource_types_create, 0⟩,
       ⟨Call.iotcon_resource_types_add (w.next + 2) type, 0⟩,
       ⟨Call.iotcon_resource_interfaces_create, 0⟩,
       ⟨Call.iotcon_resource_interfaces_add (w.next + 3) IOTCON_INTERFACE_DEFAULT, 0⟩])
      (Call.iotcon_resource_interfaces_add (w.next + 3) IOTCON_INTERFACE_BATCH) = 0
  swap
  · simp [connectivity_set_resource, connectivity_set_resource_error, calloc, free,
      World.emit, iotcon_resource_types_create, iotcon_resource_types_add,
      iotcon_resource_interfaces_create, iotcon_resource_interfaces_add,
      iotcon_resource_create, iotcon_observers_create, iotcon_resource_types_destroy,
      iotcon_resource_interfaces_destroy, iotcon_resource_destroy, World.setRes,
      World.setObservers, World.record, since, isSetResourceStep,
      isPlatformDestroy, isPlatformCreate,
      h1, h2, h3, h4, h5, h6, Ne.symm h6]
  by_cases h7 : sdk (w.trace ++
      [⟨Call.calloc, 0⟩,
       ⟨Call.iotcon_resource_types_create, 0⟩,
       ⟨Call.iotcon_resource_types_add (w.next + 2) type, 0⟩,
       ⟨Call.iotcon_resource_interfaces_create, 0⟩,
       ⟨Call.iotcon_resource_interfaces_add (w.next + 3) IOTCON_INTERFACE_DEFAULT, 0⟩,
       ⟨Call.iotcon_resource_interfaces_add (w.next + 3) IOTCON_INTERFACE_BATCH, 0⟩])
      (Call.iotcon_resource_create uri_path (w.next + 2) (w.next + 3)
        [IOTCON_RESOURCE_DISCOVERABLE, IOTCON_RESOURCE_OBSERVABLE, IOTCON_RESOURCE_SECURE]
        (w.next + 1)) = 0
  swap
  · simp [connectivity_set_resource, connectivity_set_resource_error, calloc, free,
      World.emit, iotcon_resource_types_create, iotcon_resource_types_add,
      iotcon_resource_interfaces_create, iotcon_resource_interfaces_add,
      iotcon_resource_create, iotcon_observers_create, iotcon_resource_types_destroy,
      iotcon_resource_interfaces_destroy, iotcon_resource_destroy, World.setRes,
      World.setObservers, World.record, since, isSetResourceStep,
      isPlatformDestroy, isPlatformCreate,
      h1, h2, h3, h4, h5, h6, h7, Ne.symm h7]
  by_cases h8 : sdk (w.trace ++
      [⟨Call.calloc, 0⟩,
       ⟨Call.iotcon_resource_types_create, 0⟩,
       ⟨Call.iotcon_resource_types_add (w.next + 2) type, 0⟩,
       ⟨Call.iotcon_resource_interfaces_create, 0⟩,
       ⟨Call.iotcon_resource_interfaces_add (w.next + 3) IOTCON_INTERFACE_DEFAULT, 0⟩,
       ⟨Call.iotcon_resource_interfaces_add (w.next + 3) IOTCON_INTERFACE_BATCH, 0⟩,
       ⟨Call.iotcon_resource_create uri_path (w.next + 2) (w.next + 3)
        [IOTCON_RESOURCE_DISCOVERABLE, IOTCON_RESOURCE_OBSERVABLE, IOTCON_RESOURCE_SECURE]
        (w.next + 1), 0⟩])
      (Call.iotcon_observers_create) = 0
  swap
  · simp [connectivity_set_resource, connectivity_set_resource_error, calloc, free,
      World.emit, iotcon_resource_types_create, iotcon_resource_types_add,
      iotcon_resource_interfaces_create, iotcon_resource_interfaces_add,
      iotcon_resource_create, iotcon_observers_create, iotcon_resource_types_destroy,
      iotcon_resource_interfaces_destroy, iotcon_resource_destroy, World.setRes,
      World.setObservers, World.record, since, isSetResourceStep,
      isPlatformDestroy, isPlatformCreate,
      h1, h2, h3, h4, h5, h6, h7, h8, Ne.symm h8]
  exfalso
  simp [connectivity_set_resource, connectivity_set_resource_error, calloc, free,
      World.emit, iotcon_resource_types_create, iotcon_resource_types_add,
      iotcon_resource_interfaces_create, iotcon_resource_interfaces_add,
      iotcon_resource_create, iotcon_observers_create, iotcon_resource_types_destroy,
      iotcon_resource_interfaces_destroy, iotcon_resource_destroy, World.setRes,
      World.setObservers, World.record, since, isSetResourceStep,
      isPlatformDestroy, isPlatformCreate,
      h1, h2, h3, h4, h5, h6, h7, h8] at hfail

/-- C3 (witness): `iotcon_observers_create` fails while setting up the door resource
from the initial state. -/
theorem set_resource_failure_releases_witness :
    (∃ e ∈ since World.initial (connectivity_set_resource observersCreateFails
        ULTRASONIC_RESOURCE_1_URI ULTRASONIC_RESOURCE_TYPE 0 World.initial).2.2,
      isSetResourceStep e.call = true ∧ e.status ≠ IOTCON_ERROR_NONE) ∧
    ((connectivity_set_resource observersCreateFails ULTRASONIC_RESOURCE_1_URI
        ULTRASONIC_RESOURCE_TYPE 0 World.initial).1 = -1 ∧
    (connectivity_set_resource observersCreateFails ULTRASONIC_RESOURCE_1_URI
        ULTRASONIC_RESOURCE_TYPE 0 World.initial).2.2.resource_types
      = World.initial.resource_types ∧
    (connectivity_set_resource observersCreateFails ULTRASONIC_RESOURCE_1_URI
        ULTRASONIC_RESOURCE_TYPE 0 World.initial).2.2.interfaces = World.initial.interfaces ∧
    (connectivity_set_resource observersCreateFails ULTRASONIC_RESOURCE_1_URI
        ULTRASONIC_RESOURCE_TYPE 0 World.initial).2.2.resources = World.initial.resources ∧
    (connectivity_set_resource observersCreateFails ULTRASONIC_RESOURCE_1_URI
        ULTRASONIC_RESOURCE_TYPE 0 World.initial).2.2.observers = World.initial.observers ∧
    ((since World.initial (connectivity_set_resource observersCreateFails
        ULTRASONIC_RESOURCE_1_URI ULTRASONIC_RESOURCE_TYPE 0 World.initial).2.2).filter
      isPlatformDestroy).Nodup ∧
    ((since World.initial (connectivity_set_resource observersCreateFails
        ULTRASONIC_RESOURCE_1_URI ULTRASONIC_RESOURCE_TYPE 0 World.initial).2.2).filter
      isPlatformDestroy).length =
    ((since World.initial (connectivity_set_resource observersCreateFails
        ULTRASONIC_RESOURCE_1_URI ULTRASONIC_RESOURCE_TYPE 0 World.initial).2.2).filter
      isPlatformCreate).length) :=
  ⟨⟨⟨Call.iotcon_observers_create, -1⟩, by decide, by decide, by decide⟩,
    set_resource_failure_releases observersCreateFails ULTRASONIC_RESOURCE_1_URI
      ULTRASONIC_RESOURCE_TYPE 0 World.initial
      ⟨⟨Call.iotcon_observers_create, -1⟩, by decide, by decide, by decide⟩⟩

/-- C4: for every boolean `v`, on a platform where every call succeeds, a PUT whose
body carries `"opened" = v`, handled for a live resource, returns 0; it sends
exactly one response, with result OK and a representation carrying `"opened" = v`,
and then makes exactly one `iotcon_resource_notify` call, on the resource and the
observer set of its own record, with the same representation (so the notification
carries the same `"opened" = v`) at `IOTCON_QOS_HIGH`. -/
theorem put_sends_ok_then_notifies (v : Bool) (request : Request) (resource_info : Nat)
    (w : World) (rec : connectivity_resource_s) (r : ResourceObj) (body : RepresentationObj)
    (battrs : AttributesObj)
    (hrec : find? resource_info w.records = some rec)
    (hres : find? rec.res w.resources = some r)
    (hbody : find? request.representation w.representations = some body)
    (hattrs : find? body.attributes w.attributes = some battrs)
    (hopened : battrs.entries.lookup "opened" = some (Value.bool v)) :
    (_handle_put_request allOk resource_info request w).1 = 0 ∧
    (_handle_put_request allOk resource_info request w).2.wire = w.wire ++
      [Message.response (some IOTCON_RESPONSE_OK)
         (some ⟨some r.uri_path, [("opened", Value.bool v)]⟩),
       Message.notification rec.res rec.observers ((find? rec.observers w.observers).getD [])
         (some ⟨some r.uri_path, [("opened", Value.bool v)]⟩) IOTCON_QOS_HIGH] ∧
    (_handle_put_request allOk resource_info request w).2.sent
      = w.sent ++ [some IOTCON_RESPONSE_OK] ∧
    notifyCalls (_handle_put_request allOk resource_info request w).2.trace
      = notifyCalls w.trace ++
        [Call.iotcon_resource_notify rec.res (w.next + 1) rec.observers IOTCON_QOS_HIGH] := by
  rw [put_allOk v request resource_info w rec r body battrs hrec hres hbody hattrs hopened]
  refine ⟨rfl, rfl, ?_, ?_⟩
  · simp [World.sent, responsesOf_append, responsesOf]
  · simp [notifyCalls_append, notifyCalls]

/-- C4 (witness): a PUT with `"opened" = true` for the freshly set door resource. -/
theorem put_sends_ok_then_notifies_door :
    (find? 1 (withBody true door).records = some ⟨4, 5⟩ ∧
      find? 4 (withBody true door).resources ≠ none ∧
      find? putRequest.representation (withBody true door).representations
        = some ⟨none, 101⟩ ∧
      find? 101 (withBody true door).attributes = some ⟨[("opened", Value.bool true)], 1⟩) ∧
    ((_handle_put_request allOk 1 putRequest (withBody true door)).1 = 0 ∧
    (_handle_put_request allOk 1 putRequest (withBody true door)).2.wire
      = (withBody true door).wire ++
      [Message.response (some IOTCON_RESPONSE_OK)
         (some ⟨some "/door/1", [("opened", Value.bool true)]⟩),
       Message.notification 4 5 ((find? 5 (withBody true door).observers).getD [])
         (some ⟨some "/door/1", [("opened", Value.bool true)]⟩) IOTCON_QOS_HIGH] ∧
    (_handle_put_request allOk 1 putRequest (withBody true door)).2.sent
      = (withBody true door).sent ++ [some IOTCON_RESPONSE_OK] ∧
    notifyCalls (_handle_put_request allOk 1 putRequest (withBody true door)).2.trace
      = notifyCalls (withBody true door).trace ++
        [Call.iotcon_resource_notify 4 ((withBody true door).next + 1) 5 IOTCON_QOS_HIGH]) :=
  ⟨by decide,
    put_sends_ok_then_notifies true putRequest 1 (withBody true door) ⟨4, 5⟩
      ⟨"/door/1", [ULTRASONIC_RESOURCE_TYPE],
        [IOTCON_INTERFACE_DEFAULT, IOTCON_INTERFACE_BATCH],
        [IOTCON_RESOURCE_DISCOVERABLE, IOTCON_RESOURCE_OBSERVABLE, IOTCON_RESOURCE_SECURE], 1⟩
      ⟨none, 101⟩ ⟨[("opened", Value.bool true)], 1⟩
      (by decide) (by decide) (by decide) (by decide) (by decide)⟩

/-- C5 (as stated, refuted): the freshly set door resource has an observer set that
exists and has no members, yet `connectivity_notify` on it creates a representation
and calls `iotcon_resource_notify`; it returns 0 when that call succeeds, and when
that call fails it returns -1 only after having made both calls. -/
theorem notify_empty_observer_set_proceeds :
    find? 5 door.observers = some [] ∧
    (door.record 1).observers = 5 ∧
    (connectivity_notify allOk 1 1 door).1 = 0 ∧
    ⟨Call.iotcon_representation_create, 0⟩ ∈ since door (connectivity_notify allOk 1 1 door).2 ∧
    ⟨Call.iotcon_resource_notify 4 6 5 IOTCON_QOS_HIGH, 0⟩
      ∈ since door (connectivity_notify allOk 1 1 door).2 ∧
    ⟨Call.iotcon_representation_create, 0⟩
      ∈ since door (connectivity_notify notifyFails 1 1 door).2 ∧
    ⟨Call.iotcon_resource_notify 4 6 5 IOTCON_QOS_HIGH, -1⟩
      ∈ since door (connectivity_notify notifyFails 1 1 door).2 := by
  decide

/-- C5 (amended): for every resource pointer that is null or whose record has a null
observers handle (no observer set), and every value, `connectivity_notify` returns
-1 immediately and leaves the state as it is: no representation is created and
`iotcon_resource_notify` is not called. -/
theorem notify_without_observer_set (sdk : Platform) (resource_info : Nat) (value : Int)
    (w : World) (h : resource_info = 0 ∨ (w.record resource_info).observers = 0) :
    connectivity_notify sdk resource_info value w = (-1, w) := by
  unfold connectivity_notify
  rcases h with h | h
  · simp [h]
  · simp [h]

/-- C5 (witness): a record whose observers handle is null. -/
theorem notify_without_observer_set_witness :
    ((1 : Nat) = 0 ∨ (({ World.initial with records := [(1, ⟨4, 0⟩)] } : World).record
        1).observers = 0) ∧
    connectivity_notify allOk 1 1 { World.initial with records := [(1, ⟨4, 0⟩)] }
      = (-1, { World.initial with records := [(1, ⟨4, 0⟩)] }) :=
  ⟨Or.inr (by decide),
    notify_without_observer_set allOk 1 1 { World.initial with records := [(1, ⟨4, 0⟩)] }
      (Or.inr (by decide))⟩

/-- C6 (the code at the failing input): a DELETE request handled for the freshly set
door resource destroys the platform resource (handle 4) and sends RESOURCE_DELETED,
but the observer set of that resource (handle 5) is still live afterwards and the
record still points at the destroyed resource; `connectivity_unset_resource` on the
same state destroys both. -/
theorem delete_leaves_observer_set :
    find? 4 door.resources ≠ none ∧
    find? 5 door.observers = some [] ∧
    find? 4 (_request_resource_handler allOk 4 (some deleteRequest) 1 door).resources = none ∧
    find? 5 (_request_resource_handler allOk 4 (some deleteRequest) 1 door).observers
      = some [] ∧
    (_request_resource_handler allOk 4 (some deleteRequest) 1 door).records
      = [(1, ⟨4, 5⟩)] ∧
    (_request_resource_handler allOk 4 (some deleteRequest) 1 door).sent
      = [some IOTCON_RESPONSE_RESOURCE_DELETED] ∧
    find? 4 (connectivity_unset_resource allOk 1 door).resources = none ∧
    find? 5 (connectivity_unset_resource allOk 1 door).observers = none := by
  decide

/-- C7: on a platform where every call succeeds, starting from an empty observer
set, a request with observe type REGISTER and id `i` makes the set `[i]`, and a
following request with observe type DEREGISTER and the same id makes it empty
again; a request whose observe type is neither leaves every observer set as it is
(on any platform). -/
theorem observer_register_then_deregister (sdk : Platform) (i : Int)
    (register deregister other : Request) (observers : Nat) (w : World)
    (hreg : register.observe_type = IOTCON_OBSERVE_REGISTER ∧ register.observe_id = i)
    (hdereg : deregister.observe_type = IOTCON_OBSERVE_DEREGISTER ∧ deregister.observe_id = i)
    (hother : other.observe_type ≠ IOTCON_OBSERVE_REGISTER ∧
      other.observe_type ≠ IOTCON_OBSERVE_DEREGISTER)
    (hempty : find? observers w.observers = some []) :
    (_handle_observer allOk register observers w).1 = 0 ∧
    find? observers (_handle_observer allOk register observers w).2.observers = some [i] ∧
    (_handle_observer allOk deregister observers
      (_handle_observer allOk register observers w).2).1 = 0 ∧
    find? observers (_handle_observer allOk deregister observers
      (_handle_observer allOk register observers w).2).2.observers = some [] ∧
    (_handle_observer allOk other observers w).1 = 0 ∧
    (_handle_observer sdk other observers w).2.observers = w.observers := by
  obtain ⟨h1, h2⟩ := hreg
  obtain ⟨h3, h4⟩ := hdereg
  obtain ⟨h5, h6⟩ := hother
  refine ⟨?_, ?_, ?_, ?_, ?_, ?_⟩
  · simp [_handle_observer, iotcon_request_get_observe_type, iotcon_request_get_observe_id,
      iotcon_observers_add, iotcon_observers_remove, allOk, World.emit, h1, h2, h3, h4, hempty]
  · simp [_handle_observer, iotcon_request_get_observe_type, iotcon_request_get_observe_id,
      iotcon_observers_add, iotcon_observers_remove, allOk, World.emit, h1, h2, h3, h4, hempty]
  · simp [_handle_observer, iotcon_request_get_observe_type, iotcon_request_get_observe_id,
      iotcon_observers_add, iotcon_observers_remove, allOk, World.emit, h1, h2, h3, h4, hempty]
  · simp [_handle_observer, iotcon_request_get_observe_type, iotcon_request_get_observe_id,
      iotcon_observers_add, iotcon_observers_remove, allOk, World.emit, h1, h2, h3, h4, hempty]
  · simp [_handle_observer, iotcon_request_get_observe_type, iotcon_request_get_observe_id,
      allOk, World.emit, Ne.symm h5, Ne.symm h6]
  · unfold _handle_observer iotcon_request_get_observe_type
    by_cases hs : sdk w.trace Call.iotcon_request_get_observe_type = IOTCON_ERROR_NONE
    · simp [hs, World.emit, Ne.symm h5, Ne.symm h6]
    · simp [hs, World.emit, Ne.symm hs]

/-- C7 (witness): observer 42 registers with, then deregisters from, the freshly
set door resource (observer set handle 5). -/
theorem observer_register_then_deregister_door :
    find? 5 door.observers = some [] ∧
    ((_handle_observer allOk (registerRequest 42) 5 door).1 = 0 ∧
    find? 5 (_handle_observer allOk (registerRequest 42) 5 door).2.observers = some [42] ∧
    (_handle_observer allOk (deregisterRequest 42) 5
      (_handle_observer allOk (registerRequest 42) 5 door).2).1 = 0 ∧
    find? 5 (_handle_observer allOk (deregisterRequest 42) 5
      (_handle_observer allOk (registerRequest 42) 5 door).2).2.observers = some [] ∧
    (_handle_observer allOk getRequest 5 door).1 = 0 ∧
    (_handle_observer allOk getRequest 5 door).2.observers = door.observers) :=
  ⟨by decide,
    observer_register_then_deregister allOk 42 (registerRequest 42) (deregisterRequest 42)
      getRequest 5 door ⟨rfl, rfl⟩ ⟨rfl, rfl⟩ ⟨by decide, by decide⟩ (by decide)⟩

/-- C10 (the code at the failing input): when `iotcon_resource_notify` fails,
`connectivity_notify` returns -1 with the representation it created (handle 6)
still live and no `iotcon_representation_destroy` call made, whereas
`_handle_put_request` in the same situation destroys its representation once. -/
theorem notify_failure_leaks_representation :
    (connectivity_notify notifyFails 1 1 door).1 = -1 ∧
    handles (connectivity_notify notifyFails 1 1 door).2.representations = [6] ∧
    ((connectivity_notify notifyFails 1 1 door).2.trace.map Event.call).count
      (Call.iotcon_representation_destroy 6) = 0 ∧
    (_handle_put_request notifyFails 1 putRequest (withBody true door)).1 = -1 ∧
    (_handle_put_request notifyFails 1 putRequest (withBody true door)).2.representations
      = (withBody true door).representations ∧
    ((_handle_put_request notifyFails 1 putRequest (withBody true door)).2.trace.map
      Event.call).count (Call.iotcon_representation_destroy 6) = 1 := by
  decide

end Connectivity
